import Mathlib

/-!
# Retro AIM server: authentication service and feedbag store

A shallow embedding of `handler/auth.go`, `oscar/session.go`,
`state/user_store.go` and `state/webapi_presence_bridge.go`.

Go values that live behind pointers or interfaces are passed explicitly:
a method that reads or mutates a collaborator takes the collaborator's
state and returns the new one.  SQL statements are embedded as the list
operations they denote on the rows of the `feedbag` table.
-/

namespace RetroAim

/-! ## TLVs and SNAC payloads used by the auth handlers -/

/-- Go `error` values; only their presence matters to the handlers. -/
abbrev Err := String

/-- The Go `any` values that the auth handlers hand to `oscar.NewTLV`. -/
inductive TLVVal where
  | str (s : String)
  | bytes (b : List Nat)
  | u16 (n : Nat)
  deriving DecidableEq, Repr

/-- One tag-length-value element (`oscar.TLV`). -/
structure TLV where
  TType : Nat
  Val : TLVVal
  deriving DecidableEq, Repr

/-- The tag constants are declared in the `oscar` package; the values are
those of the OSCAR login TLVs.  The development relies on their being
pairwise distinct only. -/
def TLVScreenName : Nat := 0x01
def TLVReconnectHere : Nat := 0x05
def TLVAuthorizationCookie : Nat := 0x06
def TLVErrorSubcode : Nat := 0x08
def TLVPasswordHash : Nat := 0x25

/-- Food group and subgroup numbers, as spelled in the payload type names
`SNAC_0x17_0x03_BUCPLoginResponse` and `SNAC_0x17_0x07_BUCPChallengeResponse`. -/
def BUCP : Nat := 0x17
def BUCPLoginResponse : Nat := 0x03
def BUCPChallengeResponse : Nat := 0x07

/-- Constructor `oscar.NewTLV`. -/
def NewTLV (tType : Nat) (val : TLVVal) : TLV := ⟨tType, val⟩

/-- Method `AddTLV` of a TLV block: append one element. -/
def AddTLV (block : List TLV) (t : TLV) : List TLV := block ++ [t]

/-- Method `AddTLVList` of a TLV block: append a list of elements. -/
def AddTLVList (block : List TLV) (ts : List TLV) : List TLV := block ++ ts

/-- Modelled from the spec: the typed TLV lookups of the `oscar` package
(section 4.1: a tag may be asked for as a string or a byte slice, and a
request for a missing tag reports absence without erroring).  The first
element with the tag decides. -/
def GetString (block : List TLV) (tType : Nat) : Option String :=
  match block.find? (fun t => t.TType == tType) with
  | some ⟨_, .str s⟩ => some s
  | _ => none

/-- Modelled from the spec: byte-slice lookup, see `GetString`. -/
def GetSlice (block : List TLV) (tType : Nat) : Option (List Nat) :=
  match block.find? (fun t => t.TType == tType) with
  | some ⟨_, .bytes b⟩ => some b
  | _ => none

structure SnacFrame where
  FoodGroup : Nat
  SubGroup : Nat
  deriving DecidableEq, Repr

/-- The payloads that the auth handlers place in `XMessage.SnacOut`. -/
inductive SnacOut where
  | none
  | loginResponse (TLVRestBlock : List TLV)
  | challengeResponse (AuthKey : String)
  deriving DecidableEq, Repr

structure XMessage where
  SnacFrame : SnacFrame
  SnacOut : SnacOut
  deriving DecidableEq, Repr

/-! ## Users, sessions and the collaborators of `AuthService` -/

/-- Type `server.User` as `handler/auth.go` uses it. -/
structure User where
  ScreenName : String
  AuthKey : String
  PassHash : List Nat
  deriving DecidableEq, Repr

/-- Type `Session` of `oscar/session.go` (the message channel is left out). -/
structure Session where
  ID : String
  ScreenName : String
  deriving DecidableEq, Repr

structure Config where
  DisableAuth : Bool
  OSCARHost : String
  BOSPort : Nat
  deriving DecidableEq, Repr

/-- Interface `server.UserManager`, over a store state `σ`.  `GetUser`
returns `(*User, error)`; `UpsertUser` returns the store it leaves behind
and its `error`. -/
structure UserManager (σ : Type) where
  GetUser : σ → String → Except Err (Option User)
  UpsertUser : σ → User → σ × Option Err

/-- Interface `server.SessionManager`, over a registry state `τ`. -/
structure SessionManager (τ : Type) where
  NewSessionWithSN : τ → String → String → τ × Session
  Remove : τ → Session → τ
  Retrieve : τ → String → Option Session

/-- The mutable state the auth service reaches through its collaborators. -/
structure World (σ τ : Type) where
  um : σ
  sm : τ

/-- Type `AuthService`.  Next to the Go fields `sm`, `um` and `cfg` it carries
the package-level helpers whose bodies are outside the handler:
`uuid.NewRandom` (already rendered with `String`), `User.HashPassword`,
`server.Address` and `broadcastDeparture`. -/
structure AuthService (σ τ : Type) where
  sm : SessionManager τ
  um : UserManager σ
  cfg : Config
  uuidNewRandom : Except Err String
  HashPassword : User → String → Except Err User
  Address : String → Nat → String
  broadcastDeparture : World σ τ → Session → World σ τ × Option Err

variable {σ τ : Type}

/-- Function `newStubUser` of `handler/auth.go`. -/
def newStubUser (s : AuthService σ τ) (screenName : String) : Except Err User :=
  let u : User := { ScreenName := screenName, AuthKey := "", PassHash := [] }
  match s.uuidNewRandom with
  | .error err => .error err
  | .ok uid =>
    let u := { u with AuthKey := uid }
    match s.HashPassword u "welcome1" with
    | .error err => .error err
    | .ok u1 => s.HashPassword u1 "welcome1"

/-- Method `AuthService.Signout`. -/
def Signout (s : AuthService σ τ) (w : World σ τ) (sess : Session) :
    Option Err × World σ τ :=
  match s.broadcastDeparture w sess with
  | (w1, some err) => (some err, w1)
  | (w1, none) => (none, { w1 with sm := s.sm.Remove w1.sm sess })

/-- Method `AuthService.ReceiveAndSendAuthChallenge`; `newUUID` stands for
`newUUID().String()`. -/
def ReceiveAndSendAuthChallenge (s : AuthService σ τ) (w : World σ τ)
    (snacPayloadIn : List TLV) (newUUID : String) : Except Err XMessage × World σ τ :=
  match GetString snacPayloadIn TLVScreenName with
  | none => (.error "screen name doesn't exist in tlv", w)
  | some screenName =>
    let challenge (authKey : String) : Except Err XMessage × World σ τ :=
      (.ok { SnacFrame := { FoodGroup := BUCP, SubGroup := BUCPChallengeResponse },
             SnacOut := .challengeResponse authKey }, w)
    match s.um.GetUser w.um screenName with
    | .error err => (.error err, w)
    | .ok (some u) => challenge u.AuthKey
    | .ok none =>
      if s.cfg.DisableAuth then
        challenge newUUID
      else
        let snacFrameOut : SnacFrame := { FoodGroup := BUCP, SubGroup := BUCPLoginResponse }
        let snacPayloadOut := AddTLV [] (NewTLV TLVErrorSubcode (.u16 0x01))
        (.ok { SnacFrame := snacFrameOut, SnacOut := .loginResponse snacPayloadOut }, w)

/-- The `switch` of `ReceiveAndSendBUCPLoginRequest` that decides `loginOK`. -/
def loginSwitch (s : AuthService σ τ) (w : World σ τ) (screenName : String)
    (md5Hash : List Nat) (u : Option User) : Except Err Bool × World σ τ :=
  if (match u with
      | some u => decide (u.PassHash = md5Hash)
      | none => false) then
    (.ok true, w)
  else if s.cfg.DisableAuth then
    match newStubUser s screenName with
    | .error err => (.error err, w)
    | .ok newUser =>
      match s.um.UpsertUser w.um newUser with
      | (um1, some err) => (.error err, { w with um := um1 })
      | (um1, none) => (.ok true, { w with um := um1 })
  else
    (.ok false, w)

/-- Method `AuthService.ReceiveAndSendBUCPLoginRequest`; `newUUID` stands for
`newUUID().String()`. -/
def ReceiveAndSendBUCPLoginRequest (s : AuthService σ τ) (w : World σ τ)
    (snacPayloadIn : List TLV) (newUUID : String) : Except Err XMessage × World σ τ :=
  match GetString snacPayloadIn TLVScreenName with
  | none => (.error "screen name doesn't exist in tlv", w)
  | some screenName =>
    match GetSlice snacPayloadIn TLVPasswordHash with
    | none => (.error "password hash doesn't exist in tlv", w)
    | some md5Hash =>
      match s.um.GetUser w.um screenName with
      | .error err => (.error err, w)
      | .ok u =>
        match loginSwitch s w screenName md5Hash u with
        | (.error err, w1) => (.error err, w1)
        | (.ok loginOK, w1) =>
          let snacPayloadOut := AddTLV [] (NewTLV TLVScreenName (.str screenName))
          let frame : SnacFrame := { FoodGroup := BUCP, SubGroup := BUCPLoginResponse }
          if loginOK then
            let r := s.sm.NewSessionWithSN w1.sm newUUID screenName
            (.ok { SnacFrame := frame,
                   SnacOut := .loginResponse (AddTLVList snacPayloadOut
                     [ NewTLV TLVReconnectHere (.str (s.Address s.cfg.OSCARHost s.cfg.BOSPort)),
                       NewTLV TLVAuthorizationCookie (.str r.2.ID) ]) },
             { w1 with sm := r.1 })
          else
            (.ok { SnacFrame := frame,
                   SnacOut := .loginResponse (AddTLVList snacPayloadOut
                     [ NewTLV TLVErrorSubcode (.u16 0x01) ]) },
             w1)

/-- Whether a message is a login response that carries the TLV `t`. -/
def carries (m : XMessage) (t : TLV) : Prop :=
  match m.SnacOut with
  | .loginResponse block => t ∈ block
  | _ => False

/-- Whether a message is a login response with some TLV of tag `tType`. -/
def carriesTag (m : XMessage) (tType : Nat) : Prop :=
  match m.SnacOut with
  | .loginResponse block => ∃ t ∈ block, t.TType = tType
  | _ => False

/-! ### Concrete collaborators -/

/-- Type `SessionManager` of `oscar/session.go`: the `store` map, as an
association list from session id to session. -/
abbrev SessionStore := List (String × Session)

/-- Method `SessionManager.Retrieve` of `oscar/session.go`. -/
def SessionStore.Retrieve (store : SessionStore) (ID : String) : Option Session :=
  (store.find? (fun e => e.1 == ID)).map (fun e => e.2)

/-- Method `SessionManager.Remove` of `oscar/session.go`: `delete(s.store, sess.ID)`. -/
def SessionStore.Remove (store : SessionStore) (sess : Session) : SessionStore :=
  store.filter (fun e => !(e.1 == sess.ID))

/-- Modelled from the spec: `NewSessionWithSN` is the registry's add-new
(section 4.3), which stores the new session under its id and evicts any prior
session of the same screen name; its body follows `NewSession` of
`oscar/session.go` (`s.store[sess.ID] = sess`). -/
def SessionStore.NewSessionWithSN (store : SessionStore) (ID screenName : String) :
    SessionStore × Session :=
  let sess : Session := { ID := ID, ScreenName := screenName }
  ((store.filter (fun e => !(e.1 == ID) && !(e.2.ScreenName == screenName))) ++ [(ID, sess)], sess)

/-- The session manager of `oscar/session.go` behind the handler's interface. -/
def oscarSessionManager : SessionManager SessionStore where
  NewSessionWithSN := SessionStore.NewSessionWithSN
  Remove := SessionStore.Remove
  Retrieve := SessionStore.Retrieve

/-- Modelled from the spec: an in-memory user store for the persistence
operations `get_user` and upsert (section 6): a user is found by screen name,
and an upsert replaces the stored user of that screen name or adds one. -/
def memUserManager : UserManager (List User) where
  GetUser := fun users sn => .ok (users.find? (fun u => u.ScreenName == sn))
  UpsertUser := fun users u =>
    (if users.any (fun v => v.ScreenName == u.ScreenName) then
       users.map (fun v => if v.ScreenName == u.ScreenName then u else v)
     else users ++ [u], none)

/-- A service over the concrete collaborators; `failBroadcast` makes the
departure broadcast report an error. -/
def memService (disableAuth failBroadcast : Bool) : AuthService (List User) SessionStore where
  sm := oscarSessionManager
  um := memUserManager
  cfg := { DisableAuth := disableAuth, OSCARHost := "bos.example", BOSPort := 5190 }
  uuidNewRandom := .ok "salt-1"
  HashPassword := fun u passwd => .ok { u with PassHash := (passwd ++ u.AuthKey).toList.map Char.toNat }
  Address := fun host port => host ++ ":" ++ toString port
  broadcastDeparture := fun w _ => (w, if failBroadcast then some "feedbag unavailable" else none)


/-! ## state/user_store.go: the feedbag table -/

/-- Type `BlockedState` with its three constants. -/
inductive BlockedState where
  | BlockedNo
  | BlockedA
  | BlockedB
  deriving DecidableEq, Repr

/-- Type `wire.TLVLBlock`: the attribute block of a feedbag item. -/
structure TLVLBlock where
  TLVList : List TLV
  deriving DecidableEq, Repr

/-- Type `wire.FeedbagItem`. -/
structure FeedbagItem where
  GroupID : Nat
  ItemID : Nat
  ClassID : Nat
  Name : String
  TLVLBlock : TLVLBlock
  deriving DecidableEq, Repr

/-- One row of the SQL table `feedbag`, with the columns that the statements
of `user_store.go` name. -/
structure FeedbagRow where
  screenName : String
  groupID : Nat
  itemID : Nat
  classID : Nat
  name : String
  attributes : List Nat
  lastModified : Nat
  deriving DecidableEq, Repr

/-- The codec functions `wire.Marshal` and `wire.Unmarshal` at type
`TLVLBlock`; their bodies are in the `wire` package. -/
structure Wire where
  Marshal : TLVLBlock → Except Err (List Nat)
  Unmarshal : List Nat → Except Err TLVLBlock

/-- The conflict target `(screenName, groupID, itemID)` of the upsert. -/
def FeedbagRow.conflicts (r x : FeedbagRow) : Bool :=
  x.screenName == r.screenName && x.groupID == r.groupID && x.itemID == r.itemID

/-- The statement of `FeedbagUpsert`:
`INSERT INTO feedbag ... ON CONFLICT (screenName, groupID, itemID) DO UPDATE SET
classID, name, attributes, lastModified`. -/
def execFeedbagUpsert (tbl : List FeedbagRow) (r : FeedbagRow) : List FeedbagRow :=
  if tbl.any (fun x => r.conflicts x) then
    tbl.map (fun x =>
      if r.conflicts x then
        { x with classID := r.classID, name := r.name, attributes := r.attributes,
                 lastModified := r.lastModified }
      else x)
  else
    tbl ++ [r]

/-- Method `SQLiteUserStore.FeedbagUpsert`; `now` is the value of `UNIXEPOCH()`.
Returns the table it leaves behind and its `error`. -/
def FeedbagUpsert (wire : Wire) (now : Nat) (tbl : List FeedbagRow) (screenName : String) :
    List FeedbagItem → List FeedbagRow × Option Err
  | [] => (tbl, none)
  | item :: items =>
    match wire.Marshal item.TLVLBlock with
    | .error err => (tbl, some err)
    | .ok buf =>
      FeedbagUpsert wire now
        (execFeedbagUpsert tbl
          { screenName := screenName, groupID := item.GroupID, itemID := item.ItemID,
            classID := item.ClassID, name := item.Name, attributes := buf,
            lastModified := now })
        screenName items

/-- The `rows.Next()` loop of `Feedbag`: scan a row, unmarshal its attributes,
append the item; an unmarshal error returns the items read so far. -/
def feedbagScan (wire : Wire) : List FeedbagRow → List FeedbagItem →
    List FeedbagItem × Option Err
  | [], items => (items, none)
  | row :: rows, items =>
    match wire.Unmarshal row.attributes with
    | .error err => (items, some err)
    | .ok block =>
      feedbagScan wire rows
        (items ++ [{ GroupID := row.groupID, ItemID := row.itemID, ClassID := row.classID,
                     Name := row.name, TLVLBlock := block }])

/-- Method `SQLiteUserStore.Feedbag`:
`SELECT groupID, itemID, classID, name, attributes FROM feedbag WHERE screenName = ?`. -/
def Feedbag (wire : Wire) (tbl : List FeedbagRow) (screenName : String) :
    List FeedbagItem × Option Err :=
  feedbagScan wire (tbl.filter (fun r => r.screenName == screenName)) []

/-- Method `SQLiteUserStore.FeedbagDelete`: for each item,
`DELETE FROM feedbag WHERE screenName = ? AND itemID = ?`. -/
def FeedbagDelete (tbl : List FeedbagRow) (screenName : String) :
    List FeedbagItem → List FeedbagRow
  | [] => tbl
  | item :: items =>
    FeedbagDelete
      (tbl.filter (fun r => !(r.screenName == screenName && r.itemID == item.ItemID)))
      screenName items

/-- Method `SQLiteUserStore.AdjacentUsers`: the rows `f` with `f.name = ?` and
`f.classID = 0` for which neither `NOT EXISTS` subquery finds a row, projected
on `f.screenName`. -/
def AdjacentUsers (tbl : List FeedbagRow) (screenName : String) : List String :=
  (tbl.filter (fun f =>
      f.name == screenName && f.classID == 0
      && !(tbl.any (fun r => r.screenName == screenName && r.name == f.screenName
                              && r.classID == 3))
      && !(tbl.any (fun r => r.screenName == f.screenName && r.name == f.name
                              && r.classID == 3)))).map (fun f => f.screenName)

/-- The query of `BlockedState`: two `SELECT EXISTS(...)` joined by `UNION ALL`,
which yield two one-column rows. -/
def blockedStateQuery (tbl : List FeedbagRow) (screenNameA screenNameB : String) : List Bool :=
  [ tbl.any (fun f => f.classID == 3 && f.screenName == screenNameA && f.name == screenNameB),
    tbl.any (fun f => f.classID == 3 && f.screenName == screenNameB && f.name == screenNameA) ]

/-- Method `SQLiteUserStore.BlockedState`: two guarded `row.Next()` reads, then
the `switch`. -/
def BlockedStateOf (tbl : List FeedbagRow) (screenNameA screenNameB : String) : BlockedState :=
  let row := blockedStateQuery tbl screenNameA screenNameB
  let (blockedA, row) := match row with
    | v :: rest => (v, rest)
    | [] => (false, [])
  let blockedB := match row with
    | v :: _ => v
    | [] => false
  if blockedA then .BlockedA
  else if blockedB then .BlockedB
  else .BlockedNo

/-- A row of the table has the given owner, class and name. -/
def FeedbagRow.isEntry (r : FeedbagRow) (owner : String) (classID : Nat) (name : String) : Prop :=
  r.screenName = owner ∧ r.classID = classID ∧ r.name = name

/-- The `(groupID, itemID)` key of an item. -/
def FeedbagItem.key (i : FeedbagItem) : Nat × Nat := (i.GroupID, i.ItemID)

/-- The last item of a list that has the given key. -/
def lastWithKey (items : List FeedbagItem) (k : Nat × Nat) : Option FeedbagItem :=
  items.reverse.find? (fun i => i.key == k)


/-- The `(groupID, itemID)` key of a row. -/
def FeedbagRow.key (r : FeedbagRow) : Nat × Nat := (r.groupID, r.itemID)

/-- The bytes that `FeedbagUpsert` stores for an attribute block (empty when
`wire.Marshal` fails, in which case nothing is stored). -/
def marshalBytes (wire : Wire) (block : TLVLBlock) : List Nat :=
  match wire.Marshal block with
  | .ok buf => buf
  | .error _ => []

/-- The row that `FeedbagUpsert` hands to its statement for an item. -/
def upsertRowOf (wire : Wire) (now : Nat) (screenName : String) (item : FeedbagItem) :
    FeedbagRow :=
  { screenName := screenName, groupID := item.GroupID, itemID := item.ItemID,
    classID := item.ClassID, name := item.Name,
    attributes := marshalBytes wire item.TLVLBlock, lastModified := now }

/-- The item that `Feedbag` builds from a row (with an empty block when
`wire.Unmarshal` fails, in which case no item is built). -/
def rowItem (wire : Wire) (row : FeedbagRow) : FeedbagItem :=
  { GroupID := row.groupID, ItemID := row.itemID, ClassID := row.classID, Name := row.name,
    TLVLBlock := match wire.Unmarshal row.attributes with
      | .ok block => block
      | .error _ => ⟨[]⟩ }

/-- A codec for the examples: a block is stored as the list of its tags, and
read back as `u16` zero values under those tags. -/
def tagWire : Wire where
  Marshal := fun block => .ok (block.TLVList.map (fun t => t.TType))
  Unmarshal := fun buf => .ok ⟨buf.map (fun t => ⟨t, .u16 0⟩)⟩

/-! ## state/webapi_presence_bridge.go -/

/-- Type `IdentScreenName`: the canonical form of a screen name. -/
structure IdentScreenName where
  screenName : String
  deriving DecidableEq, Repr

/-- Modelled from the spec: `NewIdentScreenName` builds the ident form of a
screen name, lowercased and with the spaces removed (section 3); its body is in
a file of the `state` package that is not among the sources. -/
def NewIdentScreenName (screenName : String) : IdentScreenName :=
  ⟨String.mk ((screenName.toList.filter (fun c => c != ' ')).map Char.toLower)⟩

/-- Type `Relationship`, with the two fields that `hasBuddy` reads. -/
structure Relationship where
  YouBlock : Bool
  BlocksYou : Bool
  deriving DecidableEq, Repr

/-- Type `PresenceEvent`. -/
structure PresenceEvent where
  AimID : String
  State : String
  StatusMsg : String
  AwayMsg : String
  IdleTime : Nat
  OnlineTime : Nat
  UserType : String
  deriving DecidableEq, Repr

/-- Type `WebAPISession`, with the fields the presence bridge reads.  The
`EventQueue` pointer is `none` when nil; times are seconds. -/
structure WebAPISession (Q : Type) where
  AimSID : String
  ScreenName : String
  Events : List String
  EventQueue : Option Q
  ExpiresAt : Nat
  LastAccessed : Nat := 0

/-- The event type constant `EventTypePresence`. -/
def EventTypePresence : String := "presence"

/-- The class constant `wire.FeedbagClassIdBuddy`. -/
def FeedbagClassIdBuddy : Nat := 0

/-- Method `WebAPISession.IsExpired`: `time.Now().After(s.ExpiresAt)`. -/
def WebAPISession.IsExpired {Q : Type} (s : WebAPISession Q) (now : Nat) : Bool :=
  decide (s.ExpiresAt < now)

/-- Method `WebAPISession.IsSubscribedTo`. -/
def WebAPISession.IsSubscribedTo {Q : Type} (s : WebAPISession Q) (eventType : String) : Bool :=
  s.Events.any (fun event => event == eventType)

/-- Type `WebAPIPresenceBridge`: the relationship fetcher (nil when `none`),
the feedbag retriever and `buddyListManager.GetPresenceForBuddy`, whose result
is kept to the fields copied into the event. -/
structure WebAPIPresenceBridge where
  relationshipFetcher : Option (IdentScreenName → IdentScreenName → Except Err Relationship)
  RetrieveFeedbag : IdentScreenName → Except Err (List FeedbagItem)
  GetPresenceForBuddy : String → PresenceEvent

/-- One call `session.EventQueue.Push(eventType, event)`; the session is named
by its position in the session manager. -/
structure QueuePush where
  session : Nat
  eventType : String
  event : PresenceEvent
  deriving DecidableEq, Repr

/-- Method `WebAPISessionManager.GetAllSessions`: the sessions of the manager
that are not expired, each with its position. -/
def GetAllSessions {Q : Type} (m : List (WebAPISession Q)) (now : Nat) :
    List (Nat × WebAPISession Q) :=
  m.enum.filter (fun p => !(p.2.IsExpired now))

/-- Method `WebAPIPresenceBridge.hasBuddy`. -/
def hasBuddy (b : WebAPIPresenceBridge) (userScreenName buddyScreenName : IdentScreenName) :
    Bool :=
  let blocked : Bool :=
    match b.relationshipFetcher with
    | some fetch =>
      match fetch userScreenName buddyScreenName with
      | .error _ => false
      | .ok rel => rel.YouBlock || rel.BlocksYou
    | none => false
  if blocked then false
  else
    match b.RetrieveFeedbag userScreenName with
    | .error _ => false
    | .ok items =>
      items.any (fun item =>
        item.ClassID == FeedbagClassIdBuddy
        && decide (NewIdentScreenName item.Name = buddyScreenName))

/-- Method `WebAPIPresenceBridge.findSessionsWithBuddy`. -/
def findSessionsWithBuddy {Q : Type} (b : WebAPIPresenceBridge) (m : List (WebAPISession Q))
    (now : Nat) (buddyScreenName : IdentScreenName) : List (Nat × WebAPISession Q) :=
  (GetAllSessions m now).filter (fun p =>
    if p.2.ScreenName == "" then false
    else hasBuddy b (NewIdentScreenName p.2.ScreenName) buddyScreenName)

/-- Method `WebAPIPresenceBridge.BroadcastBuddyArrived`, as the list of queue
pushes it makes; `arrivingScreenName` is `arrivingSession.IdentScreenName()`. -/
def BroadcastBuddyArrived {Q : Type} (b : WebAPIPresenceBridge) (m : List (WebAPISession Q))
    (now : Nat) (arrivingScreenName : IdentScreenName) : List QueuePush :=
  let sessions := findSessionsWithBuddy b m now arrivingScreenName
  let buddyInfo := b.GetPresenceForBuddy arrivingScreenName.screenName
  (sessions.filter (fun p => p.2.EventQueue.isSome && p.2.IsSubscribedTo "presence")).map
    (fun p =>
      { session := p.1, eventType := EventTypePresence,
        event := { AimID := buddyInfo.AimID, State := buddyInfo.State,
                   StatusMsg := buddyInfo.StatusMsg, AwayMsg := buddyInfo.AwayMsg,
                   IdleTime := buddyInfo.IdleTime, OnlineTime := buddyInfo.OnlineTime,
                   UserType := buddyInfo.UserType } })

/-! ## oscar/session.go: lookup by screen name -/

/-- Method `SessionManager.RetrieveByScreenName` of `oscar/session.go`: the first
session of the store, in iteration order, whose `ScreenName` is the queried
string. -/
def SessionStore.RetrieveByScreenName (store : SessionStore) (screenName : String) :
    Option Session :=
  (store.find? (fun e => screenName == e.2.ScreenName)).map (fun e => e.2)

/-- Method `SessionManager.RetrieveByScreenNames` of `oscar/session.go`. -/
def SessionStore.RetrieveByScreenNames (store : SessionStore) : List String → List Session
  | [] => []
  | sn :: screenNames =>
    (store.filter (fun e => sn == e.2.ScreenName)).map (fun e => e.2)
      ++ SessionStore.RetrieveByScreenNames store screenNames

/-! ## server/chat_nav.go: the chat cookie -/

/-- The two bytes that `binary.Write(w, binary.BigEndian, v)` writes for a
`uint16`; the argument is reduced modulo `2^16` as the conversion `uint16(n)`
does. -/
def putUint16 (n : Nat) : List Nat := [n % 65536 / 256, n % 256]

/-- The four bytes that `binary.Write(w, binary.BigEndian, v)` writes for a
`uint32`. -/
def putUint32 (n : Nat) : List Nat :=
  [n % 4294967296 / 16777216, n / 65536 % 256, n / 256 % 256, n % 256]

/-- Function `binary.Read(r, binary.BigEndian, &l)` for a `uint16` on a
`bytes.Buffer` holding `r`: an `io.ReadFull` of two bytes.  Returns the value or
the error, and the bytes left in the buffer. -/
def readUint16 (r : List Nat) : Except Err Nat × List Nat :=
  match r with
  | b0 :: b1 :: rest => (.ok (b0 * 256 + b1), rest)
  | [_] => (.error "unexpected EOF", [])
  | [] => (.error "EOF", [])

/-- Method `bytes.Buffer.Read(p)` for `p = make([]byte, n)` on a buffer holding
`r`: an empty buffer reports `io.EOF` unless `n = 0`; otherwise the first bytes
of `p` are filled with what the buffer has, up to `n`, and no error is reported.
Returns `p`, the error, and the bytes left in the buffer. -/
def bufferRead (r : List Nat) (n : Nat) : (List Nat × Option Err) × List Nat :=
  if r.isEmpty then
    if n = 0 then (([], none), []) else ((List.replicate n 0, some "EOF"), [])
  else
    ((r.take n ++ List.replicate (n - r.length) 0, none), r.drop n)

/-- Type `ChatCookie`; the Go string `SessID` is kept as its bytes. -/
structure ChatCookie where
  Cookie : List Nat
  SessID : List Nat
  deriving DecidableEq, Repr

/-- Method `ChatCookie.Write`, as the bytes it writes. -/
def ChatCookie.Write (s : ChatCookie) : List Nat :=
  putUint16 s.Cookie.length ++ s.Cookie ++ putUint16 s.SessID.length ++ s.SessID

/-- Method `ChatCookie.Read` on a `bytes.Buffer` holding `r`: the receiver as the
call leaves it, and the error. -/
def ChatCookie.Read (s : ChatCookie) (r : List Nat) : ChatCookie × Option Err :=
  match readUint16 r with
  | (.error err, _) => (s, some err)
  | (.ok l, r1) =>
    match bufferRead r1 l with
    | ((cookie, some err), _) => ({ s with Cookie := cookie }, some err)
    | ((cookie, none), r2) =>
      match readUint16 r2 with
      | (.error err, _) => ({ s with Cookie := cookie }, some err)
      | (.ok l, r3) =>
        match bufferRead r3 l with
        | ((_, some err), _) => ({ s with Cookie := cookie }, some err)
        | ((buf, none), _) => ({ Cookie := cookie, SessID := buf }, none)

/-! ## handler/auth.go: the sign-on frame exchange -/

/-- Type `oscar.FlapFrame`. -/
structure FlapFrame where
  StartMarker : Nat
  FrameType : Nat
  Sequence : Nat
  PayloadLength : Nat
  deriving DecidableEq, Repr

/-- Type `oscar.FlapSignonFrame`. -/
structure FlapSignonFrame where
  FlapVersion : Nat
  TLVRestBlock : List TLV
  deriving DecidableEq, Repr

/-- The frame type constant `oscar.FlapFrameSignon` (section 4.1: 0x01 sign-on). -/
def FlapFrameSignon : Nat := 0x01

/-- The operations that `SendAndReceiveSignonFrame` performs on its
`io.ReadWriter`, over a connection state `ρ`: `oscar.Marshal` of a FLAP header
and of a sign-on frame, `oscar.Unmarshal` of a FLAP header, `rw.Read` into a
slice of the given length, and `oscar.Unmarshal` of a sign-on frame from a
buffer.  Their bodies are in the `oscar` package and in the connection. -/
structure SignonCodec (ρ : Type) where
  MarshalFlapFrame : FlapFrame → ρ → ρ × Option Err
  MarshalFlapSignonFrame : FlapSignonFrame → ρ → ρ × Option Err
  UnmarshalFlapFrame : ρ → ρ × Except Err FlapFrame
  Read : ρ → Nat → ρ × (List Nat × Option Err)
  UnmarshalFlapSignonFrame : List Nat → Except Err FlapSignonFrame

/-- What `SendAndReceiveSignonFrame` leaves behind: its two results, the
connection, and the counter `*sequence`. -/
structure SignonResult (ρ : Type) where
  frame : Except Err FlapSignonFrame
  rw : ρ
  sequence : Nat

/-- Method `AuthService.SendAndReceiveSignonFrame`; `sequence` is the `uint32`
counter `*sequence`. -/
def SendAndReceiveSignonFrame {ρ : Type} (c : SignonCodec ρ) (rw : ρ) (sequence : Nat) :
    SignonResult ρ :=
  let flapFrameOut : FlapFrame :=
    { StartMarker := 42, FrameType := FlapFrameSignon, Sequence := sequence % 65536,
      PayloadLength := 4 }
  match c.MarshalFlapFrame flapFrameOut rw with
  | (rw1, some err) => { frame := .error err, rw := rw1, sequence := sequence }
  | (rw1, none) =>
    let flapSignonFrameOut : FlapSignonFrame := { FlapVersion := 1, TLVRestBlock := [] }
    match c.MarshalFlapSignonFrame flapSignonFrameOut rw1 with
    | (rw2, some err) => { frame := .error err, rw := rw2, sequence := sequence }
    | (rw2, none) =>
      match c.UnmarshalFlapFrame rw2 with
      | (rw3, .error err) => { frame := .error err, rw := rw3, sequence := sequence }
      | (rw3, .ok flapFrameIn) =>
        match c.Read rw3 flapFrameIn.PayloadLength with
        | (rw4, (_, some err)) => { frame := .error err, rw := rw4, sequence := sequence }
        | (rw4, (b, none)) =>
          match c.UnmarshalFlapSignonFrame b with
          | .error err => { frame := .error err, rw := rw4, sequence := sequence }
          | .ok flapSignonFrameIn =>
            { frame := .ok flapSignonFrameIn, rw := rw4,
              sequence := (sequence + 1) % 4294967296 }

/-- A connection for the examples: the bytes still to be read, the bytes
written, and the number of writes that will still succeed. -/
structure BufferConn where
  input : List Nat
  output : List Nat
  writesLeft : Nat
  deriving DecidableEq, Repr

/-- A write on a `BufferConn`. -/
def BufferConn.write (rw : BufferConn) (bytes : List Nat) : BufferConn × Option Err :=
  if rw.writesLeft = 0 then (rw, some "broken pipe")
  else ({ rw with output := rw.output ++ bytes, writesLeft := rw.writesLeft - 1 }, none)

/-- Modelled from the spec: the codec of the `oscar` package on a `BufferConn`,
for the FLAP header (section 4.1: start byte, one-byte type, big-endian 16-bit
sequence number and payload length) and the sign-on payload (a 4-byte version;
the TLV list is not decoded here). -/
def bufferCodec : SignonCodec BufferConn where
  MarshalFlapFrame := fun f rw =>
    rw.write ([f.StartMarker % 256, f.FrameType % 256] ++ putUint16 f.Sequence
      ++ putUint16 f.PayloadLength)
  MarshalFlapSignonFrame := fun f rw => rw.write (putUint32 f.FlapVersion)
  UnmarshalFlapFrame := fun rw =>
    match rw.input with
    | m :: t :: s0 :: s1 :: l0 :: l1 :: rest =>
      ({ rw with input := rest }, .ok ⟨m, t, s0 * 256 + s1, l0 * 256 + l1⟩)
    | _ => ({ rw with input := [] }, .error "unexpected EOF")
  Read := fun rw n =>
    ({ rw with input := (bufferRead rw.input n).2 }, (bufferRead rw.input n).1)
  UnmarshalFlapSignonFrame := fun b =>
    match b with
    | v0 :: v1 :: v2 :: v3 :: _ =>
      .ok ⟨((v0 * 256 + v1) * 256 + v2) * 256 + v3, []⟩
    | _ => .error "unexpected EOF"

/-! ## oscar/icbm.go and the ChatNav router of server/chat_nav.go -/

/-- How a Go call ends: it returns its `error` (nil when `none`), or it panics
with a message. -/
inductive Outcome where
  | returned (err : Option Err)
  | panicked (msg : String)
  deriving DecidableEq, Repr

def ICBMErr : Nat := 0x0001
def ICBMAddParameters : Nat := 0x0002
def ICBMDelParameters : Nat := 0x0003
def ICBMParameterQuery : Nat := 0x0004
def ICBMParameterReply : Nat := 0x0005
def ICBMChannelMsgTohost : Nat := 0x0006
def ICBMChannelMsgToclient : Nat := 0x0007
def ICBMEvilRequest : Nat := 0x0008
def ICBMEvilReply : Nat := 0x0009
def ICBMMissedCalls : Nat := 0x000A
def ICBMClientErr : Nat := 0x000B
def ICBMHostAck : Nat := 0x000C
def ICBMSinStored : Nat := 0x000D
def ICBMSinListQuery : Nat := 0x000E
def ICBMSinListReply : Nat := 0x000F
def ICBMSinRetrieve : Nat := 0x0010
def ICBMSinDelete : Nat := 0x0011
def ICBMNotifyRequest : Nat := 0x0012
def ICBMNotifyReply : Nat := 0x0013
def ICBMClientEvent : Nat := 0x0014
def ICBMSinReply : Nat := 0x0017

/-- The food group constant `ICBM`, declared elsewhere in the `oscar` package. -/
def ICBM : Nat := 0x0004

/-- Type `snacFrame` of the `oscar` package, with the two fields set here. -/
structure snacFrame where
  foodGroup : Nat
  subGroup : Nat
  deriving DecidableEq, Repr

/-- Type `snacParameterRequest`. -/
structure snacParameterRequest where
  maxSlots : Nat
  ICBMFlags : Nat
  maxIncomingICBMLen : Nat
  maxSourceEvil : Nat
  maxDestinationEvil : Nat
  minInterICBMInterval : Nat
  deriving DecidableEq, Repr

/-- Method `snacParameterRequest.write`, as the bytes it writes. -/
def snacParameterRequest.write (s : snacParameterRequest) : List Nat :=
  putUint16 s.maxSlots ++ putUint32 s.ICBMFlags ++ putUint16 s.maxIncomingICBMLen
    ++ putUint16 s.maxSourceEvil ++ putUint16 s.maxDestinationEvil
    ++ putUint32 s.minInterICBMInterval

/-- Function `SendAndReceiveICBMParameterReply`; `writeOutSNAC` is the helper of
that name, applied to the outgoing frame and payload (the FLAP frame, the
sequence number and the writer are passed through to it unchanged). -/
def SendAndReceiveICBMParameterReply
    (writeOutSNAC : snacFrame → snacParameterRequest → Outcome) : Outcome :=
  let snacFrameOut : snacFrame := { foodGroup := ICBM, subGroup := ICBMParameterReply }
  let snacPayloadOut : snacParameterRequest :=
    { maxSlots := 100, ICBMFlags := 0x00000001, maxIncomingICBMLen := 8000,
      maxSourceEvil := 999, maxDestinationEvil := 999, minInterICBMInterval := 100 }
  writeOutSNAC snacFrameOut snacPayloadOut

/-- Function `routeICBM`, on `snac.subGroup`. -/
def routeICBM (writeOutSNAC : snacFrame → snacParameterRequest → Outcome) (subGroup : Nat) :
    Outcome :=
  if subGroup = ICBMErr then .panicked "not implemented"
  else if subGroup = ICBMAddParameters then .panicked "not implemented"
  else if subGroup = ICBMDelParameters then .panicked "not implemented"
  else if subGroup = ICBMParameterQuery then SendAndReceiveICBMParameterReply writeOutSNAC
  else if subGroup = ICBMChannelMsgTohost then .panicked "not implemented"
  else if subGroup = ICBMChannelMsgToclient then .panicked "not implemented"
  else if subGroup = ICBMEvilRequest then .panicked "not implemented"
  else if subGroup = ICBMEvilReply then .panicked "not implemented"
  else if subGroup = ICBMMissedCalls then .panicked "not implemented"
  else if subGroup = ICBMClientErr then .panicked "not implemented"
  else if subGroup = ICBMHostAck then .panicked "not implemented"
  else if subGroup = ICBMSinStored then .panicked "not implemented"
  else if subGroup = ICBMSinListQuery then .panicked "not implemented"
  else if subGroup = ICBMSinListReply then .panicked "not implemented"
  else if subGroup = ICBMSinRetrieve then .panicked "not implemented"
  else if subGroup = ICBMSinDelete then .panicked "not implemented"
  else if subGroup = ICBMNotifyRequest then .panicked "not implemented"
  else if subGroup = ICBMNotifyReply then .panicked "not implemented"
  else if subGroup = ICBMClientEvent then .panicked "not implemented"
  else if subGroup = ICBMSinReply then .panicked "not implemented"
  else .returned none

def ChatNavErr : Nat := 0x0001
def ChatNavRequestChatRights : Nat := 0x0002
def ChatNavRequestExchangeInfo : Nat := 0x0003
def ChatNavRequestRoomInfo : Nat := 0x0004
def ChatNavRequestMoreRoomInfo : Nat := 0x0005
def ChatNavRequestOccupantList : Nat := 0x0006
def ChatNavSearchForRoom : Nat := 0x0007
def ChatNavCreateRoom : Nat := 0x0008
def ChatNavNavInfo : Nat := 0x0009

/-- Function `routeChatNav`, on `snac.SubGroup`; the three arguments are how the
calls of `SendAndReceiveNextChatRights`, `SendAndReceiveRequestRoomInfo` and
`SendAndReceiveCreateRoom` end. -/
def routeChatNav (nextChatRights requestRoomInfo createRoom : Outcome) (SubGroup : Nat) :
    Outcome :=
  if SubGroup = ChatNavErr then .panicked "not implemented"
  else if SubGroup = ChatNavRequestChatRights then nextChatRights
  else if SubGroup = ChatNavRequestExchangeInfo then .panicked "not implemented"
  else if SubGroup = ChatNavRequestRoomInfo then requestRoomInfo
  else if SubGroup = ChatNavRequestMoreRoomInfo then .panicked "not implemented"
  else if SubGroup = ChatNavRequestOccupantList then .panicked "not implemented"
  else if SubGroup = ChatNavSearchForRoom then .panicked "not implemented"
  else if SubGroup = ChatNavCreateRoom then createRoom
  else if SubGroup = ChatNavNavInfo then .panicked "not implemented"
  else .returned none

/-! ## server/chat_nav.go: room creation -/

/-- Type `ChatRoom`.  `SessionManager` is the pointer that `NewSessionManager()`
returns, an address in the heap of session managers. -/
structure ChatRoom where
  ID : String
  SessionManager : Nat
  CreateTime : Nat
  Name : String
  deriving DecidableEq, Repr

/-- Type `oscar.SNAC_0x0E_0x02_ChatRoomInfoUpdate`. -/
structure SNAC_0x0E_0x02_ChatRoomInfoUpdate where
  Exchange : Nat
  Cookie : String
  InstanceNumber : Nat
  DetailLevel : Nat
  TLVBlock : List TLV
  deriving DecidableEq, Repr

/-- A TLV of `oscar.SNAC_0x0D_0x09_ChatNavNavInfo` whose value is a room info. -/
structure NavInfoTLV where
  TType : Nat
  Val : SNAC_0x0E_0x02_ChatRoomInfoUpdate
  deriving DecidableEq, Repr

/-- Type `oscar.SNAC_0x0D_0x09_ChatNavNavInfo`. -/
structure SNAC_0x0D_0x09_ChatNavNavInfo where
  TLVRestBlock : List NavInfoTLV
  deriving DecidableEq, Repr

/-- The food group constant `CHAT_NAV`, as spelled in `SNAC_0x0D_0x09_ChatNavNavInfo`. -/
def CHAT_NAV : Nat := 0x0D

/-- The state that `SendAndReceiveCreateRoom` reaches: the chat registry `*cr`,
the heap of session managers, the writer `w` and the counter `*sequence`. -/
structure ChatWorld (τ γ ω : Type) where
  cr : γ
  heap : List τ
  w : ω
  sequence : Nat

/-- The collaborators of `SendAndReceiveCreateRoom` whose bodies are outside
`chat_nav.go`: the session manager methods and `NewSessionManager()`,
`ChatRegistry.Register`, `ChatRoom.TLVList`, `oscar.Unmarshal` of the request
payload from the reader, and `writeOutSNAC`, which returns the writer and the
counter it leaves behind and its `error`. -/
structure ChatNavEnv (τ γ ω : Type) where
  sm : SessionManager τ
  NewSessionManager : τ
  Register : γ → ChatRoom → γ
  TLVList : ChatRoom → List TLV
  Unmarshal : List Nat → Except Err SNAC_0x0E_0x02_ChatRoomInfoUpdate
  writeOutSNAC : SnacFrame → SnacFrame → SNAC_0x0D_0x09_ChatNavNavInfo → Nat → ω →
    (ω × Nat) × Option Err

/-- Function `SendAndReceiveCreateRoom`; `newUUID` stands for
`uuid.New().String()`, `now` for `time.Now()`, and `r` for the bytes of the
reader. -/
def SendAndReceiveCreateRoom {τ γ ω : Type} (env : ChatNavEnv τ γ ω) (sess : Session)
    (st : ChatWorld τ γ ω) (snac : SnacFrame) (r : List Nat) (newUUID : String) (now : Nat) :
    Option Err × ChatWorld τ γ ω :=
  match env.Unmarshal r with
  | .error err => (some err, st)
  | .ok snacPayloadIn =>
    match GetString snacPayloadIn.TLVBlock 0x00d3 with
    | none => (some "unable to find chat name", st)
    | some name =>
      let room : ChatRoom :=
        { ID := newUUID, SessionManager := st.heap.length, CreateTime := now, Name := name }
      let heap1 := st.heap ++ [env.NewSessionManager]
      let cr1 := env.Register st.cr room
      let heap2 := heap1.set room.SessionManager
        (env.sm.NewSessionWithSN (heap1.getD room.SessionManager env.NewSessionManager)
          sess.ID sess.ScreenName).1
      let snacFrameOut : SnacFrame := { FoodGroup := CHAT_NAV, SubGroup := ChatNavNavInfo }
      let snacPayloadOut : SNAC_0x0D_0x09_ChatNavNavInfo :=
        { TLVRestBlock :=
            [{ TType := 0x04,
               Val := { Exchange := 4, Cookie := room.ID, InstanceNumber := 100,
                        DetailLevel := 2, TLVBlock := env.TLVList room } }] }
      match env.writeOutSNAC snac snacFrameOut snacPayloadOut st.sequence st.w with
      | ((w1, sequence1), err) =>
        (err, { cr := cr1, heap := heap2, w := w1, sequence := sequence1 })

/-- Modelled from the spec: a chat environment for the examples.  The registry
is the in-memory mapping from cookie to room (section 4.7), kept as a list of
rooms; the writer keeps the SNACs written and the counter goes up by one per
SNAC; the request payload is not decoded from bytes but fixed. -/
def memChatNavEnv (request : Except Err SNAC_0x0E_0x02_ChatRoomInfoUpdate) :
    ChatNavEnv SessionStore (List ChatRoom) (List (SnacFrame × SNAC_0x0D_0x09_ChatNavNavInfo)) where
  sm := oscarSessionManager
  NewSessionManager := []
  Register := fun cr room => cr.filter (fun x => !(x.ID == room.ID)) ++ [room]
  TLVList := fun room => [⟨0x00d3, .str room.Name⟩]
  Unmarshal := fun _ => request
  writeOutSNAC := fun _ frame payload sequence w => ((w ++ [(frame, payload)], sequence + 1), none)

/-! ## state/user_store.go: password hashes, BART items, last-modified time -/

namespace state

/-- The functions `wire.RoastPassword`, `wire.WeakMD5PasswordHash` and
`wire.StrongMD5PasswordHash`, whose bodies are in the `wire` package.  A
password is kept as its bytes, so that the conversion `string(clearPass)` is the
identity. -/
structure WirePasswords where
  RoastPassword : List Nat → List Nat
  WeakMD5PasswordHash : List Nat → String → List Nat
  StrongMD5PasswordHash : List Nat → String → List Nat

/-- Type `User` of `state/user_store.go`. -/
structure User where
  ScreenName : String
  AuthKey : String
  StrongMD5Pass : List Nat
  WeakMD5Pass : List Nat
  deriving DecidableEq, Repr

/-- Method `User.ValidateHash`. -/
def User.ValidateHash (u : User) (md5Hash : List Nat) : Bool :=
  decide (u.StrongMD5Pass = md5Hash) || decide (u.WeakMD5Pass = md5Hash)

/-- Method `User.ValidateRoastedPass`. -/
def User.ValidateRoastedPass (wire : WirePasswords) (u : User) (roastedPass : List Nat) : Bool :=
  let clearPass := wire.RoastPassword roastedPass
  let md5Hash := wire.WeakMD5PasswordHash clearPass u.AuthKey
  decide (u.WeakMD5Pass = md5Hash)

/-- Method `User.HashPassword`: the receiver as the call leaves it, and the
error. -/
def User.HashPassword (wire : WirePasswords) (u : User) (passwd : List Nat) :
    User × Option Err :=
  let u := { u with WeakMD5Pass := wire.WeakMD5PasswordHash passwd u.AuthKey }
  let u := { u with StrongMD5Pass := wire.StrongMD5PasswordHash passwd u.AuthKey }
  (u, none)

end state

/-- How `QueryRow(...).Scan(...)` ends: a row was scanned, there was no row
(`sql.ErrNoRows`), or the query failed with another error. -/
inductive ScanResult (α : Type) where
  | row (v : α)
  | noRows
  | failed (err : Err)

/-- The error value `sql.ErrNoRows`. -/
def sqlErrNoRows : Err := "sql: no rows in result set"

/-- The result of `Scan` as the Go pair of the scanned variable (left at
`zero` without a row) and the error. -/
def ScanResult.scan {α : Type} (zero : α) : ScanResult α → α × Option Err
  | .row v => (v, none)
  | .noRows => (zero, some sqlErrNoRows)
  | .failed err => (zero, some err)

/-- The SQL table `bartItem` with its columns `hash` and `body`, and the fault,
if any, with which the database answers a query. -/
structure BartDB where
  bartItem : List (List Nat × List Nat)
  fault : Option Err

/-- The query of `BARTRetrieve`: `SELECT body FROM bartItem WHERE hash = ?`. -/
def BartDB.queryBody (db : BartDB) (hash : List Nat) : ScanResult (List Nat) :=
  match db.fault with
  | some err => .failed err
  | none =>
    match db.bartItem.find? (fun row => row.1 == hash) with
    | some row => .row row.2
    | none => .noRows

/-- Method `SQLiteUserStore.BARTRetrieve`.  The variable `err` is reset on
`sql.ErrNoRows` and is not read afterwards: the `return` names `nil`. -/
def BARTRetrieve (db : BartDB) (hash : List Nat) : List Nat × Option Err :=
  let scanned := (db.queryBody hash).scan []
  let body := scanned.1
  let err := scanned.2
  let _err : Option Err := if err = some sqlErrNoRows then none else err
  (body, none)

/-- The aggregate `MAX` over a column: `NULL` (`none`) without rows. -/
def sqlMax : List Nat → Option Nat
  | [] => none
  | x :: xs => some (xs.foldl max x)

/-- A `time.Time`, as the arguments of `time.Unix(sec, nsec)`. -/
structure UnixTime where
  sec : Nat
  nsec : Nat
  deriving DecidableEq, Repr

/-- Method `SQLiteUserStore.FeedbagLastModified`:
`SELECT MAX(lastModified) FROM feedbag WHERE screenName = ?` scanned into a
`sql.NullInt64`, whose `Int64` is 0 when the value is `NULL`. -/
def FeedbagLastModified (tbl : List FeedbagRow) (screenName : String) : UnixTime × Option Err :=
  let scanned :=
    (ScanResult.row (sqlMax ((tbl.filter (fun r => r.screenName == screenName)).map
      (fun r => r.lastModified)))).scan none
  let lastModified := scanned.1
  let err := scanned.2
  ({ sec := lastModified.getD 0, nsec := 0 }, err)

/-! ## state/user_store.go: buddies -/

/-- Method `SQLiteUserStore.Buddies`: the rows `f` with `f.screenName = ?` and
`f.classID = 0` for which neither `NOT EXISTS` subquery finds a row, projected
on `f.name`. -/
def Buddies (tbl : List FeedbagRow) (screenName : String) : List String :=
  (tbl.filter (fun f =>
      f.screenName == screenName && f.classID == 0
      && !(tbl.any (fun r => r.screenName == f.name && r.name == screenName
                              && r.classID == 3))
      && !(tbl.any (fun r => r.screenName == screenName && r.name == f.name
                              && r.classID == 3)))).map (fun f => f.name)

/-! ## state/webapi_presence_bridge.go: departures, updates, initial list -/

/-- The event type constant `EventTypeBuddyList`. -/
def EventTypeBuddyList : String := "buddylist"

/-- A buddy group as `GetBuddyListForUser` returns it; a buddy is kept to the
fields that are copied into a presence event. -/
structure WebAPIBuddyGroup where
  Name : String
  Buddies : List PresenceEvent
  deriving DecidableEq, Repr

/-- The data of a pushed event: a presence event, or the buddy list event that
`FormatBuddyListEvent(groups)` builds, kept as its argument. -/
inductive EventData where
  | presence (event : PresenceEvent)
  | buddyList (groups : List WebAPIBuddyGroup)
  deriving DecidableEq, Repr

/-- One call `session.EventQueue.Push(eventType, data)` on a given session. -/
structure SessionPush where
  eventType : String
  data : EventData
  deriving DecidableEq, Repr

/-- Method `WebAPIPresenceBridge.BroadcastBuddyDeparted`, as the list of queue
pushes it makes. -/
def BroadcastBuddyDeparted {Q : Type} (b : WebAPIPresenceBridge) (m : List (WebAPISession Q))
    (now : Nat) (departingScreenName : IdentScreenName) : List QueuePush :=
  let sessions := findSessionsWithBuddy b m now departingScreenName
  (sessions.filter (fun p => p.2.EventQueue.isSome && p.2.IsSubscribedTo "presence")).map
    (fun p =>
      { session := p.1, eventType := EventTypePresence,
        event := { AimID := departingScreenName.screenName, State := "offline",
                   StatusMsg := "", AwayMsg := "", IdleTime := 0, OnlineTime := 0,
                   UserType := "aim" } })

/-- Method `WebAPIPresenceBridge.BroadcastBuddyStatusUpdate`, as the list of
queue pushes it makes. -/
def BroadcastBuddyStatusUpdate {Q : Type} (b : WebAPIPresenceBridge)
    (m : List (WebAPISession Q)) (now : Nat) (updatedScreenName : IdentScreenName) :
    List QueuePush :=
  let sessions := findSessionsWithBuddy b m now updatedScreenName
  let buddyInfo := b.GetPresenceForBuddy updatedScreenName.screenName
  (sessions.filter (fun p => p.2.EventQueue.isSome && p.2.IsSubscribedTo "presence")).map
    (fun p =>
      { session := p.1, eventType := EventTypePresence,
        event := { AimID := buddyInfo.AimID, State := buddyInfo.State,
                   StatusMsg := buddyInfo.StatusMsg, AwayMsg := buddyInfo.AwayMsg,
                   IdleTime := buddyInfo.IdleTime, OnlineTime := buddyInfo.OnlineTime,
                   UserType := buddyInfo.UserType } })

/-- Method `WebAPIPresenceBridge.PushInitialBuddyList`, as the pushes it makes
on the session's queue and its error; `GetBuddyListForUser` is the method of
the buddy list manager. -/
def PushInitialBuddyList {Q : Type}
    (GetBuddyListForUser : IdentScreenName → Except Err (List WebAPIBuddyGroup))
    (session : WebAPISession Q) : List SessionPush × Option Err :=
  if !(session.IsSubscribedTo "buddylist") then ([], none)
  else
    match GetBuddyListForUser (NewIdentScreenName session.ScreenName) with
    | .error err => ([], some ("failed to get buddy list: " ++ err))
    | .ok groups =>
      let buddyListPush : SessionPush :=
        { eventType := EventTypeBuddyList, data := .buddyList groups }
      let presencePushes : List SessionPush :=
        (groups.map (fun group =>
          (group.Buddies.filter (fun buddy => buddy.State != "offline")).map
            (fun buddy =>
              ({ eventType := EventTypePresence,
                 data := .presence
                   { AimID := buddy.AimID, State := buddy.State,
                     StatusMsg := buddy.StatusMsg, AwayMsg := buddy.AwayMsg,
                     IdleTime := buddy.IdleTime, OnlineTime := buddy.OnlineTime,
                     UserType := buddy.UserType } } : SessionPush)))).flatten
      (buddyListPush :: presencePushes, none)

/-! ## state/webapi_session.go: the session manager -/

/-- Lookup `m[k]` in a Go map kept as an association list. -/
def mapGet {κ ν : Type} [DecidableEq κ] (m : List (κ × ν)) (k : κ) : Option ν :=
  (m.find? (fun e => decide (e.1 = k))).map (fun e => e.2)

/-- Builtin `delete(m, k)` on a Go map. -/
def mapDelete {κ ν : Type} [DecidableEq κ] (m : List (κ × ν)) (k : κ) : List (κ × ν) :=
  m.filter (fun e => !decide (e.1 = k))

/-- Assignment `m[k] = v` on a Go map. -/
def mapSet {κ ν : Type} [DecidableEq κ] (m : List (κ × ν)) (k : κ) (v : ν) : List (κ × ν) :=
  mapDelete m k ++ [(k, v)]

/-- The error values `ErrNoWebAPISession` and `ErrWebAPISessionExpired`. -/
def ErrNoWebAPISession : Err := "WebAPI session not found"
def ErrWebAPISessionExpired : Err := "WebAPI session expired"

/-- Method `WebAPISession.Touch` at time `now`; 60 minutes are 3600 seconds. -/
def WebAPISession.Touch {Q : Type} (s : WebAPISession Q) (now : Nat) : WebAPISession Q :=
  let s := { s with LastAccessed := now }
  let newExpiry := s.LastAccessed + 3600
  if s.ExpiresAt < newExpiry then { s with ExpiresAt := newExpiry } else s

/-- Type `WebAPISessionManager`: the maps `sessions` and `byUser`, whose values
are pointers to sessions, and the heap that holds the sessions by address. -/
structure WebAPISessionManager (Q : Type) where
  sessions : List (String × Nat)
  byUser : List (IdentScreenName × Nat)
  heap : List (WebAPISession Q)

/-- Function `NewWebAPISessionManager` (the cleanup ticker is
`cleanupExpiredSessions` below). -/
def NewWebAPISessionManager {Q : Type} : WebAPISessionManager Q :=
  { sessions := [], byUser := [], heap := [] }

/-- Method `WebAPISessionManager.CreateSession` at time `now`;
`generateSessionID` is the result of the function of that name and `newQueue` is
`NewEventQueue(1000)`; the argument `devID` is only stored in the session and is
left out.  Returns the pointer to the new session, or the error. -/
def WebAPISessionManager.CreateSession {Q : Type} (m : WebAPISessionManager Q) (newQueue : Q)
    (screenName : String) (events : List String) (generateSessionID : Except Err String)
    (now : Nat) : Except Err Nat × WebAPISessionManager Q :=
  let identName := NewIdentScreenName screenName
  let m1 : WebAPISessionManager Q :=
    match mapGet m.byUser identName with
    | some p =>
      match m.heap[p]? with
      | some existing => { m with sessions := mapDelete m.sessions existing.AimSID }
      | none => m
    | none => m
  match generateSessionID with
  | .error err => (.error err, m1)
  | .ok aimsid =>
    let session : WebAPISession Q :=
      { AimSID := aimsid, ScreenName := screenName, Events := events,
        EventQueue := some newQueue, ExpiresAt := now + 3600, LastAccessed := now }
    let p := m1.heap.length
    (.ok p, { sessions := mapSet m1.sessions aimsid p, byUser := mapSet m1.byUser identName p,
              heap := m1.heap ++ [session] })

/-- Method `WebAPISessionManager.GetSession` at time `now`. -/
def WebAPISessionManager.GetSession {Q : Type} (m : WebAPISessionManager Q) (aimsid : String)
    (now : Nat) : Except Err Nat :=
  match mapGet m.sessions aimsid with
  | none => .error ErrNoWebAPISession
  | some p =>
    match m.heap[p]? with
    | none => .error ErrNoWebAPISession
    | some session =>
      if session.IsExpired now then .error ErrWebAPISessionExpired else .ok p

/-- Method `WebAPISessionManager.GetSessionByUser` at time `now`. -/
def WebAPISessionManager.GetSessionByUser {Q : Type} (m : WebAPISessionManager Q)
    (screenName : IdentScreenName) (now : Nat) : Except Err Nat :=
  match mapGet m.byUser screenName with
  | none => .error ErrNoWebAPISession
  | some p =>
    match m.heap[p]? with
    | none => .error ErrNoWebAPISession
    | some session =>
      if session.IsExpired now then .error ErrWebAPISessionExpired else .ok p

/-- The removal that `RemoveSession` and the cleanup share: both map entries go
and the event queue, if any, is closed. -/
def WebAPISessionManager.drop {Q : Type} (closeQueue : Q → Q) (m : WebAPISessionManager Q)
    (aimsid : String) (p : Nat) (session : WebAPISession Q) : WebAPISessionManager Q :=
  { sessions := mapDelete m.sessions aimsid,
    byUser := mapDelete m.byUser (NewIdentScreenName session.ScreenName),
    heap := m.heap.set p { session with EventQueue := session.EventQueue.map closeQueue } }

/-- Method `WebAPISessionManager.RemoveSession`; `closeQueue` is
`EventQueue.Close`. -/
def WebAPISessionManager.RemoveSession {Q : Type} (closeQueue : Q → Q)
    (m : WebAPISessionManager Q) (aimsid : String) : Option Err × WebAPISessionManager Q :=
  match mapGet m.sessions aimsid with
  | none => (some ErrNoWebAPISession, m)
  | some p =>
    match m.heap[p]? with
    | none => (some ErrNoWebAPISession, m)
    | some session => (none, m.drop closeQueue aimsid p session)

/-- Method `WebAPISessionManager.TouchSession` at time `now`. -/
def WebAPISessionManager.TouchSession {Q : Type} (m : WebAPISessionManager Q) (aimsid : String)
    (now : Nat) : Option Err × WebAPISessionManager Q :=
  match mapGet m.sessions aimsid with
  | none => (some ErrNoWebAPISession, m)
  | some p =>
    match m.heap[p]? with
    | none => (some ErrNoWebAPISession, m)
    | some session => (none, { m with heap := m.heap.set p (session.Touch now) })

/-- One tick of `WebAPISessionManager.cleanupExpiredSessions` at time `now`:
collect the expired session ids, then remove each of them. -/
def WebAPISessionManager.cleanupExpiredSessions {Q : Type} (closeQueue : Q → Q)
    (m : WebAPISessionManager Q) (now : Nat) : WebAPISessionManager Q :=
  let toRemove := (m.sessions.filter (fun e =>
    match m.heap[e.2]? with
    | some session => decide (session.ExpiresAt < now)
    | none => false)).map (fun e => e.1)
  toRemove.foldl (fun m aimsid =>
    match mapGet m.sessions aimsid with
    | none => m
    | some p =>
      match m.heap[p]? with
      | none => m
      | some session => m.drop closeQueue aimsid p session) m

/-- Method `WebAPISessionManager.GetAllSessions` at time `now`, as pointers. -/
def WebAPISessionManager.GetAllSessions {Q : Type} (m : WebAPISessionManager Q) (now : Nat) :
    List Nat :=
  (m.sessions.filter (fun e =>
    match m.heap[e.2]? with
    | some session => !(session.IsExpired now)
    | none => false)).map (fun e => e.2)

/-! ## state/user_store.go: profiles -/

/-- The error value `ErrNoUser`. -/
def ErrNoUser : Err := "user does not exist"

/-- The SQL table `profile` with its columns `screenName` and `body` (`NULL`
when `none`), and the fault, if any, with which the database answers a query. -/
structure ProfileDB where
  profile : List (String × Option String)
  fault : Option Err

/-- The query of `Profile`:
`SELECT IFNULL(body, '') FROM profile WHERE screenName = ?`. -/
def ProfileDB.queryBody (db : ProfileDB) (screenName : String) : ScanResult String :=
  match db.fault with
  | some err => .failed err
  | none =>
    match db.profile.find? (fun row => row.1 == screenName) with
    | some row => .row (row.2.getD "")
    | none => .noRows

/-- Method `SQLiteUserStore.Profile`. -/
def Profile (db : ProfileDB) (screenName : String) : String × Option Err :=
  let scanned := (db.queryBody screenName).scan ""
  let profile := scanned.1
  let err := scanned.2
  if err ≠ none ∧ err ≠ some sqlErrNoRows then ("", err)
  else (profile, none)

/-! ## server/webapi/handlers/buddyfeed.go -/

/-- A value of the `map[string]interface{}` that `PushFeed` builds. -/
inductive FeedValue where
  | str (s : String)
  | strs (ss : List String)
  deriving DecidableEq, Repr

/-- What a handler sends: `SendError(w, status, message)`, `sendAtomFeed`,
`sendRSSFeed`, or `SendResponse` with a `BaseResponse` of the given status code,
status text and data. -/
inductive HTTPReply (φ : Type) where
  | error (status : Nat) (message : String)
  | atomFeed (feed : φ)
  | rssFeed (feed : φ)
  | response (statusCode : Nat) (statusText : String) (data : φ)
  deriving DecidableEq, Repr

/-- The HTTP status constants used by the handlers. -/
def StatusBadRequest : Nat := 400
def StatusUnauthorized : Nat := 401
def StatusInternalServerError : Nat := 500

/-- What `GetUser` does: its reply and the `(screenName, format)` arguments of
its calls of `FeedManager.GetUserFeed`. -/
structure GetUserResult (φ : Type) where
  reply : HTTPReply φ
  feedCalls : List (String × String)

/-- Method `BuddyFeedHandler.GetUser`; `query` is `r.URL.Query().Get`, `ToLower`
is `strings.ToLower` and `GetUserFeed` is the method of the feed manager. -/
def GetUser {φ : Type} (ToLower : String → String)
    (GetUserFeed : String → String → Except Err φ) (query : String → String) :
    GetUserResult φ :=
  let targetUser := query "t"
  if targetUser = "" then
    { reply := .error StatusBadRequest "missing 't' parameter", feedCalls := [] }
  else
    let format := ToLower (query "f")
    if format = "rss" ∨ format = "native" then
      let feedType := if query "f" = "atom" then "atom" else "rss"
      match GetUserFeed targetUser feedType with
      | .error _ =>
        { reply := .error StatusInternalServerError "failed to retrieve feed",
          feedCalls := [(targetUser, feedType)] }
      | .ok feedData =>
        if feedType = "atom" then
          { reply := .atomFeed feedData, feedCalls := [(targetUser, feedType)] }
        else
          { reply := .rssFeed feedData, feedCalls := [(targetUser, feedType)] }
    else
      match GetUserFeed targetUser "json" with
      | .error _ =>
        { reply := .error StatusInternalServerError "failed to retrieve feed",
          feedCalls := [(targetUser, "json")] }
      | .ok feedData =>
        { reply := .response 200 "OK" feedData, feedCalls := [(targetUser, "json")] }

/-- What `PushFeed` does: its reply (the data of the success response is
`{"success": true}`), the session manager it leaves behind, and the
`(screenName, feedData)` arguments of its calls of `FeedManager.PushFeed`. -/
structure PushFeedResult (Q : Type) where
  reply : HTTPReply Bool
  manager : WebAPISessionManager Q
  pushCalls : List (String × List (String × FeedValue))

/-- Method `BuddyFeedHandler.PushFeed` at time `now`; `query` is
`r.URL.Query().Get` and `FeedManagerPushFeed` is the method of the feed
manager. -/
def PushFeed {Q : Type} (m : WebAPISessionManager Q)
    (FeedManagerPushFeed : String → List (String × FeedValue) → Option Err)
    (query : String → String) (now : Nat) : PushFeedResult Q :=
  let token := query "a"
  let aimsid := query "aimsid"
  if token = "" ∧ aimsid = "" then
    { reply := .error StatusBadRequest "authentication required", manager := m, pushCalls := [] }
  else
    let auth : Except (HTTPReply Bool) (String × WebAPISessionManager Q) :=
      if aimsid ≠ "" then
        match m.GetSession aimsid now with
        | .error _ => .error (.error StatusUnauthorized "invalid or expired session")
        | .ok p =>
          match m.heap[p]? with
          | none => .error (.error StatusUnauthorized "invalid or expired session")
          | some session => .ok (session.ScreenName, (m.TouchSession aimsid now).2)
      else
        if query "s" = "" then .error (.error StatusBadRequest "missing source user")
        else .ok (query "s", m)
    match auth with
    | .error reply => { reply := reply, manager := m, pushCalls := [] }
    | .ok (screenName, m1) =>
      let feedTitle := query "feedTitle"
      let feedLink := query "feedLink"
      let feedDesc := query "feedDesc"
      let itemTitle := query "itemTitle"
      let itemLink := query "itemLink"
      let itemGuid := query "itemGuid"
      if feedTitle = "" ∨ feedLink = "" ∨ feedDesc = "" ∨ itemTitle = "" ∨ itemLink = ""
          ∨ itemGuid = "" then
        { reply := .error StatusBadRequest "missing required feed parameters", manager := m1,
          pushCalls := [] }
      else
        let feedData : List (String × FeedValue) :=
          [("title", .str itemTitle), ("description", .str (query "itemDesc")),
           ("link", .str itemLink), ("guid", .str itemGuid), ("feedTitle", .str feedTitle),
           ("feedLink", .str feedLink), ("feedDesc", .str feedDesc)]
        let feedData :=
          if query "feedPublisher" ≠ "" then
            mapSet feedData "publisher" (.str (query "feedPublisher"))
          else feedData
        let feedData :=
          if query "itemPubDate" ≠ "" then mapSet feedData "pubDate" (.str (query "itemPubDate"))
          else feedData
        let feedData :=
          if query "itemCategory" ≠ "" then
            mapSet feedData "categories" (.strs [query "itemCategory"])
          else feedData
        match FeedManagerPushFeed screenName feedData with
        | some _ =>
          { reply := .error StatusInternalServerError "failed to push feed", manager := m1,
            pushCalls := [(screenName, feedData)] }
        | none =>
          { reply := .response 200 "OK" true, manager := m1,
            pushCalls := [(screenName, feedData)] }

/-- Function `strings.ToLower` on ASCII letters; other characters are kept. -/
def toLowerASCII (s : String) : String := String.mk (s.toList.map Char.toLower)

/-- The query parameters of a request, from the list of its pairs; a missing
parameter reads as the empty string. -/
def queryOf (params : List (String × String)) (key : String) : String :=
  (mapGet params key).getD ""

/-! ## server/webapi/handlers/amf_encoder.go -/

/-- Type `AMFVersion` with its two constants. -/
inductive AMFVersion where
  | AMF0
  | AMF3
  deriving DecidableEq, Repr

/-- A field of a Go struct value as reflection shows it: its name, the value of
its `json` tag, whether `CanInterface` holds (the field is exported), whether
its static type is an interface, and its value. -/
structure GoField (α : Type) where
  Name : String
  Tag : String
  exported : Bool
  isInterface : Bool
  value : α

/-- The Go values that reach the AMF encoder as `interface{}`, by dynamic type:
the nil interface; booleans; `int`; the sized signed integers; the unsigned
integers (`bits = 0` for `uint`); floats (only the comparison with 0 is used);
strings; `[]byte`; `time.Time` (0 is the zero time); typed pointers (nil when
`none`); `map[string]interface{}`; `amf.ECMAArray`; other maps; `[]interface{}`;
slices and arrays of another element type; structs by type name; and values of
any other kind. -/
inductive GoValue where
  | nil
  | bool (b : Bool)
  | int (n : Int)
  | sized (bits : Nat) (n : Int)
  | uint (bits : Nat) (n : Nat)
  | float (x : Int)
  | str (s : String)
  | bytes (b : List Nat)
  | time (t : Int)
  | ptr (elem : Option GoValue)
  | map (entries : List (String × GoValue))
  | ecmaArray (entries : List (String × GoValue))
  | otherMap (entries : List (GoValue × GoValue))
  | slice (items : List GoValue)
  | sliceOf (elemType : String) (items : List GoValue)
  | struct (typeName : String) (fields : List (GoField GoValue))
  | other (kind : String)

/-- What the encoder takes from its surroundings: `fmt.Sprintf("%v", x)` and
`time.Now().Unix()`. -/
structure AMFEnv where
  Sprintf : GoValue → String
  now : Int

/-- The conversion `int(v)` of an unsigned value on a 64-bit platform. -/
def intOfUint (n : Nat) : Int :=
  if n % 2 ^ 64 < 2 ^ 63 then (n % 2 ^ 64 : Nat) else ((n % 2 ^ 64 : Nat) : Int) - 2 ^ 64

/-- The value of the field `name` of a struct (nil when there is none). -/
def fieldOf (fields : List (GoField GoValue)) (name : String) : GoValue :=
  match fields.find? (fun f => f.Name == name) with
  | some f => f.value
  | none => .nil

/-- The comparison `v == nil` of an `interface{}` value. -/
def GoValue.isNil : GoValue → Bool
  | .nil => true
  | _ => false

/-- The number held by an unsigned value. -/
def GoValue.natValue : GoValue → Nat
  | .uint _ n => n
  | _ => 0

/-- The number held by a signed value. -/
def GoValue.intValue : GoValue → Int
  | .int n => n
  | .sized _ n => n
  | _ => 0

/-- Function `strings.Split(s, ",")` on the characters of `s`. -/
def splitOnComma (cs : List Char) : List (List Char) :=
  cs.foldr (fun c acc =>
    if c = ',' then [] :: acc
    else
      match acc with
      | [] => [[c]]
      | x :: xs => (c :: x) :: xs) [[]]

/-- The field name that `structToMapWithVersion` takes from a `json` tag: the
first part of the tag, or the Go name of the field when that part is empty. -/
def jsonFieldName (f : GoField GoValue) : String :=
  match splitOnComma f.Tag.toList with
  | [] => f.Name
  | part :: _ => if part = [] then f.Name else String.mk part

/-- Whether a later part of the `json` tag is `omitempty`. -/
def jsonOmitEmpty (f : GoField GoValue) : Bool :=
  match splitOnComma f.Tag.toList with
  | [] => false
  | _ :: parts => parts.any (fun part => part == "omitempty".toList)

/-- Method `AMFEncoder.isZeroValue` on a struct field. -/
def isZeroValue (f : GoField GoValue) : Bool :=
  if f.isInterface then
    match f.value with
    | .nil => true
    | _ => false
  else
    match f.value with
    | .nil => true
    | .bool b => !b
    | .int n => n == 0
    | .sized _ n => n == 0
    | .uint _ n => n == 0
    | .float x => x == 0
    | .str s => s.length == 0
    | .bytes b => b.length == 0
    | .time t => t == 0
    | .ptr elem => elem.isNone
    | .map entries => entries.length == 0
    | .ecmaArray entries => entries.length == 0
    | .otherMap entries => entries.length == 0
    | .slice items => items.length == 0
    | .sliceOf _ items => items.length == 0
    | .struct _ _ => false
    | .other _ => false

/-- The wrapping of a converted map: `amf.ECMAArray(result)` when `asArray`
holds, the plain map otherwise. -/
def wrapMap (asArray : Bool) (result : List (String × GoValue)) : GoValue :=
  if asArray then .ecmaArray result else .map result

/-- The map that `responseBodyToMapWithVersion` builds from the fields of the
body, given the converted `body.Data` (`none` when `body.Data` is nil). -/
def responseBodyMap (version : AMFVersion) (body : List (GoField GoValue))
    (data : Option GoValue) : List (String × GoValue) :=
  let m := [("statusCode", fieldOf body "StatusCode"), ("statusText", fieldOf body "StatusText")]
  match data with
  | some data => mapSet m "data" data
  | none => if version == .AMF3 then mapSet m "data" (.map []) else m

mutual

/-- Method `AMFEncoder.toAMFCompatibleWithVersion`. -/
def toAMFCompatibleWithVersion (env : AMFEnv) (version : AMFVersion) : GoValue → GoValue
  | .nil => .nil
  | .ptr none => .nil
  | .ptr (some v) => toAMFValue env version v
  | .bool b => .bool b
  | .int n => .int n
  | .sized _ n => .int n
  | .uint _ n => .int (intOfUint n)
  | .float x => .float x
  | .str s => .str s
  | .bytes b => .str (String.mk (b.map Char.ofNat))
  | .time t => .time t
  | .map entries =>
    wrapMap (version == .AMF0) (toAMFEntries env version entries)
  | .ecmaArray entries =>
    wrapMap (version == .AMF0) (toAMFEntries env version entries)
  | .otherMap entries =>
    wrapMap (version == .AMF0) (mapToAMFMapWithVersion env version entries [])
  | .slice items => .slice (toAMFItems env version items)
  | .sliceOf _ items => .slice (toAMFItems env version items)
  | .struct typeName fields =>
    if typeName = "BaseResponse" then
      wrapMap (version == .AMF0) (baseResponseToMapWithVersion env version fields)
    else if typeName = "ResponseBody" then
      wrapMap (version == .AMF0) (responseBodyMap version fields (responseData env version fields))
    else if typeName = "ErrorResponse" then
      wrapMap (version == .AMF0)
        [("response",
          .map [("statusCode",
                  match fieldOf fields "Response" with
                  | .struct _ inner => fieldOf inner "StatusCode"
                  | _ => .nil),
                ("statusText",
                  match fieldOf fields "Response" with
                  | .struct _ inner => fieldOf inner "StatusText"
                  | _ => .nil)])]
    else
      wrapMap (version == .AMF3) (structToMapWithVersion env version fields [])
  | .other kind => .str (env.Sprintf (.other kind))

/-- The part of `toAMFCompatibleWithVersion` after a pointer was followed: a
second pointer is not followed but formatted. -/
def toAMFValue (env : AMFEnv) (version : AMFVersion) : GoValue → GoValue
  | .nil => .str (env.Sprintf .nil)
  | .ptr elem => .str (env.Sprintf (.ptr elem))
  | .bool b => .bool b
  | .int n => .int n
  | .sized _ n => .int n
  | .uint _ n => .int (intOfUint n)
  | .float x => .float x
  | .str s => .str s
  | .bytes b => .str (String.mk (b.map Char.ofNat))
  | .time t => .time t
  | .map entries =>
    wrapMap (version == .AMF0) (toAMFEntries env version entries)
  | .ecmaArray entries =>
    wrapMap (version == .AMF0) (toAMFEntries env version entries)
  | .otherMap entries =>
    wrapMap (version == .AMF0) (mapToAMFMapWithVersion env version entries [])
  | .slice items => .slice (toAMFItems env version items)
  | .sliceOf _ items => .slice (toAMFItems env version items)
  | .struct typeName fields =>
    if typeName = "BaseResponse" then
      wrapMap (version == .AMF0) (baseResponseToMapWithVersion env version fields)
    else if typeName = "ResponseBody" then
      wrapMap (version == .AMF0) (responseBodyMap version fields (responseData env version fields))
    else if typeName = "ErrorResponse" then
      wrapMap (version == .AMF0)
        [("response",
          .map [("statusCode",
                  match fieldOf fields "Response" with
                  | .struct _ inner => fieldOf inner "StatusCode"
                  | _ => .nil),
                ("statusText",
                  match fieldOf fields "Response" with
                  | .struct _ inner => fieldOf inner "StatusText"
                  | _ => .nil)])]
    else
      wrapMap (version == .AMF3) (structToMapWithVersion env version fields [])
  | .other kind => .str (env.Sprintf (.other kind))

/-- The loop of `toAMFCompatibleWithVersion` over a `map[string]interface{}`
(and of `mapToAMFMapWithVersion` over a map with string keys). -/
def toAMFEntries (env : AMFEnv) (version : AMFVersion) :
    List (String × GoValue) → List (String × GoValue)
  | [] => []
  | (k, v) :: entries =>
    (k, toAMFCompatibleWithVersion env version v) :: toAMFEntries env version entries

/-- The loop of `toAMFCompatibleWithVersion` over a `[]interface{}` and method
`AMFEncoder.sliceToArrayWithVersion`. -/
def toAMFItems (env : AMFEnv) (version : AMFVersion) : List GoValue → List GoValue
  | [] => []
  | v :: items => toAMFCompatibleWithVersion env version v :: toAMFItems env version items

/-- Method `AMFEncoder.mapToAMFMapWithVersion`; `result` is the map built so
far. -/
def mapToAMFMapWithVersion (env : AMFEnv) (version : AMFVersion) :
    List (GoValue × GoValue) → List (String × GoValue) → List (String × GoValue)
  | [], result => result
  | (key, value) :: entries, result =>
    mapToAMFMapWithVersion env version entries
      (mapSet result (env.Sprintf key) (toAMFCompatibleWithVersion env version value))

/-- Method `AMFEncoder.structToMapWithVersion`; `result` is the map built so
far. -/
def structToMapWithVersion (env : AMFEnv) (version : AMFVersion) :
    List (GoField GoValue) → List (String × GoValue) → List (String × GoValue)
  | [], result => result
  | field :: fields, result =>
    if !field.exported then structToMapWithVersion env version fields result
    else if field.Tag = "-" then structToMapWithVersion env version fields result
    else if jsonOmitEmpty field && isZeroValue field then
      structToMapWithVersion env version fields result
    else
      structToMapWithVersion env version fields
        (mapSet result (jsonFieldName field)
          (toAMFCompatibleWithVersion env version field.value))

/-- The entry `m["data"]` of `responseBodyToMapWithVersion`, from the field
`Data` of the body: absent when `body.Data` is nil. -/
def responseData (env : AMFEnv) (version : AMFVersion) :
    List (GoField GoValue) → Option GoValue
  | [] => none
  | ⟨name, _, _, _, value⟩ :: fields =>
    if name = "Data" then
      if value.isNil then none
      else some (toAMFCompatibleWithVersion env version value)
    else responseData env version fields

/-- Method `AMFEncoder.baseResponseToMapWithVersion`, on the fields of the
response: the field `Response` is the body. -/
def baseResponseToMapWithVersion (env : AMFEnv) (version : AMFVersion) :
    List (GoField GoValue) → List (String × GoValue)
  | [] => [("response", .map (responseBodyMap version [] none))]
  | ⟨name, _, _, _, value⟩ :: fields =>
    if name = "Response" then
      match value with
      | .struct _ body =>
        [("response", .map (responseBodyMap version body (responseData env version body)))]
      | _ => [("response", .map (responseBodyMap version [] none))]
    else baseResponseToMapWithVersion env version fields

end

/-- Method `AMFEncoder.responseBodyToMapWithVersion`, on the fields of the
body. -/
def responseBodyToMapWithVersion (env : AMFEnv) (version : AMFVersion)
    (body : List (GoField GoValue)) : List (String × GoValue) :=
  responseBodyMap version body (responseData env version body)

/-- Method `AMFEncoder.structToMap`. -/
def structToMap (env : AMFEnv) (fields : List (GoField GoValue)) : List (String × GoValue) :=
  structToMapWithVersion env .AMF0 fields []

/-- The map that `sanitizeForAMF3` builds for a `state.WebAPIEvent` with the
given fields, given its sanitized `Data`. -/
def eventMap (env : AMFEnv) (fields : List (GoField GoValue)) (data : GoValue) : GoValue :=
  let seqNum : Int := ((fieldOf fields "SeqNum").natValue % 2 ^ 29 : Nat)
  let timestampSec : Int := env.now - (fieldOf fields "Timestamp").intValue
  let timestampSec : Int := if timestampSec < 0 then 0 else timestampSec
  .map [("type", fieldOf fields "Type"), ("seqNum", .int seqNum),
        ("timestamp", .int timestampSec), ("data", data)]

mutual

/-- Method `AMFEncoder.sanitizeForAMF3`. -/
def sanitizeForAMF3 (env : AMFEnv) : GoValue → GoValue
  | .nil => .map []
  | .uint _ n => .int (intOfUint n)
  | .map entries => .map (sanitizeEntries env entries)
  | .slice items => .slice (sanitizeItems env items)
  | .sliceOf elemType items =>
    if elemType = "state.WebAPIEvent" then .slice (sanitizeEvents env items)
    else .sliceOf elemType items
  | .struct typeName fields =>
    if typeName = "state.WebAPIEvent" then eventMap env fields (sanitizeEventData env fields)
    else .map (structToMap env fields)
  | .time _ => .map (structToMap env [])
  | .bool b => .bool b
  | .int n => .int n
  | .sized bits n => .sized bits n
  | .float x => .float x
  | .str s => .str s
  | .bytes b => .bytes b
  | .ptr elem => .ptr elem
  | .ecmaArray entries => .ecmaArray entries
  | .otherMap entries => .otherMap entries
  | .other kind => .other kind

/-- The loop of `sanitizeForAMF3` over a `map[string]interface{}`. -/
def sanitizeEntries (env : AMFEnv) : List (String × GoValue) → List (String × GoValue)
  | [] => []
  | (key, val) :: entries =>
    if val.isNil then
      if key = "data" then (key, .map []) :: sanitizeEntries env entries
      else sanitizeEntries env entries
    else (key, sanitizeForAMF3 env val) :: sanitizeEntries env entries

/-- The loop of `sanitizeForAMF3` over a `[]interface{}`. -/
def sanitizeItems (env : AMFEnv) : List GoValue → List GoValue
  | [] => []
  | item :: items => sanitizeForAMF3 env item :: sanitizeItems env items

/-- The loop of `sanitizeForAMF3` over a `[]state.WebAPIEvent`. -/
def sanitizeEvents (env : AMFEnv) : List GoValue → List GoValue
  | [] => []
  | event :: events =>
    (match event with
     | .struct _ fields => eventMap env fields (sanitizeEventData env fields)
     | _ => eventMap env [] (.map [])) :: sanitizeEvents env events

/-- The call `e.sanitizeForAMF3(event.Data)`, on the fields of the event. -/
def sanitizeEventData (env : AMFEnv) : List (GoField GoValue) → GoValue
  | [] => .map []
  | ⟨name, _, _, _, value⟩ :: fields =>
    if name = "Data" then sanitizeForAMF3 env value else sanitizeEventData env fields

end

mutual

/-- Whether a value holds a nil at some depth: a map with a nil value or a
slice with a nil element. -/
def GoValue.hasNil : GoValue → Bool
  | .map entries => entriesHaveNil entries
  | .ecmaArray entries => entriesHaveNil entries
  | .otherMap entries => pairsHaveNil entries
  | .slice items => itemsHaveNil items
  | .sliceOf _ items => itemsHaveNil items
  | .struct _ fields => fieldsHaveNil fields
  | .ptr (some v) => v.hasNil
  | _ => false

/-- Whether a map has a nil value, at the top or below. -/
def entriesHaveNil : List (String × GoValue) → Bool
  | [] => false
  | (_, v) :: entries => v.isNil || v.hasNil || entriesHaveNil entries

/-- Whether a map with other keys has a nil value, at the top or below. -/
def pairsHaveNil : List (GoValue × GoValue) → Bool
  | [] => false
  | (_, v) :: entries => v.isNil || v.hasNil || pairsHaveNil entries

/-- Whether a slice has a nil element, at the top or below. -/
def itemsHaveNil : List GoValue → Bool
  | [] => false
  | v :: items => v.isNil || v.hasNil || itemsHaveNil items

/-- Whether a field of a struct holds a map or a slice with a nil. -/
def fieldsHaveNil : List (GoField GoValue) → Bool
  | [] => false
  | ⟨_, _, _, _, value⟩ :: fields => value.hasNil || fieldsHaveNil fields

end

/-! # Theorems -/


/-! ## The auth service -/

/-- The `loginOK` switch accepts a stored user whose hash equals the supplied
one, and leaves the state alone. -/
theorem loginSwitch_accept (s : AuthService σ τ) (w : World σ τ) (sn : String)
    (h : List Nat) (u : User) (hu : u.PassHash = h) :
    loginSwitch s w sn h (some u) = (.ok true, w) := by
  simp [loginSwitch, hu]

/-- With disable-auth off the switch rejects every other login, and leaves the
state alone. -/
theorem loginSwitch_reject (s : AuthService σ τ) (w : World σ τ) (sn : String)
    (h : List Nat) (u? : Option User) (hauth : s.cfg.DisableAuth = false)
    (hn : ¬(∃ u, u? = some u ∧ u.PassHash = h)) :
    loginSwitch s w sn h u? = (.ok false, w) := by
  unfold loginSwitch
  cases u? with
  | none => simp [hauth]
  | some u =>
    have : u.PassHash ≠ h := fun e => hn ⟨u, rfl, e⟩
    simp [this, hauth]

/-- With disable-auth on, a login that fails the check goes through
`newStubUser` and `UpsertUser`. -/
theorem loginSwitch_stub (s : AuthService σ τ) (w : World σ τ) (sn : String)
    (h : List Nat) (u? : Option User) (hauth : s.cfg.DisableAuth = true)
    (hn : ¬(∃ u, u? = some u ∧ u.PassHash = h)) :
    loginSwitch s w sn h u? =
      (match newStubUser s sn with
       | .error err => (.error err, w)
       | .ok newUser =>
         match s.um.UpsertUser w.um newUser with
         | (um1, some err) => (.error err, { w with um := um1 })
         | (um1, none) => (.ok true, { w with um := um1 })) := by
  unfold loginSwitch
  cases u? with
  | none => simp [hauth]
  | some u =>
    have : u.PassHash ≠ h := fun e => hn ⟨u, rfl, e⟩
    simp [this, hauth]

/-- C1: with disable-auth off and a user store that answers, a BUCP login
request carrying a screen name and a password hash is answered by a login
response with ReconnectHere (host and BOS port) and an AuthorizationCookie equal
to the ID of the session just created for the screen name if and only if the
user exists and the stored hash equals the supplied one; otherwise the response
carries ErrorSubcode 0x01, no cookie, and the state (sessions included) is
unchanged. -/
theorem C1_login_response (s : AuthService σ τ) (w : World σ τ) (req : List TLV)
    (newUUID sn : String) (h : List Nat) (u? : Option User)
    (hsn : GetString req TLVScreenName = some sn)
    (hph : GetSlice req TLVPasswordHash = some h)
    (hauth : s.cfg.DisableAuth = false)
    (hget : s.um.GetUser w.um sn = .ok u?) :
    ((∃ u, u? = some u ∧ u.PassHash = h) →
      ReceiveAndSendBUCPLoginRequest s w req newUUID =
        (.ok ⟨⟨BUCP, BUCPLoginResponse⟩, .loginResponse
            [⟨TLVScreenName, .str sn⟩,
             ⟨TLVReconnectHere, .str (s.Address s.cfg.OSCARHost s.cfg.BOSPort)⟩,
             ⟨TLVAuthorizationCookie, .str (s.sm.NewSessionWithSN w.sm newUUID sn).2.ID⟩]⟩,
         { w with sm := (s.sm.NewSessionWithSN w.sm newUUID sn).1 }))
    ∧ (¬(∃ u, u? = some u ∧ u.PassHash = h) →
      ReceiveAndSendBUCPLoginRequest s w req newUUID =
        (.ok ⟨⟨BUCP, BUCPLoginResponse⟩, .loginResponse
            [⟨TLVScreenName, .str sn⟩, ⟨TLVErrorSubcode, .u16 0x01⟩]⟩, w))
    ∧ ((∃ m w1, ReceiveAndSendBUCPLoginRequest s w req newUUID = (.ok m, w1)
          ∧ carries m ⟨TLVReconnectHere, .str (s.Address s.cfg.OSCARHost s.cfg.BOSPort)⟩
          ∧ carries m ⟨TLVAuthorizationCookie,
              .str (s.sm.NewSessionWithSN w.sm newUUID sn).2.ID⟩)
        ↔ ∃ u, u? = some u ∧ u.PassHash = h)
    ∧ (¬(∃ u, u? = some u ∧ u.PassHash = h) →
        ∀ m w1, ReceiveAndSendBUCPLoginRequest s w req newUUID = (.ok m, w1) →
          carries m ⟨TLVErrorSubcode, .u16 0x01⟩ ∧ ¬ carriesTag m TLVAuthorizationCookie
          ∧ w1 = w) := by
  have hyes : (∃ u, u? = some u ∧ u.PassHash = h) →
      ReceiveAndSendBUCPLoginRequest s w req newUUID =
        (.ok ⟨⟨BUCP, BUCPLoginResponse⟩, .loginResponse
            [⟨TLVScreenName, .str sn⟩,
             ⟨TLVReconnectHere, .str (s.Address s.cfg.OSCARHost s.cfg.BOSPort)⟩,
             ⟨TLVAuthorizationCookie, .str (s.sm.NewSessionWithSN w.sm newUUID sn).2.ID⟩]⟩,
         { w with sm := (s.sm.NewSessionWithSN w.sm newUUID sn).1 }) := by
    rintro ⟨u, rfl, hu⟩
    simp [ReceiveAndSendBUCPLoginRequest, hsn, hph, hget, loginSwitch_accept s w sn h u hu,
      AddTLV, AddTLVList, NewTLV]
  have hno : ¬(∃ u, u? = some u ∧ u.PassHash = h) →
      ReceiveAndSendBUCPLoginRequest s w req newUUID =
        (.ok ⟨⟨BUCP, BUCPLoginResponse⟩, .loginResponse
            [⟨TLVScreenName, .str sn⟩, ⟨TLVErrorSubcode, .u16 0x01⟩]⟩, w) := by
    intro hn
    simp [ReceiveAndSendBUCPLoginRequest, hsn, hph, hget,
      loginSwitch_reject s w sn h u? hauth hn, AddTLV, AddTLVList, NewTLV]
  refine ⟨hyes, hno, ⟨?_, ?_⟩, ?_⟩
  · rintro ⟨m, w1, hr, hrec, -⟩
    by_contra hn
    rw [hno hn] at hr
    injection hr with hm _
    injection hm with hm
    subst hm
    simp [carries, TLVReconnectHere, TLVScreenName, TLVErrorSubcode] at hrec
  · intro hok
    exact ⟨_, _, hyes hok, by simp [carries], by simp [carries]⟩
  · intro hn m w1 hr
    rw [hno hn] at hr
    injection hr with hm hw
    injection hm with hm
    subst hm
    subst hw
    refine ⟨by simp [carries], ?_, rfl⟩
    simp [carriesTag, TLVAuthorizationCookie, TLVScreenName, TLVErrorSubcode]

/-- C1 at a concrete input: Alice logs in with her stored hash. -/
theorem C1_login_response_witness :
    ReceiveAndSendBUCPLoginRequest (memService false false)
        { um := [⟨"Alice", "s", [1, 2]⟩], sm := [] }
        [⟨TLVScreenName, .str "Alice"⟩, ⟨TLVPasswordHash, .bytes [1, 2]⟩] "id-1" =
      (.ok ⟨⟨BUCP, BUCPLoginResponse⟩, .loginResponse
          [⟨TLVScreenName, .str "Alice"⟩,
           ⟨TLVReconnectHere, .str "bos.example:5190"⟩,
           ⟨TLVAuthorizationCookie, .str "id-1"⟩]⟩,
       { um := [⟨"Alice", "s", [1, 2]⟩], sm := [("id-1", ⟨"id-1", "Alice"⟩)] }) :=
  (C1_login_response (memService false false)
      { um := [⟨"Alice", "s", [1, 2]⟩], sm := [] }
      [⟨TLVScreenName, .str "Alice"⟩, ⟨TLVPasswordHash, .bytes [1, 2]⟩] "id-1" "Alice" [1, 2]
      (some ⟨"Alice", "s", [1, 2]⟩) (by decide) (by decide) rfl rfl).1
    ⟨⟨"Alice", "s", [1, 2]⟩, rfl, rfl⟩

/-- C2: a challenge request carrying a screen name, with a user store that
answers, is answered by a challenge response whose auth key is the stored
user's when the user exists; when the user does not exist and disable-auth is
off, it is answered by a login response carrying ErrorSubcode 0x01.  In both
cases the user store and the session registry are left as they were. -/
theorem C2_auth_challenge (s : AuthService σ τ) (w : World σ τ) (req : List TLV)
    (newUUID sn : String) (u? : Option User)
    (hsn : GetString req TLVScreenName = some sn)
    (hget : s.um.GetUser w.um sn = .ok u?) :
    (∀ u, u? = some u →
      ReceiveAndSendAuthChallenge s w req newUUID =
        (.ok ⟨⟨BUCP, BUCPChallengeResponse⟩, .challengeResponse u.AuthKey⟩, w))
    ∧ (u? = none → s.cfg.DisableAuth = false →
      ReceiveAndSendAuthChallenge s w req newUUID =
        (.ok ⟨⟨BUCP, BUCPLoginResponse⟩, .loginResponse [⟨TLVErrorSubcode, .u16 0x01⟩]⟩, w)) := by
  constructor
  · rintro u rfl
    simp [ReceiveAndSendAuthChallenge, hsn, hget]
  · rintro rfl hauth
    simp [ReceiveAndSendAuthChallenge, hsn, hget, hauth, AddTLV, NewTLV]

/-- C2 at a concrete input: an unknown screen name with disable-auth off. -/
theorem C2_auth_challenge_witness :
    ReceiveAndSendAuthChallenge (memService false false)
        { um := [⟨"Alice", "s", [1, 2]⟩], sm := [] }
        [⟨TLVScreenName, .str "Ghost"⟩] "id-1" =
      (.ok ⟨⟨BUCP, BUCPLoginResponse⟩, .loginResponse [⟨TLVErrorSubcode, .u16 0x01⟩]⟩,
       { um := [⟨"Alice", "s", [1, 2]⟩], sm := [] }) :=
  (C2_auth_challenge (memService false false)
      { um := [⟨"Alice", "s", [1, 2]⟩], sm := [] }
      [⟨TLVScreenName, .str "Ghost"⟩] "id-1" "Ghost" none (by decide) rfl).2 rfl rfl

/-- C3, as stated, fails: with disable-auth on, a login for the existing user
Alice with a hash other than the stored one makes the handler upsert a stub
user, and the in-memory store then holds the stub's auth key and hash in place
of Alice's. -/
theorem C3_counterexample :
    memUserManager.GetUser [⟨"Alice", "s", [1, 2]⟩] "Alice" = .ok (some ⟨"Alice", "s", [1, 2]⟩)
    ∧ (ReceiveAndSendBUCPLoginRequest (memService true false)
        { um := [⟨"Alice", "s", [1, 2]⟩], sm := [] }
        [⟨TLVScreenName, .str "Alice"⟩, ⟨TLVPasswordHash, .bytes [9]⟩] "id-1").2.um
      = [⟨"Alice", "salt-1", ("welcome1salt-1").toList.map Char.toNat⟩]
    ∧ (ReceiveAndSendBUCPLoginRequest (memService true false)
        { um := [⟨"Alice", "s", [1, 2]⟩], sm := [] }
        [⟨TLVScreenName, .str "Alice"⟩, ⟨TLVPasswordHash, .bytes [9]⟩] "id-1").2.um
      ≠ [⟨"Alice", "s", [1, 2]⟩] := by
  have hum : (ReceiveAndSendBUCPLoginRequest (memService true false)
        { um := [⟨"Alice", "s", [1, 2]⟩], sm := [] }
        [⟨TLVScreenName, .str "Alice"⟩, ⟨TLVPasswordHash, .bytes [9]⟩] "id-1").2.um
      = [⟨"Alice", "salt-1", ("welcome1salt-1").toList.map Char.toNat⟩] := by rfl
  refine ⟨rfl, hum, ?_⟩
  rw [hum]
  decide

/-- C3, amended: the login handler leaves the user store as it was, except
when disable-auth is on and the login check failed (no user of that screen
name, or a stored hash other than the supplied one); the store is then what one
`UpsertUser` of a stub user, hashed twice from the password "welcome1", leaves
behind.  With disable-auth off the store is never changed. -/
theorem C3_store_writes (s : AuthService σ τ) (w : World σ τ) (req : List TLV)
    (newUUID : String) :
    ((ReceiveAndSendBUCPLoginRequest s w req newUUID).2.um = w.um
      ∨ (s.cfg.DisableAuth = true ∧ ∃ sn h u? uid u1 nu,
          GetString req TLVScreenName = some sn
          ∧ GetSlice req TLVPasswordHash = some h
          ∧ s.um.GetUser w.um sn = .ok u?
          ∧ ¬(∃ u, u? = some u ∧ u.PassHash = h)
          ∧ s.uuidNewRandom = .ok uid
          ∧ s.HashPassword ⟨sn, uid, []⟩ "welcome1" = .ok u1
          ∧ s.HashPassword u1 "welcome1" = .ok nu
          ∧ (ReceiveAndSendBUCPLoginRequest s w req newUUID).2.um
              = (s.um.UpsertUser w.um nu).1))
    ∧ (s.cfg.DisableAuth = false →
        (ReceiveAndSendBUCPLoginRequest s w req newUUID).2.um = w.um) := by
  have key : (ReceiveAndSendBUCPLoginRequest s w req newUUID).2.um = w.um
      ∨ (s.cfg.DisableAuth = true ∧ ∃ sn h u? uid u1 nu,
          GetString req TLVScreenName = some sn
          ∧ GetSlice req TLVPasswordHash = some h
          ∧ s.um.GetUser w.um sn = .ok u?
          ∧ ¬(∃ u, u? = some u ∧ u.PassHash = h)
          ∧ s.uuidNewRandom = .ok uid
          ∧ s.HashPassword ⟨sn, uid, []⟩ "welcome1" = .ok u1
          ∧ s.HashPassword u1 "welcome1" = .ok nu
          ∧ (ReceiveAndSendBUCPLoginRequest s w req newUUID).2.um
              = (s.um.UpsertUser w.um nu).1) := by
    cases hsn : GetString req TLVScreenName with
    | none => left; simp [ReceiveAndSendBUCPLoginRequest, hsn]
    | some sn =>
    cases hph : GetSlice req TLVPasswordHash with
    | none => left; simp [ReceiveAndSendBUCPLoginRequest, hsn, hph]
    | some h =>
    cases hget : s.um.GetUser w.um sn with
    | error err => left; simp [ReceiveAndSendBUCPLoginRequest, hsn, hph, hget]
    | ok u? =>
    by_cases hok : ∃ u, u? = some u ∧ u.PassHash = h
    · obtain ⟨u, rfl, hu⟩ := hok
      left
      simp [ReceiveAndSendBUCPLoginRequest, hsn, hph, hget, loginSwitch_accept s w sn h u hu]
    · cases hauth : s.cfg.DisableAuth with
      | false =>
        left
        simp [ReceiveAndSendBUCPLoginRequest, hsn, hph, hget,
          loginSwitch_reject s w sn h u? hauth hok]
      | true =>
        have hsw := loginSwitch_stub s w sn h u? hauth hok
        cases hrand : s.uuidNewRandom with
        | error err =>
          left
          simp [ReceiveAndSendBUCPLoginRequest, hsn, hph, hget, hsw, newStubUser, hrand]
        | ok uid =>
        cases hh1 : s.HashPassword ⟨sn, uid, []⟩ "welcome1" with
        | error err =>
          left
          simp [ReceiveAndSendBUCPLoginRequest, hsn, hph, hget, hsw, newStubUser, hrand, hh1]
        | ok u1 =>
        cases hh2 : s.HashPassword u1 "welcome1" with
        | error err =>
          left
          simp [ReceiveAndSendBUCPLoginRequest, hsn, hph, hget, hsw, newStubUser, hrand, hh1,
            hh2]
        | ok nu =>
          right
          refine ⟨rfl, sn, h, u?, uid, u1, nu, rfl, rfl, hget, hok, rfl, hh1, hh2, ?_⟩
          rcases hup : s.um.UpsertUser w.um nu with ⟨um1, _ | err⟩ <;>
            simp [ReceiveAndSendBUCPLoginRequest, hsn, hph, hget, hsw, newStubUser, hrand, hh1,
              hh2, hup]
  refine ⟨key, fun hauth => ?_⟩
  rcases key with h | ⟨h, -⟩
  · exact h
  · rw [hauth] at h
    exact absurd h (by decide)

/-- C3, amended, at a concrete input: with disable-auth off a wrong hash for
Alice leaves the store as it was. -/
theorem C3_store_writes_witness :
    (ReceiveAndSendBUCPLoginRequest (memService false false)
        { um := [⟨"Alice", "s", [1, 2]⟩], sm := [] }
        [⟨TLVScreenName, .str "Alice"⟩, ⟨TLVPasswordHash, .bytes [9]⟩] "id-1").2.um
      = [⟨"Alice", "s", [1, 2]⟩] :=
  (C3_store_writes (memService false false)
      { um := [⟨"Alice", "s", [1, 2]⟩], sm := [] }
      [⟨TLVScreenName, .str "Alice"⟩, ⟨TLVPasswordHash, .bytes [9]⟩] "id-1").2 rfl

/-- C4 at the failing input: when the departure broadcast reports an error,
`Signout` returns that error and the session is still in the session manager;
when the broadcast succeeds the session is gone. -/
theorem C4_signout_broadcast_error :
    (Signout (memService false true)
        { um := [], sm := [("id-1", ⟨"id-1", "Alice"⟩)] } ⟨"id-1", "Alice"⟩).1
      = some "feedbag unavailable"
    ∧ oscarSessionManager.Retrieve
        (Signout (memService false true)
          { um := [], sm := [("id-1", ⟨"id-1", "Alice"⟩)] } ⟨"id-1", "Alice"⟩).2.sm "id-1"
      = some ⟨"id-1", "Alice"⟩
    ∧ oscarSessionManager.Retrieve
        (Signout (memService false false)
          { um := [], sm := [("id-1", ⟨"id-1", "Alice"⟩)] } ⟨"id-1", "Alice"⟩).2.sm "id-1"
      = none := by
  decide

/-! ## The WebAPI presence bridge -/

/-- No push reaches a position that is not in the list of selected sessions. -/
theorem pushes_absent {α : Type} (P : Nat × α → Bool) (g : Nat × α → QueuePush)
    (hg : ∀ p, (g p).session = p.1) (L : List (Nat × α)) (i : Nat)
    (hi : i ∉ L.map Prod.fst) :
    ((L.filter P).map g).filter (fun q => q.session == i) = [] := by
  rw [List.filter_eq_nil_iff]
  intro q hq hqi
  obtain ⟨p, hp, rfl⟩ := List.mem_map.mp hq
  have hpL : p ∈ L := (List.mem_filter.mp hp).1
  have hpi : p.1 = i := by
    have := hg p
    simp only [beq_iff_eq] at hqi
    omega
  exact hi (List.mem_map.mpr ⟨p, hpL, hpi⟩)

/-- In a list of positioned sessions with pairwise distinct positions, the
pushes that reach the position of a member are decided by that member alone. -/
theorem pushes_at {α : Type} (P : Nat × α → Bool) (g : Nat × α → QueuePush)
    (hg : ∀ p, (g p).session = p.1) :
    ∀ (L : List (Nat × α)) (x : Nat × α), (L.map Prod.fst).Nodup → x ∈ L →
      ((L.filter P).map g).filter (fun q => q.session == x.1) = if P x then [g x] else []
  | [], _, _, hx => by simp at hx
  | y :: L, x, hnd, hx => by
    rw [List.map_cons, List.nodup_cons] at hnd
    obtain ⟨hy, hL⟩ := hnd
    rcases List.mem_cons.mp hx with rfl | hxL
    · have hrest := pushes_absent P g hg L x.1 hy
      by_cases hP : P x = true
      · simp [List.filter_cons, hP, hg, hrest]
      · simp [List.filter_cons, hP, hrest]
    · have hne : ¬ (y.1 = x.1) := by
        intro e
        exact hy (List.mem_map.mpr ⟨x, hxL, e.symm⟩)
      have ih := pushes_at P g hg L x hL hxL
      by_cases hP : P y = true
      · simp [List.filter_cons, hP, hg, hne, ih]
      · simp [List.filter_cons, hP, ih]

/-- The pushes that `BroadcastBuddyArrived` makes on the session at position
`i` are decided by that session alone. -/
theorem BroadcastBuddyArrived_at {Q : Type} (b : WebAPIPresenceBridge)
    (m : List (WebAPISession Q)) (now : Nat) (U : IdentScreenName) (i : Nat)
    (v : WebAPISession Q) (hv : m[i]? = some v) :
    (BroadcastBuddyArrived b m now U).filter (fun q => q.session == i) =
      if (!(v.IsExpired now)
          && (if v.ScreenName == "" then false
              else hasBuddy b (NewIdentScreenName v.ScreenName) U)
          && (v.EventQueue.isSome && v.IsSubscribedTo "presence")) then
        [{ session := i, eventType := EventTypePresence,
           event := b.GetPresenceForBuddy U.screenName }]
      else [] := by
  have hmem : (i, v) ∈ m.enum := List.mk_mem_enum_iff_getElem?.mpr hv
  simp only [BroadcastBuddyArrived, findSessionsWithBuddy, GetAllSessions, List.filter_filter]
  rw [pushes_at _ _ (fun _ => rfl) m.enum (i, v) (List.nodup_enum_map_fst m) hmem]
  simp only [Bool.and_comm, Bool.and_assoc, Bool.and_left_comm]

/-- C5: for an arriving user `U` and a session `v` of the session manager that
is not expired, not anonymous, subscribed to "presence" and has an event queue,
when the relationship lookup and the feedbag lookup for the session's user both
succeed, `BroadcastBuddyArrived` pushes exactly one presence event on that
session's queue if the feedbag holds a buddy-class item whose ident-form name is
`U` and neither user blocks the other, and pushes nothing on it otherwise. -/
theorem C5_presence_push {Q : Type} (b : WebAPIPresenceBridge)
    (m : List (WebAPISession Q)) (now : Nat) (U : IdentScreenName) (i : Nat)
    (v : WebAPISession Q)
    (f : IdentScreenName → IdentScreenName → Except Err Relationship)
    (rel : Relationship) (items : List FeedbagItem)
    (hv : m[i]? = some v)
    (hexp : v.IsExpired now = false)
    (hanon : v.ScreenName ≠ "")
    (hsub : v.IsSubscribedTo "presence" = true)
    (hq : v.EventQueue.isSome = true)
    (hf : b.relationshipFetcher = some f)
    (hrel : f (NewIdentScreenName v.ScreenName) U = .ok rel)
    (hfb : b.RetrieveFeedbag (NewIdentScreenName v.ScreenName) = .ok items) :
    (((∃ item ∈ items, item.ClassID = FeedbagClassIdBuddy ∧ NewIdentScreenName item.Name = U)
        ∧ rel.YouBlock = false ∧ rel.BlocksYou = false) →
      (BroadcastBuddyArrived b m now U).filter (fun q => q.session == i) =
        [{ session := i, eventType := EventTypePresence,
           event := b.GetPresenceForBuddy U.screenName }])
    ∧ (¬((∃ item ∈ items, item.ClassID = FeedbagClassIdBuddy
            ∧ NewIdentScreenName item.Name = U)
          ∧ rel.YouBlock = false ∧ rel.BlocksYou = false) →
      (BroadcastBuddyArrived b m now U).filter (fun q => q.session == i) = []) := by
  have hb : hasBuddy b (NewIdentScreenName v.ScreenName) U = true ↔
      ((∃ item ∈ items, item.ClassID = FeedbagClassIdBuddy ∧ NewIdentScreenName item.Name = U)
        ∧ rel.YouBlock = false ∧ rel.BlocksYou = false) := by
    unfold hasBuddy
    simp only [hf, hrel, hfb]
    cases hy : rel.YouBlock <;> cases hz : rel.BlocksYou <;>
      simp [List.any_eq_true]
  rw [BroadcastBuddyArrived_at b m now U i v hv]
  have hname : (v.ScreenName == "") = false := by simpa using hanon
  simp only [hexp, hname, hsub, hq, Bool.not_false, Bool.true_and, Bool.and_true,
    Bool.false_eq_true, if_false]
  constructor
  · intro hc
    rw [if_pos (hb.mpr hc)]
  · intro hc
    rw [if_neg (fun h => hc (hb.mp h))]

/-- C5 at a concrete input: Bob's session lists Alice as a buddy and nobody
blocks anybody, so Alice's arrival pushes one event on it. -/
theorem C5_presence_push_witness :
    (BroadcastBuddyArrived
        { relationshipFetcher := some (fun _ _ => .ok ⟨false, false⟩),
          RetrieveFeedbag := fun _ => .ok [⟨1, 2, 0, "Alice", ⟨[]⟩⟩],
          GetPresenceForBuddy := fun sn => ⟨sn, "online", "", "", 0, 0, "aim"⟩ }
        [({ AimSID := "sid-1", ScreenName := "Bob", Events := ["presence"],
            EventQueue := some (), ExpiresAt := 100 } : WebAPISession Unit)]
        50 ⟨"alice"⟩).filter (fun q => q.session == 0)
      = [{ session := 0, eventType := EventTypePresence,
           event := ⟨"alice", "online", "", "", 0, 0, "aim"⟩ }] :=
  (C5_presence_push
      { relationshipFetcher := some (fun _ _ => .ok ⟨false, false⟩),
        RetrieveFeedbag := fun _ => .ok [⟨1, 2, 0, "Alice", ⟨[]⟩⟩],
        GetPresenceForBuddy := fun sn => ⟨sn, "online", "", "", 0, 0, "aim"⟩ }
      [({ AimSID := "sid-1", ScreenName := "Bob", Events := ["presence"],
          EventQueue := some (), ExpiresAt := 100 } : WebAPISession Unit)]
      50 ⟨"alice"⟩ 0
      { AimSID := "sid-1", ScreenName := "Bob", Events := ["presence"],
        EventQueue := some (), ExpiresAt := 100 }
      (fun _ _ => .ok ⟨false, false⟩) ⟨false, false⟩ [⟨1, 2, 0, "Alice", ⟨[]⟩⟩]
      rfl (by decide) (by decide) (by decide) rfl rfl rfl rfl).1
    ⟨⟨⟨1, 2, 0, "Alice", ⟨[]⟩⟩, by simp, rfl, by decide⟩, rfl, rfl⟩

/-! ## The feedbag table -/

/-- With every block marshalling, `FeedbagUpsert` runs its statement once per
item, in order, and reports no error. -/
theorem FeedbagUpsert_eq_foldl (wire : Wire) (now : Nat) (owner : String) :
    ∀ (items : List FeedbagItem) (tbl : List FeedbagRow),
      (∀ i ∈ items, ∃ buf, wire.Marshal i.TLVLBlock = .ok buf) →
      FeedbagUpsert wire now tbl owner items =
        (items.foldl (fun t i => execFeedbagUpsert t (upsertRowOf wire now owner i)) tbl, none)
  | [], _, _ => rfl
  | x :: items, tbl, hm => by
    obtain ⟨buf, hbuf⟩ := hm x (List.mem_cons_self _ _)
    have ih := FeedbagUpsert_eq_foldl wire now owner items
      (execFeedbagUpsert tbl (upsertRowOf wire now owner x))
      (fun i hi => hm i (List.mem_cons_of_mem _ hi))
    simp only [FeedbagUpsert, hbuf, List.foldl_cons]
    rw [← ih]
    simp [upsertRowOf, marshalBytes, hbuf]

/-- With every stored block unmarshalling, the scan of `Feedbag` appends one item
per row, in order, and reports no error. -/
theorem feedbagScan_eq_map (wire : Wire) :
    ∀ (rows : List FeedbagRow) (acc : List FeedbagItem),
      (∀ r ∈ rows, ∃ block, wire.Unmarshal r.attributes = .ok block) →
      feedbagScan wire rows acc = (acc ++ rows.map (rowItem wire), none)
  | [], acc, _ => by simp [feedbagScan]
  | r :: rows, acc, hu => by
    obtain ⟨block, hb⟩ := hu r (List.mem_cons_self _ _)
    have ih := feedbagScan_eq_map wire rows
      (acc ++ [{ GroupID := r.groupID, ItemID := r.itemID, ClassID := r.classID,
                 Name := r.name, TLVLBlock := block }])
      (fun x hx => hu x (List.mem_cons_of_mem _ hx))
    simp only [feedbagScan, hb]
    rw [ih]
    simp [rowItem, hb]

/-- The row an upsert writes over a conflicting row is the new row itself. -/
theorem conflict_update_eq (r x : FeedbagRow) (h : r.conflicts x = true) :
    ({ x with classID := r.classID, name := r.name, attributes := r.attributes,
              lastModified := r.lastModified } : FeedbagRow) = r := by
  cases r
  cases x
  simp only [FeedbagRow.conflicts, Bool.and_eq_true, beq_iff_eq] at h
  obtain ⟨⟨h1, h2⟩, h3⟩ := h
  simp_all

/-- Every row of the table after an upsert is the new row or an old row that
does not conflict with it. -/
theorem mem_execFeedbagUpsert (tbl : List FeedbagRow) (r row : FeedbagRow)
    (h : row ∈ execFeedbagUpsert tbl r) :
    row = r ∨ (r.conflicts row = false ∧ row ∈ tbl) := by
  unfold execFeedbagUpsert at h
  split at h
  · obtain ⟨x, hx, rfl⟩ := List.mem_map.mp h
    by_cases hc : r.conflicts x = true
    · left
      rw [if_pos hc]
      exact conflict_update_eq r x hc
    · right
      rw [if_neg hc]
      exact ⟨by simpa using hc, hx⟩
  · rename_i hany
    rcases List.mem_append.mp h with h | h
    · right
      refine ⟨?_, h⟩
      by_contra hc
      exact hany (List.any_eq_true.mpr ⟨row, h, by simpa using hc⟩)
    · left
      simpa using h

/-- The new row is in the table after an upsert. -/
theorem self_mem_execFeedbagUpsert (tbl : List FeedbagRow) (r : FeedbagRow) :
    r ∈ execFeedbagUpsert tbl r := by
  unfold execFeedbagUpsert
  split
  · rename_i hany
    obtain ⟨x, hx, hc⟩ := List.any_eq_true.mp hany
    refine List.mem_map.mpr ⟨x, hx, ?_⟩
    rw [if_pos hc]
    exact conflict_update_eq r x hc
  · simp

/-- A row that does not conflict with the new row stays in the table. -/
theorem mem_execFeedbagUpsert_of_mem (tbl : List FeedbagRow) (r row : FeedbagRow)
    (h : row ∈ tbl) (hc : r.conflicts row = false) : row ∈ execFeedbagUpsert tbl r := by
  unfold execFeedbagUpsert
  split
  · refine List.mem_map.mpr ⟨row, h, ?_⟩
    simp [hc]
  · exact List.mem_append_left _ h

/-- Among rows of one owner, conflicting with a row is having its key. -/
theorem conflicts_iff_key (r x : FeedbagRow) (h : x.screenName = r.screenName) :
    r.conflicts x = true ↔ x.key = r.key := by
  simp [FeedbagRow.conflicts, FeedbagRow.key, h, Prod.ext_iff]

/-- An upsert for an owner commutes with selecting the rows of that owner. -/
theorem execFeedbagUpsert_filter (tbl : List FeedbagRow) (r : FeedbagRow) :
    (execFeedbagUpsert tbl r).filter (fun x => x.screenName == r.screenName) =
      execFeedbagUpsert (tbl.filter (fun x => x.screenName == r.screenName)) r := by
  have hany : (tbl.filter (fun x => x.screenName == r.screenName)).any (fun x => r.conflicts x)
      = tbl.any (fun x => r.conflicts x) := by
    rw [Bool.eq_iff_iff]
    simp only [List.any_eq_true, List.mem_filter, beq_iff_eq]
    constructor
    · rintro ⟨x, ⟨hx, -⟩, hc⟩
      exact ⟨x, hx, hc⟩
    · rintro ⟨x, hx, hc⟩
      refine ⟨x, ⟨hx, ?_⟩, hc⟩
      simp only [FeedbagRow.conflicts, Bool.and_eq_true, beq_iff_eq] at hc
      exact hc.1.1
  unfold execFeedbagUpsert
  rw [hany]
  split
  · rw [List.filter_map]
    congr 1
    apply List.filter_congr
    intro x _
    by_cases hc : r.conflicts x = true <;> simp [hc]
  · simp [List.filter_append]

/-- Running the upserts of one owner commutes with selecting that owner's rows. -/
theorem foldl_execFeedbagUpsert_filter (wire : Wire) (now : Nat) (owner : String) :
    ∀ (items : List FeedbagItem) (tbl : List FeedbagRow),
      (items.foldl (fun t i => execFeedbagUpsert t (upsertRowOf wire now owner i)) tbl).filter
          (fun x => x.screenName == owner) =
        items.foldl (fun t i => execFeedbagUpsert t (upsertRowOf wire now owner i))
          (tbl.filter (fun x => x.screenName == owner))
  | [], _ => rfl
  | x :: items, tbl => by
    simp only [List.foldl_cons]
    rw [foldl_execFeedbagUpsert_filter wire now owner items]
    congr 1
    exact execFeedbagUpsert_filter tbl (upsertRowOf wire now owner x)

/-- An upsert keeps the keys of an owner's rows pairwise distinct. -/
theorem execFeedbagUpsert_nodup (tbl : List FeedbagRow) (r : FeedbagRow)
    (hown : ∀ x ∈ tbl, x.screenName = r.screenName)
    (hnd : (tbl.map FeedbagRow.key).Nodup) :
    ((execFeedbagUpsert tbl r).map FeedbagRow.key).Nodup := by
  unfold execFeedbagUpsert
  split
  · have hkeys : (tbl.map (fun x =>
        if r.conflicts x then
          ({ x with classID := r.classID, name := r.name, attributes := r.attributes,
                    lastModified := r.lastModified } : FeedbagRow)
        else x)).map FeedbagRow.key = tbl.map FeedbagRow.key := by
      rw [List.map_map]
      apply List.map_congr_left
      intro x _
      by_cases hc : r.conflicts x = true <;> simp [hc, FeedbagRow.key]
    rw [hkeys]
    exact hnd
  · rename_i hany
    rw [List.map_append, List.map_singleton]
    refine List.Nodup.append hnd (List.nodup_singleton _) ?_
    rw [List.disjoint_singleton]
    intro hk
    obtain ⟨x, hx, hkx⟩ := List.mem_map.mp hk
    exact hany (List.any_eq_true.mpr ⟨x, hx, (conflicts_iff_key r x (hown x hx)).mpr hkx⟩)

/-- The last item with a key, after one more item. -/
theorem lastWithKey_append (items : List FeedbagItem) (x : FeedbagItem) (k : Nat × Nat) :
    lastWithKey (items ++ [x]) k = if x.key = k then some x else lastWithKey items k := by
  by_cases h : x.key = k <;> simp [lastWithKey, List.find?_cons, h]

/-- The table that the upserts of `items` build from an empty feedbag: the rows
are the owner's, their keys are pairwise distinct, each row is the row of the
last item with its key, and every item's key has a row. -/
theorem foldl_execFeedbagUpsert_inv (wire : Wire) (now : Nat) (owner : String)
    (items : List FeedbagItem) :
    (∀ row ∈ items.foldl (fun t i => execFeedbagUpsert t (upsertRowOf wire now owner i)) [],
        row.screenName = owner)
    ∧ ((items.foldl (fun t i => execFeedbagUpsert t (upsertRowOf wire now owner i)) []).map
        FeedbagRow.key).Nodup
    ∧ (∀ row ∈ items.foldl (fun t i => execFeedbagUpsert t (upsertRowOf wire now owner i)) [],
        ∃ i, lastWithKey items row.key = some i ∧ row = upsertRowOf wire now owner i)
    ∧ (∀ i ∈ items,
        ∃ row ∈ items.foldl (fun t i => execFeedbagUpsert t (upsertRowOf wire now owner i)) [],
          row.key = i.key) := by
  induction items using List.reverseRecOn with
  | nil => simp
  | append_singleton items x ih =>
    obtain ⟨hown, hnd, hlast, hall⟩ := ih
    rw [List.foldl_append, List.foldl_cons, List.foldl_nil]
    have hrow : (upsertRowOf wire now owner x).screenName = owner := rfl
    have hkey : (upsertRowOf wire now owner x).key = x.key := rfl
    refine ⟨?_, ?_, ?_, ?_⟩
    · intro row hrow1
      rcases mem_execFeedbagUpsert _ _ _ hrow1 with rfl | ⟨-, hmem⟩
      · rfl
      · exact hown row hmem
    · exact execFeedbagUpsert_nodup _ _ (fun y hy => (hown y hy).trans hrow.symm) hnd
    · intro row hrow1
      rcases mem_execFeedbagUpsert _ _ _ hrow1 with rfl | ⟨hc, hmem⟩
      · exact ⟨x, by simp [lastWithKey_append, hkey], rfl⟩
      · obtain ⟨i, hi, hri⟩ := hlast row hmem
        refine ⟨i, ?_, hri⟩
        have hne : ¬ (x.key = row.key) := by
          intro e
          have := (conflicts_iff_key (upsertRowOf wire now owner x) row
            ((hown row hmem).trans hrow.symm)).mpr (by rw [hkey]; exact e.symm)
          rw [hc] at this
          exact Bool.false_ne_true this
        rw [lastWithKey_append, if_neg hne]
        exact hi
    · intro i hi
      by_cases hk : i.key = x.key
      · exact ⟨upsertRowOf wire now owner x, self_mem_execFeedbagUpsert _ _, by rw [hkey, hk]⟩
      · rcases List.mem_append.mp hi with hi1 | hi1
        · obtain ⟨row, hmem, hrk⟩ := hall i hi1
          refine ⟨row, mem_execFeedbagUpsert_of_mem _ _ row hmem ?_, hrk⟩
          by_contra hc
          have hc1 : (upsertRowOf wire now owner x).conflicts row = true := by simpa using hc
          have := (conflicts_iff_key (upsertRowOf wire now owner x) row
            ((hown row hmem).trans hrow.symm)).mp hc1
          exact hk (by rw [← hrk, this, hkey])
        · have : i = x := by simpa using hi1
          exact absurd (by rw [this]) hk

/-- C7: for an owner without rows in the table and items whose attribute
blocks survive `wire.Marshal` followed by `wire.Unmarshal`, `FeedbagUpsert`
succeeds and `Feedbag` then returns, without error, a list with exactly one
entry per `(groupID, itemID)` key occurring in the items, each entry being the
last item of the list with its key. -/
theorem C7_upsert_then_feedbag (wire : Wire) (now : Nat) (tbl : List FeedbagRow)
    (owner : String) (items : List FeedbagItem)
    (hempty : ∀ r ∈ tbl, r.screenName ≠ owner)
    (hrt : ∀ i ∈ items, ∃ buf, wire.Marshal i.TLVLBlock = .ok buf
      ∧ wire.Unmarshal buf = .ok i.TLVLBlock) :
    ∃ out, (FeedbagUpsert wire now tbl owner items).2 = none
      ∧ Feedbag wire (FeedbagUpsert wire now tbl owner items).1 owner = (out, none)
      ∧ (out.map FeedbagItem.key).Nodup
      ∧ (∀ e ∈ out, lastWithKey items e.key = some e)
      ∧ (∀ i ∈ items, ∃ e ∈ out, e.key = i.key) := by
  have hup := FeedbagUpsert_eq_foldl wire now owner items tbl
    (fun i hi => (hrt i hi).imp (fun _ h => h.1))
  have hfil : tbl.filter (fun x => x.screenName == owner) = [] := by
    rw [List.filter_eq_nil_iff]
    intro r hr
    simpa using hempty r hr
  obtain ⟨-, hnd, hlast, hall⟩ := foldl_execFeedbagUpsert_inv wire now owner items
  have hitem : ∀ i ∈ items, rowItem wire (upsertRowOf wire now owner i) = i := by
    intro i hi
    obtain ⟨buf, hm, hu⟩ := hrt i hi
    cases i
    simp_all [rowItem, upsertRowOf, marshalBytes]
  have hrows : ∀ row ∈ items.foldl
      (fun t i => execFeedbagUpsert t (upsertRowOf wire now owner i)) [],
      ∃ i ∈ items, lastWithKey items row.key = some i ∧ row = upsertRowOf wire now owner i := by
    intro row hrow
    obtain ⟨i, hi, hri⟩ := hlast row hrow
    exact ⟨i, List.mem_reverse.mp (List.mem_of_find?_eq_some hi), hi, hri⟩
  have hscan := feedbagScan_eq_map wire
    (items.foldl (fun t i => execFeedbagUpsert t (upsertRowOf wire now owner i)) []) []
    (by
      intro row hrow
      obtain ⟨i, hi, -, rfl⟩ := hrows row hrow
      obtain ⟨buf, hm, hu⟩ := hrt i hi
      exact ⟨i.TLVLBlock, by simp [upsertRowOf, marshalBytes, hm, hu]⟩)
  refine ⟨(items.foldl (fun t i => execFeedbagUpsert t (upsertRowOf wire now owner i)) []).map
      (rowItem wire), ?_, ?_, ?_, ?_, ?_⟩
  · rw [hup]
  · rw [hup]
    simp only [Feedbag]
    rw [foldl_execFeedbagUpsert_filter, hfil, hscan, List.nil_append]
  · rw [List.map_map]
    exact hnd
  · intro e he
    obtain ⟨row, hrow, rfl⟩ := List.mem_map.mp he
    obtain ⟨i, hi, hl, rfl⟩ := hrows row hrow
    rw [hitem i hi]
    exact hl
  · intro i hi
    obtain ⟨row, hrow, hk⟩ := hall i hi
    exact ⟨rowItem wire row, List.mem_map.mpr ⟨row, hrow, rfl⟩, hk⟩

/-- C7 at a concrete input: two items share the key `(10, 7)`. -/
theorem C7_upsert_then_feedbag_witness :
    ∃ out, (FeedbagUpsert tagWire 5 [⟨"other", 10, 7, 0, "x", [], 1⟩] "sn2day"
          [⟨10, 7, 0, "buddy1", ⟨[]⟩⟩, ⟨0, 1805, 3, "spimmer1234", ⟨[⟨1, .u16 0⟩]⟩⟩,
           ⟨10, 7, 0, "buddy2", ⟨[]⟩⟩]).2 = none
      ∧ Feedbag tagWire (FeedbagUpsert tagWire 5 [⟨"other", 10, 7, 0, "x", [], 1⟩] "sn2day"
          [⟨10, 7, 0, "buddy1", ⟨[]⟩⟩, ⟨0, 1805, 3, "spimmer1234", ⟨[⟨1, .u16 0⟩]⟩⟩,
           ⟨10, 7, 0, "buddy2", ⟨[]⟩⟩]).1 "sn2day" = (out, none)
      ∧ (out.map FeedbagItem.key).Nodup
      ∧ (∀ e ∈ out, lastWithKey
          [⟨10, 7, 0, "buddy1", ⟨[]⟩⟩, ⟨0, 1805, 3, "spimmer1234", ⟨[⟨1, .u16 0⟩]⟩⟩,
           ⟨10, 7, 0, "buddy2", ⟨[]⟩⟩] e.key = some e)
      ∧ (∀ i ∈ ([⟨10, 7, 0, "buddy1", ⟨[]⟩⟩, ⟨0, 1805, 3, "spimmer1234", ⟨[⟨1, .u16 0⟩]⟩⟩,
           ⟨10, 7, 0, "buddy2", ⟨[]⟩⟩] : List FeedbagItem), ∃ e ∈ out, e.key = i.key) :=
  C7_upsert_then_feedbag tagWire 5 [⟨"other", 10, 7, 0, "x", [], 1⟩] "sn2day"
    [⟨10, 7, 0, "buddy1", ⟨[]⟩⟩, ⟨0, 1805, 3, "spimmer1234", ⟨[⟨1, .u16 0⟩]⟩⟩,
     ⟨10, 7, 0, "buddy2", ⟨[]⟩⟩]
    (by decide)
    (by
      intro i hi
      simp only [List.mem_cons, List.mem_singleton, List.not_mem_nil, or_false] at hi
      rcases hi with rfl | rfl | rfl <;> exact ⟨_, rfl, rfl⟩)

/-- C6 at the failing input: deleting the group item `(10, 0)` "Friends" also
removes the group item `(11, 0)` "co-workers", which shares only the item id;
the buddy `(10, 5)` stays. -/
theorem C6_delete_by_item_id :
    FeedbagDelete
        [⟨"sn2day", 10, 0, 1, "Friends", [], 1⟩, ⟨"sn2day", 11, 0, 1, "co-workers", [], 1⟩,
         ⟨"sn2day", 10, 5, 0, "buddy", [], 1⟩]
        "sn2day" [⟨10, 0, 1, "Friends", ⟨[]⟩⟩]
      = [⟨"sn2day", 10, 5, 0, "buddy", [], 1⟩] := by
  decide

/-- C8: `V` occurs in `AdjacentUsers(U)` if and only if `V` has a buddy item
named `U`, `U` has no deny item named `V`, and `V` has no deny item named `U`. -/
theorem C8_adjacent_users (tbl : List FeedbagRow) (U V : String) :
    V ∈ AdjacentUsers tbl U ↔
      (∃ r ∈ tbl, r.isEntry V 0 U)
      ∧ ¬(∃ r ∈ tbl, r.isEntry U 3 V)
      ∧ ¬(∃ r ∈ tbl, r.isEntry V 3 U) := by
  simp only [AdjacentUsers, List.mem_map, List.mem_filter, Bool.and_eq_true, beq_iff_eq,
    Bool.not_eq_true', List.any_eq_false, FeedbagRow.isEntry, not_exists, not_and]
  constructor
  · rintro ⟨f, ⟨hf, ⟨⟨hname, hclass⟩, hb1⟩, hb2⟩, rfl⟩
    refine ⟨⟨f, hf, rfl, hclass, hname⟩, ?_, ?_⟩
    · intro r hr h1 h3 h2
      exact hb1 r hr ⟨h1, h2⟩ h3
    · intro r hr h1 h3 h2
      exact hb2 r hr ⟨h1, by rw [h2, hname]⟩ h3
  · rintro ⟨⟨f, hf, rfl, hclass, hname⟩, hb1, hb2⟩
    refine ⟨f, ⟨hf, ⟨⟨hname, hclass⟩, ?_⟩, ?_⟩, rfl⟩
    · rintro r hr ⟨h1, h2⟩ h3
      exact hb1 r hr h1 h3 h2
    · rintro r hr ⟨h1, h2⟩ h3
      exact hb2 r hr h1 h3 (by rw [h2, hname])

/-- C9, as stated, fails: userB lists userA as a buddy in two groups, and
`AdjacentUsers("userA")` names userB twice. -/
theorem C9_counterexample :
    AdjacentUsers
        [⟨"userB", 28330, 8120, 0, "userA", [], 1⟩, ⟨"userB", 28331, 8121, 0, "userA", [], 1⟩]
        "userA" = ["userB", "userB"]
    ∧ ¬ (AdjacentUsers
        [⟨"userB", 28330, 8120, 0, "userA", [], 1⟩, ⟨"userB", 28331, 8121, 0, "userA", [], 1⟩]
        "userA").Nodup := by
  decide

/-- C9, amended: `AdjacentUsers(U)` names `V` once for each buddy item named `U`
in the feedbag of `V` when neither has a deny item for the other, and not at
all otherwise; so every name occurs at most once when no user has more than one
buddy item named `U`. -/
theorem C9_adjacent_users_count (tbl : List FeedbagRow) (U : String) :
    (∀ V, (AdjacentUsers tbl U).count V =
      if (tbl.any (fun r => r.screenName == U && r.name == V && r.classID == 3)
          || tbl.any (fun r => r.screenName == V && r.name == U && r.classID == 3)) then 0
      else tbl.countP (fun r => r.screenName == V && r.classID == 0 && r.name == U))
    ∧ ((∀ V, tbl.countP (fun r => r.screenName == V && r.classID == 0 && r.name == U) ≤ 1) →
        (AdjacentUsers tbl U).Nodup) := by
  have hcount : ∀ V, (AdjacentUsers tbl U).count V =
      if (tbl.any (fun r => r.screenName == U && r.name == V && r.classID == 3)
          || tbl.any (fun r => r.screenName == V && r.name == U && r.classID == 3)) then 0
      else tbl.countP (fun r => r.screenName == V && r.classID == 0 && r.name == U) := by
    intro V
    rw [AdjacentUsers, List.count_eq_countP, List.countP_map, List.countP_filter]
    split
    · rename_i hb
      rw [List.countP_eq_zero]
      intro f _ hf
      simp only [Function.comp_apply, Bool.and_eq_true, beq_iff_eq, Bool.not_eq_true'] at hf
      obtain ⟨hV, ⟨⟨hname, -⟩, hb1⟩, hb2⟩ := hf
      rw [hV] at hb1 hb2
      rw [hname] at hb2
      rw [hb1, hb2] at hb
      exact Bool.false_ne_true hb
    · rename_i hb
      simp only [Bool.or_eq_true, not_or, Bool.not_eq_true] at hb
      apply List.countP_congr
      intro f _
      simp only [Function.comp_apply, Bool.and_eq_true, beq_iff_eq, Bool.not_eq_true']
      constructor
      · rintro ⟨hV, ⟨⟨hname, hclass⟩, -⟩, -⟩
        exact ⟨⟨hV, hclass⟩, hname⟩
      · rintro ⟨⟨hV, hclass⟩, hname⟩
        refine ⟨hV, ⟨⟨hname, hclass⟩, ?_⟩, ?_⟩
        · rw [hV]; exact hb.1
        · rw [hV, hname]; exact hb.2
  refine ⟨hcount, fun hone => ?_⟩
  rw [List.nodup_iff_count_le_one]
  intro V
  rw [hcount V]
  split
  · exact Nat.zero_le _
  · exact hone V

/-- C9, amended, at a concrete input: one buddy item per user, no repetition. -/
theorem C9_adjacent_users_count_witness :
    (AdjacentUsers
        [⟨"userB", 28330, 8120, 0, "userA", [], 1⟩, ⟨"userC", 5, 6, 0, "userA", [], 1⟩]
        "userA").Nodup :=
  (C9_adjacent_users_count
      [⟨"userB", 28330, 8120, 0, "userA", [], 1⟩, ⟨"userC", 5, 6, 0, "userA", [], 1⟩]
      "userA").2
    (by
      intro V
      by_cases hB : "userB" = V <;> by_cases hC : "userC" = V <;>
        simp [List.countP_cons, hB, hC]
      exact absurd (hB.trans hC.symm) (by decide))

/-- C10: `BlockedState(A, B)` is `BlockedA` when `A` has a deny item named `B`,
`BlockedB` when it has none but `B` has a deny item named `A`, and `BlockedNo`
when neither has one; dropping every buddy (class 0) item from the table leaves
the result as it was. -/
theorem C10_blocked_state (tbl : List FeedbagRow) (A B : String) :
    ((∃ r ∈ tbl, r.isEntry A 3 B) → BlockedStateOf tbl A B = .BlockedA)
    ∧ (¬(∃ r ∈ tbl, r.isEntry A 3 B) → (∃ r ∈ tbl, r.isEntry B 3 A) →
        BlockedStateOf tbl A B = .BlockedB)
    ∧ (¬(∃ r ∈ tbl, r.isEntry A 3 B) → ¬(∃ r ∈ tbl, r.isEntry B 3 A) →
        BlockedStateOf tbl A B = .BlockedNo)
    ∧ BlockedStateOf (tbl.filter (fun r => !(r.classID == 0))) A B = BlockedStateOf tbl A B := by
  have hany : ∀ (T : List FeedbagRow) (X Y : String),
      T.any (fun f => f.classID == 3 && f.screenName == X && f.name == Y) = true
        ↔ ∃ r ∈ T, r.isEntry X 3 Y := by
    intro T X Y
    simp only [List.any_eq_true, Bool.and_eq_true, beq_iff_eq, FeedbagRow.isEntry]
    constructor
    · rintro ⟨r, hr, ⟨h1, h2⟩, h3⟩
      exact ⟨r, hr, h2, h1, h3⟩
    · rintro ⟨r, hr, h2, h1, h3⟩
      exact ⟨r, hr, ⟨h1, h2⟩, h3⟩
  have hfil : ∀ (X Y : String),
      (tbl.filter (fun r => !(r.classID == 0))).any
          (fun f => f.classID == 3 && f.screenName == X && f.name == Y)
        = tbl.any (fun f => f.classID == 3 && f.screenName == X && f.name == Y) := by
    intro X Y
    rw [Bool.eq_iff_iff]
    simp only [List.any_eq_true, List.mem_filter, Bool.and_eq_true, beq_iff_eq,
      Bool.not_eq_true', beq_eq_false_iff_ne]
    constructor
    · rintro ⟨r, ⟨hr, -⟩, h⟩
      exact ⟨r, hr, h⟩
    · rintro ⟨r, hr, ⟨h1, h2⟩, h3⟩
      exact ⟨r, ⟨hr, by omega⟩, ⟨h1, h2⟩, h3⟩
  refine ⟨?_, ?_, ?_, ?_⟩
  · intro h
    simp [BlockedStateOf, blockedStateQuery, (hany tbl A B).mpr h]
  · intro hn h
    have h1 : tbl.any (fun f => f.classID == 3 && f.screenName == A && f.name == B) = false := by
      rw [Bool.eq_false_iff]
      exact fun e => hn ((hany tbl A B).mp e)
    simp [BlockedStateOf, blockedStateQuery, h1, (hany tbl B A).mpr h]
  · intro hn hm
    have h1 : tbl.any (fun f => f.classID == 3 && f.screenName == A && f.name == B) = false := by
      rw [Bool.eq_false_iff]
      exact fun e => hn ((hany tbl A B).mp e)
    have h2 : tbl.any (fun f => f.classID == 3 && f.screenName == B && f.name == A) = false := by
      rw [Bool.eq_false_iff]
      exact fun e => hm ((hany tbl B A).mp e)
    simp [BlockedStateOf, blockedStateQuery, h1, h2]
  · simp only [BlockedStateOf, blockedStateQuery, hfil]

/-- C10 at a concrete input: the table of `TestFeedbagStoreBlockedA`. -/
theorem C10_blocked_state_witness :
    BlockedStateOf
        [⟨"userA", 0, 13852, 3, "userB", [], 1691286176⟩,
         ⟨"userA", 27631, 4016, 0, "userB", [], 1690508233⟩,
         ⟨"userB", 28330, 8120, 0, "userA", [], 1691180328⟩]
        "userA" "userB" = .BlockedA :=
  (C10_blocked_state
      [⟨"userA", 0, 13852, 3, "userB", [], 1691286176⟩,
       ⟨"userA", 27631, 4016, 0, "userB", [], 1690508233⟩,
       ⟨"userB", 28330, 8120, 0, "userA", [], 1691180328⟩]
      "userA" "userB").1
    ⟨⟨"userA", 0, 13852, 3, "userB", [], 1691286176⟩, by simp, rfl, rfl, rfl⟩

/-! ## The session store -/

/-- C11, as stated, fails: the stored session "Alice" and the query "alice" have
the same ident form, and `RetrieveByScreenName("alice")` finds nothing. -/
theorem C11_counterexample :
    NewIdentScreenName "Alice" = NewIdentScreenName "alice"
    ∧ SessionStore.RetrieveByScreenName [("id-1", ⟨"id-1", "Alice"⟩)] "alice" = none
    ∧ SessionStore.RetrieveByScreenNames [("id-1", ⟨"id-1", "Alice"⟩)] ["alice"] = [] := by
  decide

/-- C11, amended: when some stored session has exactly the queried screen name,
`RetrieveByScreenName` returns a session with that screen name; when no stored
session has exactly that screen name it returns nothing. -/
theorem C11_retrieve_exact (store : SessionStore) (q : String) :
    ((∃ e ∈ store, e.2.ScreenName = q) →
      ∃ sess, store.RetrieveByScreenName q = some sess ∧ sess.ScreenName = q)
    ∧ ((∀ e ∈ store, e.2.ScreenName ≠ q) → store.RetrieveByScreenName q = none) := by
  constructor
  · rintro ⟨e, he, hq⟩
    cases hf : store.find? (fun e => q == e.2.ScreenName) with
    | none =>
      rw [List.find?_eq_none] at hf
      exact absurd (by simpa using hq.symm) (hf e he)
    | some x =>
      refine ⟨x.2, by simp [SessionStore.RetrieveByScreenName, hf], ?_⟩
      have hx : q = x.2.ScreenName := by simpa using List.find?_some hf
      exact hx.symm
  · intro hn
    have hf : store.find? (fun e => q == e.2.ScreenName) = none := by
      rw [List.find?_eq_none]
      intro e he
      simpa using fun h => hn e he h.symm
    simp [SessionStore.RetrieveByScreenName, hf]

/-- C11, amended, at a concrete input: the query "Alice" finds the session. -/
theorem C11_retrieve_exact_witness :
    ∃ sess, SessionStore.RetrieveByScreenName
        [("id-0", ⟨"id-0", "Bob"⟩), ("id-1", ⟨"id-1", "Alice"⟩)] "Alice" = some sess
      ∧ sess.ScreenName = "Alice" :=
  (C11_retrieve_exact [("id-0", ⟨"id-0", "Bob"⟩), ("id-1", ⟨"id-1", "Alice"⟩)] "Alice").1
    ⟨("id-1", ⟨"id-1", "Alice"⟩), by simp, rfl⟩

/-! ## The chat cookie -/

/-- Reading back the two bytes of a length below `2^16`. -/
theorem readUint16_putUint16 (n : Nat) (hn : n ≤ 65535) (rest : List Nat) :
    readUint16 (putUint16 n ++ rest) = (.ok n, rest) := by
  have h : n % 65536 / 256 * 256 + n % 256 = n := by omega
  simp [putUint16, readUint16, h]

/-- A buffer read of `n` bytes from a buffer that has them returns them. -/
theorem bufferRead_append (data rest : List Nat) (h : data ≠ [] ∨ rest ≠ []) :
    bufferRead (data ++ rest) data.length = ((data, none), rest) := by
  have hne : (data ++ rest).isEmpty = false := by
    cases data <;> cases rest <;> simp_all
  simp [bufferRead, hne]

/-- C12: for a cookie whose fields are at most 65535 bytes long,
`ChatCookie.Read` on the bytes that `Write` produces reports no error and
leaves the receiver with the same `Cookie` and the same `SessID`. -/
theorem C12_cookie_roundtrip (c s : ChatCookie)
    (hc : c.Cookie.length ≤ 65535) (hs : c.SessID.length ≤ 65535) :
    s.Read c.Write = (c, none) := by
  have h1 : readUint16 c.Write
      = (.ok c.Cookie.length, c.Cookie ++ (putUint16 c.SessID.length ++ c.SessID)) := by
    rw [ChatCookie.Write, List.append_assoc, List.append_assoc]
    exact readUint16_putUint16 _ hc _
  have h2 : bufferRead (c.Cookie ++ (putUint16 c.SessID.length ++ c.SessID)) c.Cookie.length
      = ((c.Cookie, none), putUint16 c.SessID.length ++ c.SessID) :=
    bufferRead_append _ _ (Or.inr (by simp [putUint16]))
  have h3 : readUint16 (putUint16 c.SessID.length ++ c.SessID) = (.ok c.SessID.length, c.SessID) :=
    readUint16_putUint16 _ hs _
  have h4 : bufferRead c.SessID c.SessID.length = ((c.SessID, none), []) := by
    by_cases he : c.SessID = []
    · simp [bufferRead, he]
    · have := bufferRead_append c.SessID [] (Or.inl he)
      simpa using this
  simp only [ChatCookie.Read, h1, h2, h3, h4]

/-- C12 at a concrete input: a one-byte cookie and the session id "ab". -/
theorem C12_cookie_roundtrip_witness :
    ChatCookie.Read ⟨[], []⟩ (ChatCookie.Write ⟨[1], [97, 98]⟩) = (⟨[1], [97, 98]⟩, none) :=
  C12_cookie_roundtrip ⟨[1], [97, 98]⟩ ⟨[], []⟩ (by decide) (by decide)

/-- C13 at the failing input: the cookie `⟨[1], "ab"⟩` is written as seven
bytes; on the first six of them `Read` reports no error and leaves the session
id "a\x00", and on the first five it reports an error. -/
theorem C13_truncated_cookie_accepted :
    ChatCookie.Write ⟨[1], [97, 98]⟩ = [0, 1, 1, 0, 2, 97, 98]
    ∧ ChatCookie.Read ⟨[], []⟩ ((ChatCookie.Write ⟨[1], [97, 98]⟩).take 6)
        = (⟨[1], [97, 0]⟩, none)
    ∧ (ChatCookie.Read ⟨[], []⟩ ((ChatCookie.Write ⟨[1], [97, 98]⟩).take 5)).2 = some "EOF" := by
  decide

/-! ## The sign-on frame exchange -/

/-- C14, as stated, fails at the largest counter value: the exchange succeeds
and the `uint32` counter wraps to 0 instead of becoming `s + 1`. -/
theorem C14_counterexample :
    (SendAndReceiveSignonFrame bufferCodec
        { input := [42, 1, 0, 7, 0, 4, 0, 0, 0, 1], output := [], writesLeft := 2 }
        4294967295).frame = .ok ⟨1, []⟩
    ∧ (SendAndReceiveSignonFrame bufferCodec
        { input := [42, 1, 0, 7, 0, 4, 0, 0, 0, 1], output := [], writesLeft := 2 }
        4294967295).sequence = 0
    ∧ (SendAndReceiveSignonFrame bufferCodec
        { input := [42, 1, 0, 7, 0, 4, 0, 0, 0, 1], output := [], writesLeft := 2 }
        4294967295).sequence ≠ 4294967295 + 1 := by
  refine ⟨rfl, ?_, ?_⟩ <;> decide

/-- C14, amended: `SendAndReceiveSignonFrame` first marshals the FLAP header
with start marker 0x2A, frame type sign-on, sequence number `s mod 2^16` and
payload length 4, and then, when that write succeeds, the sign-on frame with
FLAP version 1; when the exchange succeeds both writes have succeeded and the
counter is `(s + 1) mod 2^32`, which is `s + 1` for every `s` below `2^32 - 1`;
when any write or read fails the counter is `s`. -/
theorem C14_signon_sequence {ρ : Type} (c : SignonCodec ρ) (rw : ρ) (s : Nat) :
    (∀ rw1 err, c.MarshalFlapFrame ⟨0x2A, FlapFrameSignon, s % 2 ^ 16, 4⟩ rw = (rw1, some err) →
        (SendAndReceiveSignonFrame c rw s).frame = .error err
        ∧ (SendAndReceiveSignonFrame c rw s).sequence = s)
    ∧ (∀ rw1 rw2 err, c.MarshalFlapFrame ⟨0x2A, FlapFrameSignon, s % 2 ^ 16, 4⟩ rw = (rw1, none) →
        c.MarshalFlapSignonFrame ⟨1, []⟩ rw1 = (rw2, some err) →
        (SendAndReceiveSignonFrame c rw s).frame = .error err
        ∧ (SendAndReceiveSignonFrame c rw s).sequence = s)
    ∧ (∀ f, (SendAndReceiveSignonFrame c rw s).frame = .ok f →
        (∃ rw1 rw2, c.MarshalFlapFrame ⟨0x2A, FlapFrameSignon, s % 2 ^ 16, 4⟩ rw = (rw1, none)
          ∧ c.MarshalFlapSignonFrame ⟨1, []⟩ rw1 = (rw2, none))
        ∧ (SendAndReceiveSignonFrame c rw s).sequence = (s + 1) % 2 ^ 32
        ∧ (s + 1 < 2 ^ 32 → (SendAndReceiveSignonFrame c rw s).sequence = s + 1))
    ∧ (∀ err, (SendAndReceiveSignonFrame c rw s).frame = .error err →
        (SendAndReceiveSignonFrame c rw s).sequence = s) := by
  have e16 : (2 : Nat) ^ 16 = 65536 := by norm_num
  have e32 : (2 : Nat) ^ 32 = 4294967296 := by norm_num
  rw [e16, e32]
  refine ⟨?_, ?_, ?_, ?_⟩
  · intro rw1 err h1
    simp [SendAndReceiveSignonFrame, h1]
  · intro rw1 rw2 err h1 h2
    simp [SendAndReceiveSignonFrame, h1, h2]
  · intro f hf
    rcases h1 : c.MarshalFlapFrame ⟨0x2A, FlapFrameSignon, s % 65536, 4⟩ rw with ⟨rw1, _ | e1⟩
    swap
    · simp [SendAndReceiveSignonFrame, h1] at hf
    rcases h2 : c.MarshalFlapSignonFrame ⟨1, []⟩ rw1 with ⟨rw2, _ | e2⟩
    swap
    · simp [SendAndReceiveSignonFrame, h1, h2] at hf
    rcases h3 : c.UnmarshalFlapFrame rw2 with ⟨rw3, e3 | fin⟩
    · simp [SendAndReceiveSignonFrame, h1, h2, h3] at hf
    rcases h4 : c.Read rw3 fin.PayloadLength with ⟨rw4, b, _ | e4⟩
    swap
    · simp [SendAndReceiveSignonFrame, h1, h2, h3, h4] at hf
    rcases h5 : c.UnmarshalFlapSignonFrame b with e5 | fs
    · simp [SendAndReceiveSignonFrame, h1, h2, h3, h4, h5] at hf
    have hseq : (SendAndReceiveSignonFrame c rw s).sequence = (s + 1) % 4294967296 := by
      simp [SendAndReceiveSignonFrame, h1, h2, h3, h4, h5]
    refine ⟨⟨rw1, rw2, rfl, h2⟩, hseq, fun hlt => ?_⟩
    rw [hseq]
    exact Nat.mod_eq_of_lt hlt
  · intro err hf
    rcases h1 : c.MarshalFlapFrame ⟨0x2A, FlapFrameSignon, s % 65536, 4⟩ rw with ⟨rw1, _ | e1⟩
    swap
    · simp [SendAndReceiveSignonFrame, h1]
    rcases h2 : c.MarshalFlapSignonFrame ⟨1, []⟩ rw1 with ⟨rw2, _ | e2⟩
    swap
    · simp [SendAndReceiveSignonFrame, h1, h2]
    rcases h3 : c.UnmarshalFlapFrame rw2 with ⟨rw3, e3 | fin⟩
    · simp [SendAndReceiveSignonFrame, h1, h2, h3]
    rcases h4 : c.Read rw3 fin.PayloadLength with ⟨rw4, b, _ | e4⟩
    swap
    · simp [SendAndReceiveSignonFrame, h1, h2, h3, h4]
    rcases h5 : c.UnmarshalFlapSignonFrame b with e5 | fs
    · simp [SendAndReceiveSignonFrame, h1, h2, h3, h4, h5]
    · simp [SendAndReceiveSignonFrame, h1, h2, h3, h4, h5] at hf

/-- C14, amended, at a concrete input: the counter 65636 over a connection that answers
with a sign-on frame; the ten bytes written carry the sequence number 100. -/
theorem C14_signon_sequence_witness :
    (SendAndReceiveSignonFrame bufferCodec
        { input := [42, 1, 0, 7, 0, 8, 0, 0, 0, 1, 0, 6, 0, 0], output := [], writesLeft := 2 }
        65636).sequence = 65637
    ∧ (SendAndReceiveSignonFrame bufferCodec
        { input := [42, 1, 0, 7, 0, 8, 0, 0, 0, 1, 0, 6, 0, 0], output := [], writesLeft := 2 }
        65636).rw.output = [42, 1, 0, 100, 0, 4, 0, 0, 0, 1] :=
  ⟨((C14_signon_sequence bufferCodec
        { input := [42, 1, 0, 7, 0, 8, 0, 0, 0, 1, 0, 6, 0, 0], output := [], writesLeft := 2 }
        65636).2.2.1 ⟨1, []⟩ rfl).2.2 (by decide),
   by decide⟩

/-! ## The ICBM and ChatNav routers -/

/-- C15, as stated, fails: `routeICBM` panics on the subgroup `ICBMErr` and
`routeChatNav` panics on the subgroup `ChatNavErr`. -/
theorem C15_counterexample :
    routeICBM (fun _ _ => .returned none) ICBMErr = .panicked "not implemented"
    ∧ routeChatNav (.returned none) (.returned none) (.returned none) ChatNavErr
        = .panicked "not implemented" := by
  decide

/-- C15, amended: `routeICBM` ends as its handler does on `ICBMParameterQuery`,
panics with "not implemented" on the other subgroups of its case list (1 to 3, 6
to 20 and 23), and returns nil on every other value; `routeChatNav` ends as its
handlers do on the subgroups 2, 4 and 8, panics on 1, 3, 5, 6, 7 and 9, and
returns nil on every other value. -/
theorem C15_router_outcomes (writeOutSNAC : snacFrame → snacParameterRequest → Outcome)
    (nextChatRights requestRoomInfo createRoom : Outcome) (g : Nat) :
    (g = 4 → routeICBM writeOutSNAC g = SendAndReceiveICBMParameterReply writeOutSNAC)
    ∧ ((1 ≤ g ∧ g ≤ 3) ∨ (6 ≤ g ∧ g ≤ 20) ∨ g = 23 →
        routeICBM writeOutSNAC g = .panicked "not implemented")
    ∧ (g = 0 ∨ g = 5 ∨ g = 21 ∨ g = 22 ∨ 24 ≤ g → routeICBM writeOutSNAC g = .returned none)
    ∧ (g = 2 → routeChatNav nextChatRights requestRoomInfo createRoom g = nextChatRights)
    ∧ (g = 4 → routeChatNav nextChatRights requestRoomInfo createRoom g = requestRoomInfo)
    ∧ (g = 8 → routeChatNav nextChatRights requestRoomInfo createRoom g = createRoom)
    ∧ (g = 1 ∨ g = 3 ∨ g = 5 ∨ g = 6 ∨ g = 7 ∨ g = 9 →
        routeChatNav nextChatRights requestRoomInfo createRoom g = .panicked "not implemented")
    ∧ (g = 0 ∨ 10 ≤ g →
        routeChatNav nextChatRights requestRoomInfo createRoom g = .returned none) := by
  refine ⟨?_, ?_, ?_, ?_, ?_, ?_, ?_, ?_⟩
  · rintro rfl
    simp [routeICBM, ICBMErr, ICBMAddParameters, ICBMDelParameters, ICBMParameterQuery]
  · intro h
    have hg : g ≤ 23 := by omega
    interval_cases g <;> first | omega | rfl
  · intro h
    have n1 : ¬ g = 1 := by omega
    have n2 : ¬ g = 2 := by omega
    have n3 : ¬ g = 3 := by omega
    have n4 : ¬ g = 4 := by omega
    have n6 : ¬ g = 6 := by omega
    have n7 : ¬ g = 7 := by omega
    have n8 : ¬ g = 8 := by omega
    have n9 : ¬ g = 9 := by omega
    have n10 : ¬ g = 10 := by omega
    have n11 : ¬ g = 11 := by omega
    have n12 : ¬ g = 12 := by omega
    have n13 : ¬ g = 13 := by omega
    have n14 : ¬ g = 14 := by omega
    have n15 : ¬ g = 15 := by omega
    have n16 : ¬ g = 16 := by omega
    have n17 : ¬ g = 17 := by omega
    have n18 : ¬ g = 18 := by omega
    have n19 : ¬ g = 19 := by omega
    have n20 : ¬ g = 20 := by omega
    have n23 : ¬ g = 23 := by omega
    simp only [routeICBM, ICBMErr, ICBMAddParameters, ICBMDelParameters, ICBMParameterQuery,
      ICBMChannelMsgTohost, ICBMChannelMsgToclient, ICBMEvilRequest, ICBMEvilReply,
      ICBMMissedCalls, ICBMClientErr, ICBMHostAck, ICBMSinStored, ICBMSinListQuery,
      ICBMSinListReply, ICBMSinRetrieve, ICBMSinDelete, ICBMNotifyRequest, ICBMNotifyReply,
      ICBMClientEvent, ICBMSinReply, n1, n2, n3, n4, n6, n7, n8, n9, n10, n11, n12, n13, n14, n15, n16, n17, n18, n19, n20, n23, if_false]
  · rintro rfl
    simp [routeChatNav, ChatNavErr, ChatNavRequestChatRights]
  · rintro rfl
    simp [routeChatNav, ChatNavErr, ChatNavRequestChatRights, ChatNavRequestExchangeInfo,
      ChatNavRequestRoomInfo]
  · rintro rfl
    simp [routeChatNav, ChatNavErr, ChatNavRequestChatRights, ChatNavRequestExchangeInfo,
      ChatNavRequestRoomInfo, ChatNavRequestMoreRoomInfo, ChatNavRequestOccupantList,
      ChatNavSearchForRoom, ChatNavCreateRoom]
  · intro h
    rcases h with rfl | rfl | rfl | rfl | rfl | rfl <;>
      simp [routeChatNav, ChatNavErr, ChatNavRequestChatRights, ChatNavRequestExchangeInfo,
        ChatNavRequestRoomInfo, ChatNavRequestMoreRoomInfo, ChatNavRequestOccupantList,
        ChatNavSearchForRoom, ChatNavCreateRoom, ChatNavNavInfo]
  · intro h
    have n1 : ¬ g = 1 := by omega
    have n2 : ¬ g = 2 := by omega
    have n3 : ¬ g = 3 := by omega
    have n4 : ¬ g = 4 := by omega
    have n5 : ¬ g = 5 := by omega
    have n6 : ¬ g = 6 := by omega
    have n7 : ¬ g = 7 := by omega
    have n8 : ¬ g = 8 := by omega
    have n9 : ¬ g = 9 := by omega
    simp only [routeChatNav, ChatNavErr, ChatNavRequestChatRights, ChatNavRequestExchangeInfo,
      ChatNavRequestRoomInfo, ChatNavRequestMoreRoomInfo, ChatNavRequestOccupantList,
      ChatNavSearchForRoom, ChatNavCreateRoom, ChatNavNavInfo, n1, n2, n3, n4, n5, n6, n7, n8, n9, if_false]

/-- C15, amended, at a concrete input: an unknown ICBM subgroup returns nil. -/
theorem C15_router_outcomes_witness :
    routeICBM (fun _ _ => .returned none) 0x0015 = .returned none :=
  (C15_router_outcomes (fun _ _ => .returned none) (.returned none) (.returned none)
      (.returned none) 0x0015).2.2.1 (by decide)

/-- C17: the ICBM parameter reply hands `writeOutSNAC` an ICBM `ParameterReply`
frame and the payload 100, 1, 8000, 999, 999, 100; `write` encodes every payload
as 16 bytes, the six fields in order, big-endian, in 2, 4, 2, 2, 2 and 4 bytes. -/
theorem C17_parameter_reply (writeOutSNAC : snacFrame → snacParameterRequest → Outcome)
    (s : snacParameterRequest) :
    SendAndReceiveICBMParameterReply writeOutSNAC
        = writeOutSNAC ⟨ICBM, ICBMParameterReply⟩ ⟨100, 1, 8000, 999, 999, 100⟩
    ∧ s.write.length = 16
    ∧ s.write =
        [s.maxSlots % 2 ^ 16 / 2 ^ 8, s.maxSlots % 2 ^ 8,
         s.ICBMFlags % 2 ^ 32 / 2 ^ 24, s.ICBMFlags / 2 ^ 16 % 2 ^ 8,
         s.ICBMFlags / 2 ^ 8 % 2 ^ 8, s.ICBMFlags % 2 ^ 8,
         s.maxIncomingICBMLen % 2 ^ 16 / 2 ^ 8, s.maxIncomingICBMLen % 2 ^ 8,
         s.maxSourceEvil % 2 ^ 16 / 2 ^ 8, s.maxSourceEvil % 2 ^ 8,
         s.maxDestinationEvil % 2 ^ 16 / 2 ^ 8, s.maxDestinationEvil % 2 ^ 8,
         s.minInterICBMInterval % 2 ^ 32 / 2 ^ 24, s.minInterICBMInterval / 2 ^ 16 % 2 ^ 8,
         s.minInterICBMInterval / 2 ^ 8 % 2 ^ 8, s.minInterICBMInterval % 2 ^ 8]
    ∧ (∀ n, n < 2 ^ 16 → ∃ b0 b1, putUint16 n = [b0, b1] ∧ b0 < 256 ∧ b1 < 256
        ∧ b0 * 256 + b1 = n)
    ∧ (∀ n, n < 2 ^ 32 → ∃ b0 b1 b2 b3, putUint32 n = [b0, b1, b2, b3]
        ∧ b0 < 256 ∧ b1 < 256 ∧ b2 < 256 ∧ b3 < 256
        ∧ ((b0 * 256 + b1) * 256 + b2) * 256 + b3 = n)
    ∧ (⟨100, 1, 8000, 999, 999, 100⟩ : snacParameterRequest).write
        = [0, 100, 0, 0, 0, 1, 31, 64, 3, 231, 3, 231, 0, 0, 0, 100] := by
  refine ⟨rfl, ?_, ?_, ?_, ?_, ?_⟩
  · simp [snacParameterRequest.write, putUint16, putUint32]
  · simp [snacParameterRequest.write, putUint16, putUint32]
  · intro n hn
    refine ⟨n % 65536 / 256, n % 256, rfl, ?_, ?_, ?_⟩ <;> omega
  · intro n hn
    refine ⟨n % 4294967296 / 16777216, n / 65536 % 256, n / 256 % 256, n % 256, rfl,
      ?_, ?_, ?_, ?_, ?_⟩ <;> omega
  · decide

/-- C17 at a concrete input: the two bytes of the maximum message length 8000. -/
theorem C17_parameter_reply_witness :
    ∃ b0 b1, putUint16 8000 = [b0, b1] ∧ b0 < 256 ∧ b1 < 256 ∧ b0 * 256 + b1 = 8000 :=
  (C17_parameter_reply (fun _ _ => .returned none) ⟨100, 1, 8000, 999, 999, 100⟩).2.2.2.1
    8000 (by decide)

/-! ## Room creation -/

/-- Writing at the address of a freshly allocated cell replaces that cell. -/
theorem set_fresh {α : Type} (l : List α) (a b : α) :
    (l ++ [a]).set l.length b = l ++ [b] := by
  induction l with
  | nil => rfl
  | cons x l ih => simp [List.set, ih]

/-- Reading at the address of a freshly allocated cell returns that cell. -/
theorem getD_fresh {α : Type} (l : List α) (a d : α) :
    (l ++ [a]).getD l.length d = a := by
  induction l with
  | nil => rfl
  | cons x l ih => simp [List.getD]

/-- C16: for a request that unmarshals, `SendAndReceiveCreateRoom` with a
room-name TLV (tag 0x00d3) makes one `Register` call, for a new room of that
name, adds a session with the creator's ID and screen name to the new room's
session manager, and hands `writeOutSNAC` a ChatNav `NavInfo` whose room info
has exchange 4 and the new room's ID as cookie; without the name TLV it returns
an error and leaves the registry and the rest of the state as they were. -/
theorem C16_create_room {τ γ ω : Type} (env : ChatNavEnv τ γ ω) (sess : Session)
    (st : ChatWorld τ γ ω) (snac : SnacFrame) (r : List Nat) (newUUID : String) (now : Nat)
    (payload : SNAC_0x0E_0x02_ChatRoomInfoUpdate)
    (hun : env.Unmarshal r = .ok payload) :
    (∀ name, GetString payload.TLVBlock 0x00d3 = some name →
      (SendAndReceiveCreateRoom env sess st snac r newUUID now).2.cr
          = env.Register st.cr ⟨newUUID, st.heap.length, now, name⟩
      ∧ (SendAndReceiveCreateRoom env sess st snac r newUUID now).2.heap
          = st.heap ++ [(env.sm.NewSessionWithSN env.NewSessionManager sess.ID sess.ScreenName).1]
      ∧ (SendAndReceiveCreateRoom env sess st snac r newUUID now).1
          = (env.writeOutSNAC snac ⟨CHAT_NAV, ChatNavNavInfo⟩
              ⟨[⟨0x04, ⟨4, newUUID, 100, 2,
                  env.TLVList ⟨newUUID, st.heap.length, now, name⟩⟩⟩]⟩
              st.sequence st.w).2
      ∧ (SendAndReceiveCreateRoom env sess st snac r newUUID now).2.w
          = (env.writeOutSNAC snac ⟨CHAT_NAV, ChatNavNavInfo⟩
              ⟨[⟨0x04, ⟨4, newUUID, 100, 2,
                  env.TLVList ⟨newUUID, st.heap.length, now, name⟩⟩⟩]⟩
              st.sequence st.w).1.1)
    ∧ (GetString payload.TLVBlock 0x00d3 = none →
      (SendAndReceiveCreateRoom env sess st snac r newUUID now).1
          = some "unable to find chat name"
      ∧ (SendAndReceiveCreateRoom env sess st snac r newUUID now).2.cr = st.cr
      ∧ (SendAndReceiveCreateRoom env sess st snac r newUUID now).2.heap = st.heap
      ∧ (SendAndReceiveCreateRoom env sess st snac r newUUID now).2.w = st.w
      ∧ (SendAndReceiveCreateRoom env sess st snac r newUUID now).2.sequence = st.sequence) := by
  constructor
  · intro name hname
    simp [SendAndReceiveCreateRoom, hun, hname, set_fresh, getD_fresh]
  · intro hname
    simp [SendAndReceiveCreateRoom, hun, hname]

/-- C16 at a concrete input: Alice creates the room "Lobby" in an empty registry. -/
theorem C16_create_room_witness :
    (SendAndReceiveCreateRoom (memChatNavEnv (.ok ⟨4, "create", 0, 0, [⟨0x00d3, .str "Lobby"⟩]⟩))
        ⟨"id-1", "Alice"⟩ { cr := [], heap := [], w := [], sequence := 7 } ⟨0x0D, 0x08⟩ []
        "room-1" 50).2.cr = [⟨"room-1", 0, 50, "Lobby"⟩]
    ∧ (SendAndReceiveCreateRoom (memChatNavEnv (.ok ⟨4, "create", 0, 0, [⟨0x00d3, .str "Lobby"⟩]⟩))
        ⟨"id-1", "Alice"⟩ { cr := [], heap := [], w := [], sequence := 7 } ⟨0x0D, 0x08⟩ []
        "room-1" 50).2.heap = [[("id-1", ⟨"id-1", "Alice"⟩)]] :=
  ⟨((C16_create_room (memChatNavEnv (.ok ⟨4, "create", 0, 0, [⟨0x00d3, .str "Lobby"⟩]⟩))
        ⟨"id-1", "Alice"⟩ { cr := [], heap := [], w := [], sequence := 7 } ⟨0x0D, 0x08⟩ []
        "room-1" 50 ⟨4, "create", 0, 0, [⟨0x00d3, .str "Lobby"⟩]⟩ rfl).1 "Lobby" (by decide)).1,
   ((C16_create_room (memChatNavEnv (.ok ⟨4, "create", 0, 0, [⟨0x00d3, .str "Lobby"⟩]⟩))
        ⟨"id-1", "Alice"⟩ { cr := [], heap := [], w := [], sequence := 7 } ⟨0x0D, 0x08⟩ []
        "room-1" 50 ⟨4, "create", 0, 0, [⟨0x00d3, .str "Lobby"⟩]⟩ rfl).1 "Lobby"
        (by decide)).2.1⟩

/-! ## Password hashes, BART items, last-modified time -/

/-- C18: `HashPassword` returns no error and keeps `ScreenName` and `AuthKey`;
afterwards `ValidateHash` accepts the strong and the weak hash of the password
under the auth key, and `ValidateRoastedPass` accepts every roasted password
that `wire.RoastPassword` maps to the password. -/
theorem C18_hash_then_validate (wire : state.WirePasswords) (u : state.User) (p : List Nat) :
    (state.User.HashPassword wire u p).2 = none
    ∧ (state.User.HashPassword wire u p).1.ScreenName = u.ScreenName
    ∧ (state.User.HashPassword wire u p).1.AuthKey = u.AuthKey
    ∧ (state.User.HashPassword wire u p).1.ValidateHash
        (wire.StrongMD5PasswordHash p u.AuthKey) = true
    ∧ (state.User.HashPassword wire u p).1.ValidateHash
        (wire.WeakMD5PasswordHash p u.AuthKey) = true
    ∧ (∀ r, wire.RoastPassword r = p →
        (state.User.HashPassword wire u p).1.ValidateRoastedPass wire r = true) := by
  refine ⟨rfl, rfl, rfl, ?_, ?_, ?_⟩
  · simp [state.User.HashPassword, state.User.ValidateHash]
  · simp [state.User.HashPassword, state.User.ValidateHash]
  · intro r hr
    simp [state.User.HashPassword, state.User.ValidateRoastedPass, hr]

/-- C18 at a concrete input: a roasting that reverses the bytes. -/
theorem C18_hash_then_validate_witness :
    (state.User.HashPassword
        ⟨List.reverse, fun p k => p ++ k.toList.map Char.toNat, fun p k => 0 :: p ++ k.toList.map Char.toNat⟩
        ⟨"Alice", "s", [], []⟩ [112, 119]).1.ValidateRoastedPass
      ⟨List.reverse, fun p k => p ++ k.toList.map Char.toNat, fun p k => 0 :: p ++ k.toList.map Char.toNat⟩
      [119, 112] = true :=
  (C18_hash_then_validate
      ⟨List.reverse, fun p k => p ++ k.toList.map Char.toNat, fun p k => 0 :: p ++ k.toList.map Char.toNat⟩
      ⟨"Alice", "s", [], []⟩ [112, 119]).2.2.2.2.2 [119, 112] rfl

/-- C19 at the failing input: with no item under the hash `BARTRetrieve` returns
an empty body and a nil error, and it returns the same when the query fails
with "database is locked". -/
theorem C19_bart_retrieve_swallows_errors :
    BARTRetrieve { bartItem := [([7], [1, 2, 3])], fault := none } [9] = ([], none)
    ∧ BARTRetrieve { bartItem := [([7], [1, 2, 3])], fault := none } [7] = ([1, 2, 3], none)
    ∧ BartDB.queryBody { bartItem := [([7], [1, 2, 3])], fault := some "database is locked" } [7]
        = .failed "database is locked"
    ∧ BARTRetrieve { bartItem := [([7], [1, 2, 3])], fault := some "database is locked" } [7]
        = ([], none) := by
  refine ⟨rfl, rfl, rfl, rfl⟩

/-- C20: for a screen name without feedbag rows `FeedbagLastModified` returns
`time.Unix(0, 0)` and a nil error. -/
theorem C20_last_modified_empty (tbl : List FeedbagRow) (screenName : String)
    (hempty : ∀ r ∈ tbl, r.screenName ≠ screenName) :
    FeedbagLastModified tbl screenName = (⟨0, 0⟩, none) := by
  have hfil : tbl.filter (fun r => r.screenName == screenName) = [] := by
    rw [List.filter_eq_nil_iff]
    intro r hr
    simpa using hempty r hr
  simp [FeedbagLastModified, hfil, sqlMax, ScanResult.scan]

/-- C20 at a concrete input: the table has rows of another owner only. -/
theorem C20_last_modified_empty_witness :
    FeedbagLastModified [⟨"other", 10, 0, 1, "Friends", [], 1691286176⟩] "sn2day"
      = (⟨0, 0⟩, none) :=
  C20_last_modified_empty [⟨"other", 10, 0, 1, "Friends", [], 1691286176⟩] "sn2day"
    (by decide)

/-! ## Buddies and adjacent users -/

/-- C24: `V` occurs in `Buddies(U)` if and only if `U` occurs in
`AdjacentUsers(V)`; `Buddies(U)` omits `V` when `U` has a deny item named `V`
and when `V` has a deny item named `U`. -/
theorem C24_buddies_adjacent (tbl : List FeedbagRow) (U V : String) :
    (V ∈ Buddies tbl U ↔ U ∈ AdjacentUsers tbl V)
    ∧ ((∃ r ∈ tbl, r.isEntry U 3 V) → V ∉ Buddies tbl U)
    ∧ ((∃ r ∈ tbl, r.isEntry V 3 U) → V ∉ Buddies tbl U) := by
  have hb : V ∈ Buddies tbl U ↔
      (∃ r ∈ tbl, r.isEntry U 0 V)
      ∧ ¬(∃ r ∈ tbl, r.isEntry V 3 U)
      ∧ ¬(∃ r ∈ tbl, r.isEntry U 3 V) := by
    simp only [Buddies, List.mem_map, List.mem_filter, Bool.and_eq_true, beq_iff_eq,
      Bool.not_eq_true', List.any_eq_false, FeedbagRow.isEntry, not_exists, not_and]
    constructor
    · rintro ⟨f, ⟨hf, ⟨⟨hown, hclass⟩, hb1⟩, hb2⟩, rfl⟩
      refine ⟨⟨f, hf, hown, hclass, rfl⟩, ?_, ?_⟩
      · intro r hr h1 h3 h2
        exact hb1 r hr ⟨h1, h2⟩ h3
      · intro r hr h1 h3 h2
        exact hb2 r hr ⟨h1, h2⟩ h3
    · rintro ⟨⟨f, hf, hown, hclass, rfl⟩, hb1, hb2⟩
      refine ⟨f, ⟨hf, ⟨⟨hown, hclass⟩, ?_⟩, ?_⟩, rfl⟩
      · rintro r hr ⟨h1, h2⟩ h3
        exact hb1 r hr h1 h3 h2
      · rintro r hr ⟨h1, h2⟩ h3
        exact hb2 r hr h1 h3 h2
  have ha : U ∈ AdjacentUsers tbl V ↔
      (∃ r ∈ tbl, r.isEntry U 0 V)
      ∧ ¬(∃ r ∈ tbl, r.isEntry V 3 U)
      ∧ ¬(∃ r ∈ tbl, r.isEntry U 3 V) := by
    simp only [AdjacentUsers, List.mem_map, List.mem_filter, Bool.and_eq_true, beq_iff_eq,
      Bool.not_eq_true', List.any_eq_false, FeedbagRow.isEntry, not_exists, not_and]
    constructor
    · rintro ⟨f, ⟨hf, ⟨⟨hname, hclass⟩, hb1⟩, hb2⟩, rfl⟩
      refine ⟨⟨f, hf, rfl, hclass, hname⟩, ?_, ?_⟩
      · intro r hr h1 h3 h2
        exact hb1 r hr ⟨h1, h2⟩ h3
      · intro r hr h1 h3 h2
        exact hb2 r hr ⟨h1, by rw [h2, hname]⟩ h3
    · rintro ⟨⟨f, hf, rfl, hclass, hname⟩, hb1, hb2⟩
      refine ⟨f, ⟨hf, ⟨⟨hname, hclass⟩, ?_⟩, ?_⟩, rfl⟩
      · rintro r hr ⟨h1, h2⟩ h3
        exact hb1 r hr h1 h3 h2
      · rintro r hr ⟨h1, h2⟩ h3
        exact hb2 r hr h1 h3 (by rw [h2, hname])
  refine ⟨hb.trans ha.symm, ?_, ?_⟩
  · intro hd hmem
    exact (hb.mp hmem).2.2 hd
  · intro hd hmem
    exact (hb.mp hmem).2.1 hd

/-- C24 at a concrete input: the table of `TestFeedbagStoreBuddiesBlockedUser`,
where userA denies userB. -/
theorem C24_buddies_adjacent_witness :
    "userB" ∉ Buddies
        [⟨"userA", 0, 13852, 3, "userB", [], 1691286176⟩,
         ⟨"userA", 27631, 4016, 0, "userB", [], 1690508233⟩,
         ⟨"userB", 28330, 8120, 0, "userA", [], 1691180328⟩]
        "userA" :=
  (C24_buddies_adjacent
      [⟨"userA", 0, 13852, 3, "userB", [], 1691286176⟩,
       ⟨"userA", 27631, 4016, 0, "userB", [], 1690508233⟩,
       ⟨"userB", 28330, 8120, 0, "userA", [], 1691180328⟩]
      "userA" "userB").2.1
    ⟨⟨"userA", 0, 13852, 3, "userB", [], 1691286176⟩, by simp, rfl, rfl, rfl⟩

/-! ## The presence bridge: error paths and subscriptions -/

/-- C25, as stated, fails: when the relationship lookup returns an error and the
feedbag lists the buddy, `hasBuddy` returns true. -/
theorem C25_counterexample :
    hasBuddy
        { relationshipFetcher := some (fun _ _ => .error "relationship unavailable"),
          RetrieveFeedbag := fun _ => .ok [⟨1, 2, 0, "Alice", ⟨[]⟩⟩],
          GetPresenceForBuddy := fun sn => ⟨sn, "online", "", "", 0, 0, "aim"⟩ }
        ⟨"bob"⟩ ⟨"alice"⟩ = true := by
  decide

/-- C25, amended: `hasBuddy` returns false whenever the feedbag lookup returns
an error; when the relationship lookup returns an error the block check is
skipped and the result is what the feedbag lookup decides. -/
theorem C25_has_buddy_errors (b : WebAPIPresenceBridge) (user buddy : IdentScreenName) :
    (∀ err, b.RetrieveFeedbag user = .error err → hasBuddy b user buddy = false)
    ∧ (∀ f err, b.relationshipFetcher = some f → f user buddy = .error err →
        hasBuddy b user buddy =
          (match b.RetrieveFeedbag user with
           | .error _ => false
           | .ok items =>
             items.any (fun item =>
               item.ClassID == FeedbagClassIdBuddy
               && decide (NewIdentScreenName item.Name = buddy)))) := by
  constructor
  · intro err herr
    unfold hasBuddy
    simp only [herr]
    split <;> rfl
  · intro f err hf herr
    unfold hasBuddy
    simp [hf, herr]

/-- C25, amended, at a concrete input: the feedbag lookup fails. -/
theorem C25_has_buddy_errors_witness :
    hasBuddy
        { relationshipFetcher := some (fun _ _ => .ok ⟨false, false⟩),
          RetrieveFeedbag := fun _ => .error "feedbag unavailable",
          GetPresenceForBuddy := fun sn => ⟨sn, "online", "", "", 0, 0, "aim"⟩ }
        ⟨"bob"⟩ ⟨"alice"⟩ = false :=
  (C25_has_buddy_errors
      { relationshipFetcher := some (fun _ _ => .ok ⟨false, false⟩),
        RetrieveFeedbag := fun _ => .error "feedbag unavailable",
        GetPresenceForBuddy := fun sn => ⟨sn, "online", "", "", 0, 0, "aim"⟩ }
      ⟨"bob"⟩ ⟨"alice"⟩).1 "feedbag unavailable" rfl

/-- Every session that `findSessionsWithBuddy` passes on, filtered on a queue
and a presence subscription, is a session of the manager that is subscribed to
"presence". -/
theorem presence_targets_subscribed {Q : Type} (b : WebAPIPresenceBridge)
    (m : List (WebAPISession Q)) (now : Nat) (U : IdentScreenName) (p : Nat × WebAPISession Q)
    (hp : p ∈ (findSessionsWithBuddy b m now U).filter
      (fun p => p.2.EventQueue.isSome && p.2.IsSubscribedTo "presence")) :
    m[p.1]? = some p.2 ∧ p.2.IsSubscribedTo "presence" = true := by
  rw [List.mem_filter] at hp
  obtain ⟨hfind, hsub⟩ := hp
  simp only [Bool.and_eq_true] at hsub
  refine ⟨?_, hsub.2⟩
  have h1 : p ∈ GetAllSessions m now := (List.mem_filter.mp hfind).1
  have h2 : p ∈ m.enum := (List.mem_filter.mp h1).1
  exact List.mem_enum_iff_getElem?.mp h2

/-- Every push of `BroadcastBuddyArrived`, `BroadcastBuddyDeparted` and
`BroadcastBuddyStatusUpdate` is a presence event on a session of the manager
that is subscribed to "presence". -/
theorem broadcast_presence_subscribed {Q : Type} (b : WebAPIPresenceBridge)
    (m : List (WebAPISession Q)) (now : Nat) (U : IdentScreenName) :
    (∀ q ∈ BroadcastBuddyArrived b m now U, q.eventType = EventTypePresence
        ∧ ∃ v, m[q.session]? = some v ∧ v.IsSubscribedTo "presence" = true)
    ∧ (∀ q ∈ BroadcastBuddyDeparted b m now U, q.eventType = EventTypePresence
        ∧ ∃ v, m[q.session]? = some v ∧ v.IsSubscribedTo "presence" = true)
    ∧ (∀ q ∈ BroadcastBuddyStatusUpdate b m now U, q.eventType = EventTypePresence
        ∧ ∃ v, m[q.session]? = some v ∧ v.IsSubscribedTo "presence" = true) := by
  refine ⟨?_, ?_, ?_⟩
  · intro q hq
    obtain ⟨p, hp, rfl⟩ := List.mem_map.mp hq
    exact ⟨rfl, p.2, presence_targets_subscribed b m now U p hp⟩
  · intro q hq
    obtain ⟨p, hp, rfl⟩ := List.mem_map.mp hq
    exact ⟨rfl, p.2, presence_targets_subscribed b m now U p hp⟩
  · intro q hq
    obtain ⟨p, hp, rfl⟩ := List.mem_map.mp hq
    exact ⟨rfl, p.2, presence_targets_subscribed b m now U p hp⟩

/-- C26 at the failing input: Bob's session is subscribed to "buddylist" and not
to "presence", and Alice, who is on his buddy list, is online.
`BroadcastBuddyArrived`, `BroadcastBuddyDeparted` and `BroadcastBuddyStatusUpdate`
push nothing on his queue for her, and `BroadcastBuddyArrived` does push once
"presence" is among his events; `PushInitialBuddyList` pushes her presence event
on his queue, after the buddy list event, without that subscription. -/
theorem C26_initial_presence_unsubscribed :
    WebAPISession.IsSubscribedTo
        ({ AimSID := "sid-1", ScreenName := "Bob", Events := ["buddylist"],
           EventQueue := some (), ExpiresAt := 100 } : WebAPISession Unit) "presence" = false
    ∧ BroadcastBuddyArrived
        { relationshipFetcher := some (fun _ _ => .ok ⟨false, false⟩),
          RetrieveFeedbag := fun _ => .ok [⟨1, 2, 0, "Alice", ⟨[]⟩⟩],
          GetPresenceForBuddy := fun sn => ⟨sn, "online", "", "", 0, 0, "aim"⟩ }
        [({ AimSID := "sid-1", ScreenName := "Bob", Events := ["buddylist"],
            EventQueue := some (), ExpiresAt := 100 } : WebAPISession Unit)]
        50 ⟨"alice"⟩ = []
    ∧ BroadcastBuddyDeparted
        { relationshipFetcher := some (fun _ _ => .ok ⟨false, false⟩),
          RetrieveFeedbag := fun _ => .ok [⟨1, 2, 0, "Alice", ⟨[]⟩⟩],
          GetPresenceForBuddy := fun sn => ⟨sn, "online", "", "", 0, 0, "aim"⟩ }
        [({ AimSID := "sid-1", ScreenName := "Bob", Events := ["buddylist"],
            EventQueue := some (), ExpiresAt := 100 } : WebAPISession Unit)]
        50 ⟨"alice"⟩ = []
    ∧ BroadcastBuddyStatusUpdate
        { relationshipFetcher := some (fun _ _ => .ok ⟨false, false⟩),
          RetrieveFeedbag := fun _ => .ok [⟨1, 2, 0, "Alice", ⟨[]⟩⟩],
          GetPresenceForBuddy := fun sn => ⟨sn, "online", "", "", 0, 0, "aim"⟩ }
        [({ AimSID := "sid-1", ScreenName := "Bob", Events := ["buddylist"],
            EventQueue := some (), ExpiresAt := 100 } : WebAPISession Unit)]
        50 ⟨"alice"⟩ = []
    ∧ BroadcastBuddyArrived
        { relationshipFetcher := some (fun _ _ => .ok ⟨false, false⟩),
          RetrieveFeedbag := fun _ => .ok [⟨1, 2, 0, "Alice", ⟨[]⟩⟩],
          GetPresenceForBuddy := fun sn => ⟨sn, "online", "", "", 0, 0, "aim"⟩ }
        [({ AimSID := "sid-1", ScreenName := "Bob", Events := ["buddylist", "presence"],
            EventQueue := some (), ExpiresAt := 100 } : WebAPISession Unit)]
        50 ⟨"alice"⟩
      = [{ session := 0, eventType := EventTypePresence,
           event := ⟨"alice", "online", "", "", 0, 0, "aim"⟩ }]
    ∧ PushInitialBuddyList
        (fun _ => .ok [⟨"Buddies", [⟨"alice", "online", "", "", 0, 0, "aim"⟩]⟩])
        ({ AimSID := "sid-1", ScreenName := "Bob", Events := ["buddylist"],
           EventQueue := some (), ExpiresAt := 100 } : WebAPISession Unit)
      = ([{ eventType := EventTypeBuddyList,
            data := .buddyList [⟨"Buddies", [⟨"alice", "online", "", "", 0, 0, "aim"⟩]⟩] },
          { eventType := EventTypePresence,
            data := .presence ⟨"alice", "online", "", "", 0, 0, "aim"⟩ }], none) := by
  refine ⟨?_, ?_, ?_, ?_, ?_, ?_⟩ <;> decide

/-! ## The WebAPI session manager -/

/-- Reading a Go map at the key that was just assigned. -/
theorem mapGet_mapSet_self {κ ν : Type} [DecidableEq κ] (m : List (κ × ν)) (k : κ) (v : ν) :
    mapGet (mapSet m k v) k = some v := by
  have hnone : (mapDelete m k).find? (fun e => decide (e.1 = k)) = none := by
    rw [List.find?_eq_none]
    intro e he
    simp only [mapDelete, List.mem_filter, Bool.not_eq_true', decide_eq_false_iff_not] at he
    simpa using he.2
  simp [mapGet, mapSet, List.find?_append, hnone]

/-- Reading a Go map at a key that was just deleted. -/
theorem mapGet_mapDelete_self {κ ν : Type} [DecidableEq κ] (m : List (κ × ν)) (k : κ) :
    mapGet (mapDelete m k) k = none := by
  have hnone : (mapDelete m k).find? (fun e => decide (e.1 = k)) = none := by
    rw [List.find?_eq_none]
    intro e he
    simp only [mapDelete, List.mem_filter, Bool.not_eq_true', decide_eq_false_iff_not] at he
    simpa using he.2
  simp [mapGet, hnone]

/-- Reading a Go map at a deleted key after another key was assigned. -/
theorem mapGet_mapSet_mapDelete {κ ν : Type} [DecidableEq κ] (m : List (κ × ν)) (k k1 : κ)
    (v : ν) (hk : k ≠ k1) : mapGet (mapSet (mapDelete m k) k1 v) k = none := by
  have hnone : (mapDelete (mapDelete m k) k1).find? (fun e => decide (e.1 = k)) = none := by
    rw [List.find?_eq_none]
    intro e he
    simp only [mapDelete, List.mem_filter, Bool.not_eq_true', decide_eq_false_iff_not] at he
    simpa using he.1.2
  have hk1 : ¬ (k1 = k) := fun e => hk e.symm
  simp [mapGet, mapSet, List.find?_append, hnone, hk1]

/-- The state in which `CreateSession` generates the session id has the heap
of the state it started in. -/
theorem createSession_pre_heap {Q : Type} (m : WebAPISessionManager Q) (ident : IdentScreenName) :
    (match mapGet m.byUser ident with
      | some p =>
        match m.heap[p]? with
        | some existing => { m with sessions := mapDelete m.sessions existing.AimSID }
        | none => m
      | none => m).heap = m.heap := by
  split
  · split <;> rfl
  · rfl

/-- Right after `CreateSession(sn, ...)` succeeds with the session `s`, and at
every time up to the expiry of `s`, `GetSession(s.AimSID)` and
`GetSessionByUser(ident form of sn)` both return `s`, and the session that
`byUser` held for the same ident form is not returned by `GetSession` under its
old id. -/
theorem createSession_then_get {Q : Type} (m : WebAPISessionManager Q) (newQueue : Q)
    (sn : String) (events : List String) (aimsid : String) (now t : Nat)
    (ht : t ≤ now + 3600) :
    (m.CreateSession newQueue sn events (.ok aimsid) now).1 = .ok m.heap.length
    ∧ (m.CreateSession newQueue sn events (.ok aimsid) now).2.heap[m.heap.length]?
        = some { AimSID := aimsid, ScreenName := sn, Events := events,
                 EventQueue := some newQueue, ExpiresAt := now + 3600, LastAccessed := now }
    ∧ (m.CreateSession newQueue sn events (.ok aimsid) now).2.GetSession aimsid t
        = .ok m.heap.length
    ∧ (m.CreateSession newQueue sn events (.ok aimsid) now).2.GetSessionByUser
        (NewIdentScreenName sn) t = .ok m.heap.length
    ∧ (∀ p old, mapGet m.byUser (NewIdentScreenName sn) = some p → m.heap[p]? = some old →
        (m.CreateSession newQueue sn events (.ok aimsid) now).2.GetSession old.AimSID t
          ≠ .ok p) := by
  have hheap := createSession_pre_heap m (NewIdentScreenName sn)
  have hexp : ¬ (now + 3600 < t) := by omega
  refine ⟨?_, ?_, ?_, ?_, ?_⟩
  · simp only [WebAPISessionManager.CreateSession, hheap]
  · simp only [WebAPISessionManager.CreateSession, hheap]
    simp
  · simp only [WebAPISessionManager.CreateSession, WebAPISessionManager.GetSession, hheap,
      mapGet_mapSet_self]
    simp [WebAPISession.IsExpired, hexp]
  · simp only [WebAPISessionManager.CreateSession, WebAPISessionManager.GetSessionByUser, hheap,
      mapGet_mapSet_self]
    simp [WebAPISession.IsExpired, hexp]
  · intro p old hp hold
    have hlt : p < m.heap.length := by
      by_contra hge
      have : m.heap[p]? = none := List.getElem?_eq_none (by omega)
      rw [this] at hold
      exact Option.noConfusion hold
    by_cases hid : old.AimSID = aimsid
    · rw [hid]
      simp only [WebAPISessionManager.CreateSession, WebAPISessionManager.GetSession, hheap,
        mapGet_mapSet_self]
      simp only [List.getElem?_concat_length, WebAPISession.IsExpired, hexp, decide_False]
      intro h
      injection h with h
      omega
    · simp only [WebAPISessionManager.CreateSession, WebAPISessionManager.GetSession, hp, hold,
        mapGet_mapSet_mapDelete _ _ _ _ hid]
      intro h
      exact Except.noConfusion h

/-- C22 at the failing input: the manager holds Bob's session; `CreateSession`
for "Al Ice" succeeds at time 5 with the session at address 1 under the id
"sid-1", and `GetSession("sid-1")` and `GetSessionByUser(alice)` both return it.
At time 10 a `CreateSession` for "alice" fails to generate a session id.  At
time 20 the session is in the heap as it was created, expiring at time 3605,
and `RemoveSession` and the cleanup have not run; `GetSessionByUser(alice)`
still returns it, but `GetSession("sid-1")` finds no session, and
`RemoveSession("sid-1")` and `TouchSession("sid-1")` find none either.  Bob's
session is returned as before. -/
theorem C22_failed_create_hides_session :
    (((NewWebAPISessionManager : WebAPISessionManager Unit).CreateSession () "Bob"
        ["presence"] (.ok "sid-0") 0).2.CreateSession () "Al Ice" ["im"] (.ok "sid-1") 5).1
      = .ok 1
    ∧ (((NewWebAPISessionManager : WebAPISessionManager Unit).CreateSession () "Bob"
        ["presence"] (.ok "sid-0") 0).2.CreateSession () "Al Ice" ["im"]
        (.ok "sid-1") 5).2.GetSession "sid-1" 10 = .ok 1
    ∧ (((NewWebAPISessionManager : WebAPISessionManager Unit).CreateSession () "Bob"
        ["presence"] (.ok "sid-0") 0).2.CreateSession () "Al Ice" ["im"]
        (.ok "sid-1") 5).2.GetSessionByUser ⟨"alice"⟩ 10 = .ok 1
    ∧ ((((NewWebAPISessionManager : WebAPISessionManager Unit).CreateSession () "Bob"
        ["presence"] (.ok "sid-0") 0).2.CreateSession () "Al Ice" ["im"]
        (.ok "sid-1") 5).2.CreateSession () "alice" ["im"] (.error "rand: read failed") 10).1
      = .error "rand: read failed"
    ∧ ((((NewWebAPISessionManager : WebAPISessionManager Unit).CreateSession () "Bob"
        ["presence"] (.ok "sid-0") 0).2.CreateSession () "Al Ice" ["im"]
        (.ok "sid-1") 5).2.CreateSession () "alice" ["im"]
        (.error "rand: read failed") 10).2.heap[1]?
      = some { AimSID := "sid-1", ScreenName := "Al Ice", Events := ["im"],
               EventQueue := some (), ExpiresAt := 3605, LastAccessed := 5 }
    ∧ ((((NewWebAPISessionManager : WebAPISessionManager Unit).CreateSession () "Bob"
        ["presence"] (.ok "sid-0") 0).2.CreateSession () "Al Ice" ["im"]
        (.ok "sid-1") 5).2.CreateSession () "alice" ["im"]
        (.error "rand: read failed") 10).2.GetSessionByUser ⟨"alice"⟩ 20 = .ok 1
    ∧ ((((NewWebAPISessionManager : WebAPISessionManager Unit).CreateSession () "Bob"
        ["presence"] (.ok "sid-0") 0).2.CreateSession () "Al Ice" ["im"]
        (.ok "sid-1") 5).2.CreateSession () "alice" ["im"]
        (.error "rand: read failed") 10).2.GetSession "sid-1" 20 = .error ErrNoWebAPISession
    ∧ (((((NewWebAPISessionManager : WebAPISessionManager Unit).CreateSession () "Bob"
        ["presence"] (.ok "sid-0") 0).2.CreateSession () "Al Ice" ["im"]
        (.ok "sid-1") 5).2.CreateSession () "alice" ["im"]
        (.error "rand: read failed") 10).2.RemoveSession id "sid-1").1
      = some ErrNoWebAPISession
    ∧ (((((NewWebAPISessionManager : WebAPISessionManager Unit).CreateSession () "Bob"
        ["presence"] (.ok "sid-0") 0).2.CreateSession () "Al Ice" ["im"]
        (.ok "sid-1") 5).2.CreateSession () "alice" ["im"]
        (.error "rand: read failed") 10).2.TouchSession "sid-1" 20).1
      = some ErrNoWebAPISession
    ∧ ((((NewWebAPISessionManager : WebAPISessionManager Unit).CreateSession () "Bob"
        ["presence"] (.ok "sid-0") 0).2.CreateSession () "Al Ice" ["im"]
        (.ok "sid-1") 5).2.CreateSession () "alice" ["im"]
        (.error "rand: read failed") 10).2.GetSession "sid-0" 20 = .ok 0 := by
  refine ⟨?_, ?_, ?_, ?_, ?_, ?_, ?_, ?_, ?_, ?_⟩ <;> rfl

/-- C23 at the failing input: Alice has a session; a second `CreateSession` for
her fails to generate a session id.  Her session is then gone from `sessions`
while `byUser` still maps her ident screen name to it: `GetSession` under its
id finds nothing and `GetSessionByUser` returns it. -/
theorem C23_indexes_disagree :
    (((NewWebAPISessionManager : WebAPISessionManager Unit).CreateSession () "Alice"
        ["presence"] (.ok "sid-1") 0).2.CreateSession () "alice" ["presence"]
        (.error "rand: read failed") 10).2.sessions = []
    ∧ (((NewWebAPISessionManager : WebAPISessionManager Unit).CreateSession () "Alice"
        ["presence"] (.ok "sid-1") 0).2.CreateSession () "alice" ["presence"]
        (.error "rand: read failed") 10).2.byUser = [(⟨"alice"⟩, 0)]
    ∧ (((NewWebAPISessionManager : WebAPISessionManager Unit).CreateSession () "Alice"
        ["presence"] (.ok "sid-1") 0).2.CreateSession () "alice" ["presence"]
        (.error "rand: read failed") 10).2.GetSession "sid-1" 20 = .error ErrNoWebAPISession
    ∧ (((NewWebAPISessionManager : WebAPISessionManager Unit).CreateSession () "Alice"
        ["presence"] (.ok "sid-1") 0).2.CreateSession () "alice" ["presence"]
        (.error "rand: read failed") 10).2.GetSessionByUser ⟨"alice"⟩ 20 = .ok 0 := by
  refine ⟨?_, ?_, ?_, ?_⟩ <;> rfl

/-- C27 at the failing input: Alice's session, created at time 0, has expired
at time 4000 and `GetSession` reports so; `TouchSession` at that time succeeds,
and afterwards `GetSession` and `GetSessionByUser` return the session again. -/
theorem C27_touch_revives_expired :
    ((NewWebAPISessionManager : WebAPISessionManager Unit).CreateSession () "Alice"
        ["presence"] (.ok "sid-1") 0).2.GetSession "sid-1" 4000
      = .error ErrWebAPISessionExpired
    ∧ (((NewWebAPISessionManager : WebAPISessionManager Unit).CreateSession () "Alice"
        ["presence"] (.ok "sid-1") 0).2.TouchSession "sid-1" 4000).1 = none
    ∧ (((NewWebAPISessionManager : WebAPISessionManager Unit).CreateSession () "Alice"
        ["presence"] (.ok "sid-1") 0).2.TouchSession "sid-1" 4000).2.GetSession "sid-1" 4001
      = .ok 0
    ∧ (((NewWebAPISessionManager : WebAPISessionManager Unit).CreateSession () "Alice"
        ["presence"] (.ok "sid-1") 0).2.TouchSession "sid-1" 4000).2.GetSessionByUser
        ⟨"alice"⟩ 4001 = .ok 0 := by
  refine ⟨?_, ?_, ?_, ?_⟩ <;> rfl

/-! ## Profiles and the buddy feed handlers -/

/-- C21, as stated, fails: with no profile stored for the screen name, `Profile`
returns the empty string and a nil error, not `ErrNoUser`. -/
theorem C21_counterexample :
    Profile { profile := [], fault := none } "sn2day" = ("", none)
    ∧ (Profile { profile := [], fault := none } "sn2day").2 ≠ some ErrNoUser := by
  decide

/-- C21, amended: when the query does not fail and no profile row is stored for
the screen name, `Profile` returns the empty string and a nil error. -/
theorem C21_profile_absent (db : ProfileDB) (screenName : String)
    (hfault : db.fault = none) (habsent : ∀ row ∈ db.profile, row.1 ≠ screenName) :
    Profile db screenName = ("", none) := by
  have hfind : db.profile.find? (fun row => row.1 == screenName) = none := by
    rw [List.find?_eq_none]
    intro row hrow
    simpa using habsent row hrow
  simp [Profile, ProfileDB.queryBody, hfault, hfind, ScanResult.scan]

/-- C21, amended, at a concrete input: another user has a profile. -/
theorem C21_profile_absent_witness :
    Profile { profile := [("other", some "hello")], fault := none } "sn2day" = ("", none) :=
  C21_profile_absent { profile := [("other", some "hello")], fault := none } "sn2day" rfl
    (by decide)

/-- C28 at the failing input: no session exists; a request with `a=anything`,
`s=victim` and the feed parameters makes `PushFeed` call `FeedManager.PushFeed`
for "victim" and answer 200. -/
theorem C28_push_feed_unauthenticated :
    (PushFeed (NewWebAPISessionManager : WebAPISessionManager Unit) (fun _ _ => none)
        (queryOf [("a", "anything"), ("s", "victim"), ("feedTitle", "T"), ("feedLink", "L"),
          ("feedDesc", "D"), ("itemTitle", "t"), ("itemLink", "l"), ("itemGuid", "g")]) 0).reply
      = .response 200 "OK" true
    ∧ (PushFeed (NewWebAPISessionManager : WebAPISessionManager Unit) (fun _ _ => none)
        (queryOf [("a", "anything"), ("s", "victim"), ("feedTitle", "T"), ("feedLink", "L"),
          ("feedDesc", "D"), ("itemTitle", "t"), ("itemLink", "l"), ("itemGuid", "g")])
        0).pushCalls
      = [("victim",
          [("title", .str "t"), ("description", .str ""), ("link", .str "l"),
           ("guid", .str "g"), ("feedTitle", .str "T"), ("feedLink", .str "L"),
           ("feedDesc", .str "D")])] := by
  decide

/-- C30 at the failing input: for `t=alice` and `f=atom`, `GetUser` asks
`GetUserFeed` for the "json" format and answers through `SendResponse`, not with
an Atom document. -/
theorem C30_get_user_atom :
    (GetUser toLowerASCII (fun sn format => .ok (sn ++ "/" ++ format))
        (queryOf [("t", "alice"), ("f", "atom")])).feedCalls = [("alice", "json")]
    ∧ (GetUser toLowerASCII (fun sn format => .ok (sn ++ "/" ++ format))
        (queryOf [("t", "alice"), ("f", "atom")])).reply = .response 200 "OK" "alice/json" := by
  decide

/-! ## The AMF3 sanitizer -/

/-- C29 at the failing input: a struct with a nil interface field and a nil
pointer field is turned by `sanitizeForAMF3` into a map that has nil values
under "extra" and "icon"; the same happens below a slice. -/
theorem C29_sanitize_keeps_nil :
    sanitizeForAMF3 ⟨fun _ => "", 0⟩
        (.struct "Buddy"
          [⟨"AimID", "aimId", true, false, .str "alice"⟩,
           ⟨"Extra", "extra", true, true, .nil⟩,
           ⟨"Icon", "icon", true, false, .ptr none⟩])
      = .map [("aimId", .str "alice"), ("extra", .nil), ("icon", .nil)]
    ∧ (sanitizeForAMF3 ⟨fun _ => "", 0⟩
        (.struct "Buddy"
          [⟨"AimID", "aimId", true, false, .str "alice"⟩,
           ⟨"Extra", "extra", true, true, .nil⟩,
           ⟨"Icon", "icon", true, false, .ptr none⟩])).hasNil = true
    ∧ (sanitizeForAMF3 ⟨fun _ => "", 0⟩
        (.slice [.struct "Buddy" [⟨"Extra", "extra", true, true, .nil⟩]])).hasNil = true
    ∧ (sanitizeForAMF3 ⟨fun _ => "", 0⟩
        (.map [("extra", .nil), ("data", .nil), ("items", .slice [.nil])])).hasNil = false := by
  refine ⟨?_, ?_, ?_, ?_⟩ <;> rfl

end RetroAim
